import Mathlib

/-!
Verification development for the CertNode certification pipeline
(src/certnode_config.py, src/cdp_processor.py, src/frame_processor.py,
src/stride_processor.py, src/ics_generator.py, src/vault_manager.py,
src/certnode_processor.py, src/certnode_api.py).

Modelling conventions (shallow embedding):
* Python `float` scores are modelled as exact rationals (`ℚ`); arithmetic on
  them is idealized as exact (no IEEE rounding), and `json.dumps` float
  serialization is modelled as the exact shortest decimal expansion.
* All nondeterministic inputs of the Python code (wall-clock timestamps from
  `datetime.utcnow()` / `datetime.now(timezone.utc)` and `uuid.uuid4()`) are
  passed as explicit parameters to the embedded functions, one per call site,
  in the order the Python code performs the calls.
* Python exceptions are modelled with `Option`/`Except`; a `none`/`.error`
  result corresponds to an exception escaping the translated block.
* Text processing (`str.lower`, `str.strip`, `str.split`, substring search)
  is modelled over the ASCII fragment actually exercised by the repository;
  `str.lower` maps `A..Z` to `a..z` and leaves other characters unchanged.
* Logging and file output are side effects with no influence on any return
  value and are omitted from the embedding.
-/

/- Batteries marks the `Rat` field operations `@[irreducible]`; the concrete
evaluations below need the elaborator to reduce them (the kernel always
can). -/
attribute [local semireducible] Rat.mul Rat.add Rat.inv Rat.sub

namespace Py

/-- Python `str.lower` restricted to ASCII letter folding. -/
def lowerChar (c : Char) : Char :=
  if c.toNat ≥ 65 ∧ c.toNat ≤ 90 then Char.ofNat (c.toNat + 32) else c

/-- Lowercase every character of a string (model of Python `str.lower()`). -/
def lower (s : String) : String :=
  ⟨s.data.map lowerChar⟩

/-- The character set that Python `str.strip()` and `str.split()` treat as
whitespace, restricted to the ASCII range used by this repository. -/
def isSpace (c : Char) : Bool :=
  c = ' ' ∨ c = '\t' ∨ c = '\n' ∨ c = '\x0d' ∨ c = '\x0b' ∨ c = '\x0c'

/-- Python `str.strip()` on character lists. -/
def stripList (l : List Char) : List Char :=
  ((l.dropWhile isSpace).reverse.dropWhile isSpace).reverse

/-- Python `str.strip()`. -/
def strip (s : String) : String :=
  ⟨stripList s.data⟩

/-- Auxiliary worker for whitespace splitting (Python `str.split()` with no
argument): accumulates the current word and flushes it at whitespace runs. -/
def splitWsAux : List Char → List Char → List (List Char)
  | [], acc => if acc.isEmpty then [] else [acc.reverse]
  | c :: rest, acc =>
    if isSpace c then
      if acc.isEmpty then splitWsAux rest [] else acc.reverse :: splitWsAux rest []
    else
      splitWsAux rest (c :: acc)

/-- Python `str.split()` with no argument: split on whitespace runs and drop
empty pieces. -/
def splitWs (s : String) : List String :=
  (splitWsAux s.data []).map fun l => ⟨l⟩

/-- Number of words of a string, Python `len(s.split())`. -/
def wordCount (s : String) : Nat :=
  (splitWs s).length

/-- Whether `pat` is a prefix of `l` (character lists). -/
def isPrefixList : List Char → List Char → Bool
  | [], _ => true
  | _ :: _, [] => false
  | p :: ps, c :: cs => p = c && isPrefixList ps cs

theorem dropWhile_len_le (p : Char → Bool) (l : List Char) :
    (l.dropWhile p).length ≤ l.length := by
  induction l with
  | nil => simp [List.dropWhile]
  | cons c rest ih =>
    simp only [List.dropWhile]
    split
    · exact Nat.le_trans ih (Nat.le_succ _)
    · exact Nat.le_refl _

/-- Auxiliary worker for `splitOn`: left-to-right scan for non-overlapping
occurrences of the (nonempty) separator.  The `fuel` argument only drives the
structural recursion; it is always at least the length of the scanned list,
so the fuel-exhausted branch is never taken. -/
def splitOnSepAux (sep : List Char) : Nat → List Char → List Char → List (List Char)
  | _, [], acc => [acc.reverse]
  | 0, l, acc => [acc.reverse ++ l]
  | fuel + 1, c :: rest, acc =>
    if isPrefixList sep (c :: rest) then
      acc.reverse :: splitOnSepAux sep fuel (List.drop (sep.length - 1) rest) []
    else
      splitOnSepAux sep fuel rest (c :: acc)

/-- Python `str.split(sep)` for a nonempty literal separator. -/
def splitOnSep (sep : String) (s : String) : List String :=
  (splitOnSepAux sep.data s.data.length s.data []).map fun l => ⟨l⟩

/-- Auxiliary worker for substring search (Python `sub in s`). -/
def containsSubAux (pat : List Char) : List Char → Bool
  | [] => isPrefixList pat []
  | c :: rest => isPrefixList pat (c :: rest) || containsSubAux pat rest

/-- Python substring test `sub in s`. -/
def containsSub (s sub : String) : Bool :=
  containsSubAux sub.data s.data

/-- Auxiliary worker for non-overlapping occurrence counting; fuelled
structural recursion as in `splitOnSepAux`. -/
def countSubAux (pat : List Char) : Nat → List Char → Nat
  | _, [] => 0
  | 0, _ => 0
  | fuel + 1, c :: rest =>
    if isPrefixList pat (c :: rest) then
      1 + countSubAux pat fuel (List.drop (pat.length - 1) rest)
    else
      countSubAux pat fuel rest

/-- Python `s.count(sub)` for a nonempty `sub`: non-overlapping left-to-right
occurrence count. -/
def countSub (s sub : String) : Nat :=
  countSubAux sub.data s.data.length s.data

/-- Auxiliary worker for `replace`: non-overlapping left-to-right replacement;
fuelled structural recursion as in `splitOnSepAux`. -/
def replaceAux (pat repl : List Char) : Nat → List Char → List Char
  | _, [] => []
  | 0, l => l
  | fuel + 1, c :: rest =>
    if isPrefixList pat (c :: rest) then
      repl ++ replaceAux pat repl fuel (List.drop (pat.length - 1) rest)
    else
      c :: replaceAux pat repl fuel rest

/-- Python `s.replace(old, new)` for a nonempty `old`. -/
def replace (s pat repl : String) : String :=
  ⟨replaceAux pat.data repl.data s.data.length s.data⟩

/-- Whether a character is a sentence-ending punctuation mark, the class
`[.!?]` of the sentence-splitting regular expression. -/
def isSentEnd (c : Char) : Bool :=
  c = '.' ∨ c = '!' ∨ c = '?'

/-- Auxiliary worker for the regex split on `[.!?]+(?:\s+|$)`: `acc` is the
current piece (reversed).  A maximal run of `[.!?]` followed by whitespace or
the end of the input is a delimiter; any other run is literal text.  Fuelled
structural recursion as in `splitOnSepAux`. -/
def splitSentRawAux : Nat → List Char → List Char → List (List Char)
  | _, [], acc => [acc.reverse]
  | 0, l, acc => [acc.reverse ++ l]
  | fuel + 1, c :: rest, acc =>
    if isSentEnd c then
      let run := (c :: rest).takeWhile isSentEnd
      let after := (c :: rest).dropWhile isSentEnd
      match after with
      | [] => [acc.reverse, []]
      | d :: _ =>
        if isSpace d then
          acc.reverse :: splitSentRawAux fuel (after.dropWhile isSpace) []
        else
          splitSentRawAux fuel after (run.reverse ++ acc)
    else
      splitSentRawAux fuel rest (c :: acc)

/-- Model of `re.split(r'[.!?]+(?:\s+|$)', text)` followed by
`[s.strip() for s in sentences if s.strip()]`, shared by
`CDPProcessor._split_sentences` and `STRIDEProcessor._split_sentences`. -/
def splitSentences (text : String) : List String :=
  ((splitSentRawAux text.data.length text.data []).map fun l => stripList l).filterMap
    fun l => if l.isEmpty then none else some ⟨l⟩

end Py

namespace Sha256

/-- Truncate to a 32-bit word. -/
def m32 (x : Nat) : Nat := x &&& 0xFFFFFFFF

/-- Rotate a 32-bit word right by `n`. -/
def rotr (n x : Nat) : Nat := m32 ((x >>> n) ||| (x <<< (32 - n)))

/-- The SHA-256 round constants (the FIPS 180-4 cube-root words, written
in decimal). -/
def K : List Nat :=
  [1116352408, 1899447441, 3049323471, 3921009573, 961987163, 1508970993, 2453635748, 2870763221,
   3624381080, 310598401, 607225278, 1426881987, 1925078388, 2162078206, 2614888103, 3248222580,
   3835390401, 4022224774, 264347078, 604807628, 770255983, 1249150122, 1555081692, 1996064986,
   2554220882, 2821834349, 2952996808, 3210313671, 3336571891, 3584528711, 113926993, 338241895,
   666307205, 773529912, 1294757372, 1396182291, 1695183700, 1986661051, 2177026350, 2456956037,
   2730485921, 2820302411, 3259730800, 3345764771, 3516065817, 3600352804, 4094571909, 275423344,
   430227734, 506948616, 659060556, 883997877, 958139571, 1322822218, 1537002063, 1747873779,
   1955562222, 2024104815, 2227730452, 2361852424, 2428436474, 2756734187, 3204031479, 3329325298]

/-- The SHA-256 initial hash value (the FIPS 180-4 square-root words,
written in decimal). -/
def H0 : List Nat :=
  [1779033703, 3144134277, 1013904242, 2773480762,
   1359893119, 2600822924, 528734635, 1541459225]

/-- Pad a byte message per the SHA-256 specification. -/
def pad (msg : List Nat) : List Nat :=
  let len := msg.length
  let zeroCount := (55 + 64 - len % 64) % 64
  let bitLen := 8 * len
  msg ++ [0x80] ++ List.replicate zeroCount 0 ++
    [(bitLen >>> 56) &&& 0xFF, (bitLen >>> 48) &&& 0xFF, (bitLen >>> 40) &&& 0xFF,
     (bitLen >>> 32) &&& 0xFF, (bitLen >>> 24) &&& 0xFF, (bitLen >>> 16) &&& 0xFF,
     (bitLen >>> 8) &&& 0xFF, bitLen &&& 0xFF]

/-- Convert 64 bytes into 16 big-endian 32-bit words. -/
def toWords : List Nat → List Nat
  | b0 :: b1 :: b2 :: b3 :: rest =>
    (((b0 <<< 8 ||| b1) <<< 8 ||| b2) <<< 8 ||| b3) :: toWords rest
  | _ => []

/-- Extend 16 message-schedule words to 64. -/
def schedule (ws : Array Nat) : Array Nat :=
  (List.range 48).foldl
    (fun w i =>
      let a := w[i + 1]!
      let b := w[i + 14]!
      let s0 := (rotr 7 a) ^^^ (rotr 18 a) ^^^ (a >>> 3)
      let s1 := (rotr 17 b) ^^^ (rotr 19 b) ^^^ (b >>> 10)
      w.push (m32 (w[i]! + s0 + w[i + 9]! + s1)))
    ws

/-- One SHA-256 compression round. -/
def round (st : List Nat) (kw : Nat × Nat) : List Nat :=
  match st with
  | [a, b, c, d, e, f, g, h] =>
    let s1 := (rotr 6 e) ^^^ (rotr 11 e) ^^^ (rotr 25 e)
    let ch := (e &&& f) ^^^ ((0xFFFFFFFF ^^^ e) &&& g)
    let t1 := m32 (h + s1 + ch + kw.1 + kw.2)
    let s0 := (rotr 2 a) ^^^ (rotr 13 a) ^^^ (rotr 22 a)
    let mj := (a &&& b) ^^^ (a &&& c) ^^^ (b &&& c)
    let t2 := m32 (s0 + mj)
    [m32 (t1 + t2), a, b, c, m32 (d + t1), e, f, g]
  | st => st

/-- Process one 64-byte block. -/
def processBlock (h : List Nat) (block : List Nat) : List Nat :=
  let w := schedule (toWords block).toArray
  let st := (K.zip w.toList).foldl round h
  (h.zip st).map fun p => m32 (p.1 + p.2)

/-- One byte of input fed into the running state: the first component is the
hash state, the second the current partial block in reverse byte order.  A
full 64-byte block is compressed immediately, so the padded message is
traversed exactly once. -/
def step (acc : List Nat × List Nat) (b : Nat) : List Nat × List Nat :=
  let block := b :: acc.2
  if block.length = 64 then (processBlock acc.1 block.reverse, []) else (acc.1, block)

/-- SHA-256 of a byte list, as the list of eight 32-bit state words.  The
padded message length is a multiple of 64, so the fold ends on a block
boundary with an empty partial block. -/
def digestWords (msg : List Nat) : List Nat :=
  ((pad msg).foldl step (H0, [])).1

/-- One lowercase hexadecimal digit. -/
def hexDigit (n : Nat) : Char :=
  if n < 10 then Char.ofNat (48 + n) else Char.ofNat (87 + n)

/-- Render a 32-bit word as eight lowercase hex digits. -/
def wordHex (w : Nat) : List Char :=
  [hexDigit ((w >>> 28) &&& 0xF), hexDigit ((w >>> 24) &&& 0xF),
   hexDigit ((w >>> 20) &&& 0xF), hexDigit ((w >>> 16) &&& 0xF),
   hexDigit ((w >>> 12) &&& 0xF), hexDigit ((w >>> 8) &&& 0xF),
   hexDigit ((w >>> 4) &&& 0xF), hexDigit (w &&& 0xF)]

/-- SHA-256 of a byte list as a 64-character lowercase hex string, the model
of `hashlib.sha256(data).hexdigest()`. -/
def hexDigest (msg : List Nat) : String :=
  ⟨(digestWords msg).flatMap wordHex⟩

end Sha256

namespace Py

/-- UTF-8 encoding of one character, Python `str.encode('utf-8')`. -/
def charUtf8 (c : Char) : List Nat :=
  let n := c.toNat
  if n < 0x80 then [n]
  else if n < 0x800 then [0xC0 ||| (n >>> 6), 0x80 ||| (n &&& 0x3F)]
  else if n < 0x10000 then
    [0xE0 ||| (n >>> 12), 0x80 ||| ((n >>> 6) &&& 0x3F), 0x80 ||| (n &&& 0x3F)]
  else
    [0xF0 ||| (n >>> 18), 0x80 ||| ((n >>> 12) &&& 0x3F),
     0x80 ||| ((n >>> 6) &&& 0x3F), 0x80 ||| (n &&& 0x3F)]

/-- UTF-8 encoding of a string, Python `s.encode('utf-8')`. -/
def encodeUtf8 (s : String) : List Nat :=
  s.data.flatMap charUtf8

/-- Model of `hashlib.sha256(s.encode('utf-8')).hexdigest()`. -/
def sha256Hex (s : String) : String :=
  Sha256.hexDigest (encodeUtf8 s)

end Py

namespace PyJson

/-- JSON values as built by the repository before calling `json.dumps`:
strings, booleans, integers, floats (modelled as exact rationals), arrays and
objects. -/
inductive JVal where
  | null
  | s (v : String)
  | b (v : Bool)
  | i (v : Int)
  | f (v : ℚ)
  | arr (xs : List JVal)
  | obj (fields : List (String × JVal))
deriving Repr

/-- Decimal digits of a natural number (fuelled worker). -/
def natDigitsAux : Nat → Nat → List Char
  | _, 0 => []
  | 0, _ => []
  | fuel + 1, n => natDigitsAux fuel (n / 10) ++ [Char.ofNat (48 + n % 10)]

/-- Decimal representation of a natural number. -/
def natRepr (n : Nat) : String :=
  if n = 0 then "0" else ⟨natDigitsAux (n + 1) n⟩

/-- Decimal representation of an integer, Python `repr(int)`. -/
def intRepr (n : Int) : String :=
  if n < 0 then "-" ++ natRepr n.natAbs else natRepr n.natAbs

/-- Fractional digits of `rem / den` (fuelled long division).  The fuel is
large enough for every score serialized by the repository model, all of which
have finite decimal expansions. -/
def fracDigitsAux : Nat → Nat → Nat → List Char
  | _, 0, _ => []
  | 0, _, _ => []
  | fuel + 1, rem, den =>
    Char.ofNat (48 + (rem * 10) / den) :: fracDigitsAux fuel ((rem * 10) % den) den

/-- Model of Python `repr(float)` on the exact rationals used by this
embedding: the exact decimal expansion, with a trailing `.0` for integral
values (idealizing IEEE-754 shortest-roundtrip printing as exact printing). -/
def floatRepr (q : ℚ) : String :=
  let sign := if q < 0 then "-" else ""
  let n := q.num.natAbs
  let d := q.den
  let whole := natRepr (n / d)
  let rem := n % d
  if rem = 0 then sign ++ whole ++ ".0"
  else sign ++ whole ++ "." ++ ⟨fracDigitsAux 64 rem d⟩

/-- Uppercase-free four-digit hex code for `\uXXXX` escapes. -/
def hex4 (n : Nat) : String :=
  ⟨[Sha256.hexDigit ((n >>> 12) &&& 0xF), Sha256.hexDigit ((n >>> 8) &&& 0xF),
    Sha256.hexDigit ((n >>> 4) &&& 0xF), Sha256.hexDigit (n &&& 0xF)]⟩

/-- Escape one character the way `json.dumps` does.  With `ensureAscii` every
character outside `0x20..0x7E` is escaped (`\uXXXX`, surrogate pairs beyond
the BMP); without it only `"`, `\` and control characters are escaped. -/
def escapeChar (ensureAscii : Bool) (c : Char) : List Char :=
  let n := c.toNat
  if c = Char.ofNat 34 then [Char.ofNat 92, Char.ofNat 34]
  else if c = Char.ofNat 92 then [Char.ofNat 92, Char.ofNat 92]
  else if n = 8 then (Char.ofNat 92) :: ['b']
  else if n = 9 then (Char.ofNat 92) :: ['t']
  else if n = 10 then (Char.ofNat 92) :: ['n']
  else if n = 12 then (Char.ofNat 92) :: ['f']
  else if n = 13 then (Char.ofNat 92) :: ['r']
  else if n < 0x20 then (Char.ofNat 92) :: 'u' :: (hex4 n).data
  else if ensureAscii ∧ n > 0x7E then
    if n < 0x10000 then (Char.ofNat 92) :: 'u' :: (hex4 n).data
    else
      let m := n - 0x10000
      ((Char.ofNat 92) :: 'u' :: (hex4 (0xD800 + (m >>> 10))).data) ++
        ((Char.ofNat 92) :: 'u' :: (hex4 (0xDC00 + (m &&& 0x3FF))).data)
  else [c]

/-- A JSON string literal as emitted by `json.dumps`. -/
def quoteStr (ensureAscii : Bool) (s : String) : String :=
  ⟨(Char.ofNat 34) :: s.data.flatMap (escapeChar ensureAscii) ++ [Char.ofNat 34]⟩

/-- Code-point lexicographic comparison of strings, the order Python uses to
sort `str` keys. -/
def strLt (a b : String) : Bool :=
  go a.data b.data
where
  go : List Char → List Char → Bool
    | [], [] => false
    | [], _ :: _ => true
    | _ :: _, [] => false
    | x :: xs, y :: ys =>
      if x.toNat < y.toNat then true
      else if y.toNat < x.toNat then false
      else go xs ys

/-- Insertion sort of object fields by key, modelling `sort_keys=True`. -/
def insertField (p : String × JVal) : List (String × JVal) → List (String × JVal)
  | [] => [p]
  | q :: rest => if strLt q.1 p.1 then q :: insertField p rest else p :: q :: rest

/-- Sort object fields by key (stable insertion sort). -/
def sortFields (l : List (String × JVal)) : List (String × JVal) :=
  l.foldr insertField []

/-- Fuelled worker for `dumps`; the fuel bounds the nesting depth, and every
object serialized by this embedding has depth far below the bound passed by
`dumps`. -/
def dumpsAux (ensureAscii : Bool) : Nat → JVal → String
  | 0, _ => ""
  | fuel + 1, v =>
    match v with
    | .null => "null"
    | .s v => quoteStr ensureAscii v
    | .b v => if v then "true" else "false"
    | .i v => intRepr v
    | .f v => floatRepr v
    | .arr xs =>
      "[" ++ String.intercalate ", " (xs.map (dumpsAux ensureAscii fuel)) ++ "]"
    | .obj fields =>
      "\x7b" ++
        String.intercalate ", "
          ((sortFields fields).map fun p =>
            quoteStr ensureAscii p.1 ++ ": " ++ dumpsAux ensureAscii fuel p.2) ++
        "\x7d"

/-- Model of `json.dumps(v, sort_keys=True, ensure_ascii=ensureAscii)` with the
default separators `", "` and `": "`. -/
def dumps (ensureAscii : Bool) (v : JVal) : String :=
  dumpsAux ensureAscii 16 v

end PyJson

namespace CertNodeConfig

/-- System version constants of `CertNodeConfig` (Genesis Locked). -/
def FRAME_VERSION : String := "v3.0.1"

/-- STRIDE version constant. -/
def STRIDE_VERSION : String := "L1↑.3"

/-- CDP version constant. -/
def CDP_VERSION : String := "v1.0.3"

/-- SECL version constant. -/
def SECL_VERSION : String := "v1.0"

/-- LCL version constant. -/
def LCL_VERSION : String := "v1.1"

/-- CertNode version constant. -/
def CERTNODE_VERSION : String := "v1.0.0"

/-- Operator constant. -/
def OPERATOR : String := "SRB Creative Holdings LLC"

/-- The keys of `CertNodeConfig.CERT_TYPES`, in insertion order. -/
def CERT_TYPE_KEYS : List String := ["CORE_AUTHORSHIP", "LOGIC_FRAGMENT", "DERIVATIVE"]

/-- The keys of `CertNodeConfig.SLOPE_TYPES`, in insertion order. -/
def SLOPE_TYPE_KEYS : List String :=
  ["INSTRUCTIONAL", "RECURSIVE", "DIAGNOSTIC", "COMPARATIVE", "THEORETICAL", "PERSUASIVE"]

/-- The keys of `CertNodeConfig.ANCHOR_TYPES`, in insertion order. -/
def ANCHOR_TYPE_KEYS : List String :=
  ["PRIMARY_SOURCE", "SYNTHETIC_RATIONALE", "CROSS_SOURCED_LOGIC", "CONTEXTUAL_RECALL"]

/-- Minimum words per paragraph (`MIN_PARAGRAPH_MASS`). -/
def MIN_PARAGRAPH_MASS : Nat := 50

/-- Minimum score for certification (`CERTIFICATION_THRESHOLD`). -/
def CERTIFICATION_THRESHOLD : ℚ := 7/10

/-- Hash algorithm tag (`HASH_ALGORITHM`). -/
def HASH_ALGORITHM : String := "sha256"

/-- Model of `CertNodeConfig.get_genesis_hash`.  The Python method embeds
`datetime.utcnow().isoformat()` into the hashed state, so the result depends
on the wall-clock instant of the call, passed here as `nowIso`. -/
def get_genesis_hash (nowIso : String) : String :=
  let system_state : PyJson.JVal := .obj
    [("versions", .obj
       [("frame", .s FRAME_VERSION), ("stride", .s STRIDE_VERSION),
        ("cdp", .s CDP_VERSION), ("secl", .s SECL_VERSION),
        ("lcl", .s LCL_VERSION), ("certnode", .s CERTNODE_VERSION)]),
     ("operator", .s OPERATOR),
     ("timestamp", .s nowIso),
     ("slope_types", .arr (SLOPE_TYPE_KEYS.map .s)),
     ("anchor_types", .arr (ANCHOR_TYPE_KEYS.map .s))]
  Py.sha256Hex (PyJson.dumps true system_state)

end CertNodeConfig

namespace PyTime

/-- A Python `datetime` value: microseconds since the Unix epoch (already
shifted to UTC for timezone-aware values) together with the awareness flag.
Subtracting a naive from an aware datetime raises `TypeError` in Python, so
the flag is part of the model. -/
structure PyDateTime where
  epochUs : Int
  aware : Bool
deriving Repr, DecidableEq

/-- Days from civil date (proleptic Gregorian) to the Unix epoch.  Standard
civil-calendar arithmetic with floor division. -/
def daysFromCivil (y m d : Int) : Int :=
  let yAdj := if m ≤ 2 then y - 1 else y
  let era := Int.fdiv yAdj 400
  let yoe := yAdj - era * 400
  let mp := if m > 2 then m - 3 else m + 9
  let doy := Int.fdiv (153 * mp + 2) 5 + d - 1
  let doe := yoe * 365 + Int.fdiv yoe 4 - Int.fdiv yoe 100 + doy
  era * 146097 + doe - 719468

/-- Whether a year is a Gregorian leap year. -/
def isLeap (y : Int) : Bool :=
  (y % 4 = 0 ∧ y % 100 ≠ 0) ∨ y % 400 = 0

/-- Number of days in a month. -/
def daysInMonth (y m : Int) : Int :=
  if m = 2 then (if isLeap y then 29 else 28)
  else if m = 4 ∨ m = 6 ∨ m = 9 ∨ m = 11 then 30
  else 31

/-- Value of a run of decimal digit characters (assumes digits). -/
def digitsVal (l : List Char) : Nat :=
  l.foldl (fun acc c => acc * 10 + (c.toNat - 48)) 0

/-- Parse a run of characters as a decimal number, `none` unless all are
digits. -/
def parseNat (l : List Char) : Option Nat :=
  if l.all (fun c => c.toNat ≥ 48 ∧ c.toNat ≤ 57) ∧ ¬l.isEmpty then
    some (digitsVal l)
  else none

/-- Parse the `HH:MM[:SS[.ffffff]]` time fragment into microseconds past
midnight. -/
def parseTime (l : List Char) : Option Int := do
  match l with
  | h1 :: h2 :: ':' :: m1 :: m2 :: rest => do
    let hh ← parseNat [h1, h2]
    let mm ← parseNat [m1, m2]
    if hh ≥ 24 ∨ mm ≥ 60 then none else
    let (ss, us) ← (do
      match rest with
      | [] => some (0, 0)
      | ':' :: s1 :: s2 :: rest2 => do
        let ss ← parseNat [s1, s2]
        if ss ≥ 60 then none else
        match rest2 with
        | [] => some (ss, 0)
        | '.' :: frac =>
          if frac.length = 6 then do
            let us ← parseNat frac
            some (ss, us)
          else if frac.length = 3 then do
            let ms ← parseNat frac
            some (ss, ms * 1000)
          else none
        | _ => none
      | _ => none)
    some ((((hh * 60 + mm) * 60 + ss) * 1000000 + us : Int))
  | _ => none

/-- Model of `datetime.fromisoformat` on the format family emitted by
`datetime.isoformat()`: `YYYY-MM-DD[*HH:MM[:SS[.ffffff]][±HH:MM]]`.
Returns `none` (Python `ValueError`) on any other shape. -/
def fromisoformat (s : String) : Option PyDateTime := do
  match s.data with
  | y1 :: y2 :: y3 :: y4 :: '-' :: m1 :: m2 :: '-' :: d1 :: d2 :: rest => do
    let y ← parseNat [y1, y2, y3, y4]
    let m ← parseNat [m1, m2]
    let d ← parseNat [d1, d2]
    if m < 1 ∨ m > 12 ∨ d < 1 ∨ (d : Int) > daysInMonth y m then none else
    let dayUs : Int := daysFromCivil y m d * 86400000000
    match rest with
    | [] => some ⟨dayUs, false⟩
    | _sep :: timeRest =>
      let splitOff (l : List Char) : List Char × Option (Bool × List Char) :=
        match l.findIdx? (fun c => c = '+' ∨ c = '-') with
        | none => (l, none)
        | some i => (l.take i, some ((l.get? i = some '+'), l.drop (i + 1)))
      let (timePart, offPart) := splitOff timeRest
      let tUs ← parseTime timePart
      match offPart with
      | none => some ⟨dayUs + tUs, false⟩
      | some (pos, off) =>
        match off with
        | o1 :: o2 :: ':' :: o3 :: o4 :: [] => do
          let oh ← parseNat [o1, o2]
          let om ← parseNat [o3, o4]
          if oh ≥ 24 ∨ om ≥ 60 then none else
          let offUs : Int := ((oh * 60 + om : Nat) : Int) * 60000000
          some ⟨dayUs + tUs - (if pos then offUs else -offUs), true⟩
        | _ => none
  | _ => none

/-- Python `timedelta.days`: floor division of the difference by one day. -/
def timedeltaDays (diffUs : Int) : Int :=
  Int.fdiv diffUs 86400000000

end PyTime

/-- Mean of a list of rationals, `statistics.mean`; only applied to nonempty
lists (Python raises `StatisticsError` on an empty list, which the embedding
rules out at every call site by guard or by returning `none`). -/
def meanQ (l : List ℚ) : ℚ := l.sum / l.length

namespace CDP

/-- Analysis results for a single paragraph (`cdp_processor.ParagraphAnalysis`). -/
structure ParagraphAnalysis where
  content : String
  word_count : Nat
  sentence_count : Nat
  slope_type : String
  anchor_type : String
  convergence_pattern : String
  logic_weight : ℚ
  clause_density : ℚ
  resolution_score : ℚ
deriving Repr, DecidableEq

/-- Complete CDP analysis result (`cdp_processor.CDPResult`). -/
structure CDPResult where
  paragraphs : List ParagraphAnalysis
  overall_slope : String
  structural_integrity : ℚ
  logic_continuity : ℚ
  convergence_achieved : Bool
  processing_metadata : List (String × PyJson.JVal)
deriving Repr

/-- Number of markers from `markers` that occur in `contentLower`
(`sum(1 for marker in markers if marker in content_lower)`). -/
def markerHits (contentLower : String) (markers : List String) : Nat :=
  (markers.filter fun marker => Py.containsSub contentLower marker).length

/-- Python `max(pairs, key=value)` over a nonempty list given as head and
tail: keeps the first pair attaining the maximal value. -/
def maxByValue : (String × Nat) → List (String × Nat) → (String × Nat)
  | best, [] => best
  | best, x :: rest => maxByValue (if x.2 > best.2 then x else best) rest

/-- Instructional slope markers of `CDPProcessor._detect_slope_type`. -/
def instructional_markers : List String :=
  ["how to", "first", "then", "next", "finally", "step by", "process"]

/-- Comparative slope markers. -/
def comparative_markers : List String :=
  ["compared to", "in contrast", "however", "whereas", "unlike", "similar to"]

/-- Theoretical slope markers. -/
def theoretical_markers : List String :=
  ["theory", "concept", "principle", "framework", "model", "paradigm"]

/-- Persuasive slope markers. -/
def persuasive_markers : List String :=
  ["should", "must", "ought", "therefore", "thus", "clearly", "obviously"]

/-- Diagnostic slope markers. -/
def diagnostic_markers : List String :=
  ["because", "due to", "caused by", "result of", "leads to", "explains why"]

/-- Recursive slope markers. -/
def recursive_markers : List String :=
  ["as mentioned", "as we saw", "returning to", "circle back", "revisiting"]

/-- Model of `CDPProcessor._detect_slope_type`: the first highest-scoring
slope category in the dictionary insertion order, defaulting to THEORETICAL
when every count is zero. -/
def detect_slope_type (content : String) (_position _total : Nat) : String :=
  let content_lower := Py.lower content
  let scores : List (String × Nat) :=
    [("INSTRUCTIONAL", markerHits content_lower instructional_markers),
     ("COMPARATIVE", markerHits content_lower comparative_markers),
     ("THEORETICAL", markerHits content_lower theoretical_markers),
     ("PERSUASIVE", markerHits content_lower persuasive_markers),
     ("DIAGNOSTIC", markerHits content_lower diagnostic_markers),
     ("RECURSIVE", markerHits content_lower recursive_markers)]
  match scores with
  | [] => "THEORETICAL"
  | x :: rest =>
    let best := maxByValue x rest
    if best.2 > 0 then best.1 else "THEORETICAL"

/-- Primary-source anchor indicators of `CDPProcessor._detect_anchor_type`. -/
def primary_indicators : List String :=
  ["study shows", "research indicates", "data reveals", "according to"]

/-- Synthetic-rationale anchor indicators. -/
def synthetic_indicators : List String :=
  ["it follows that", "we can conclude", "this suggests", "reasoning shows"]

/-- Cross-sourced-logic anchor indicators. -/
def cross_indicators : List String :=
  ["multiple sources", "various studies", "consensus shows", "collectively"]

/-- Contextual-recall anchor indicators. -/
def recall_indicators : List String :=
  ["historically", "traditionally", "commonly known", "established fact"]

/-- Model of `CDPProcessor._detect_anchor_type`. -/
def detect_anchor_type (content : String) : String :=
  let content_lower := Py.lower content
  let scores : List (String × Nat) :=
    [("PRIMARY_SOURCE", markerHits content_lower primary_indicators),
     ("SYNTHETIC_RATIONALE", markerHits content_lower synthetic_indicators),
     ("CROSS_SOURCED_LOGIC", markerHits content_lower cross_indicators),
     ("CONTEXTUAL_RECALL", markerHits content_lower recall_indicators)]
  match scores with
  | [] => "SYNTHETIC_RATIONALE"
  | x :: rest =>
    let best := maxByValue x rest
    if best.2 > 0 then best.1 else "SYNTHETIC_RATIONALE"

/-- Spiral markers of `CDPProcessor._detect_convergence_pattern`. -/
def spiral_markers : List String := ["again", "further", "deeper", "more importantly"]

/-- Model of `CDPProcessor._detect_convergence_pattern`. -/
def detect_convergence_pattern (content : String) (sentences : List String) : String :=
  if sentences.length < 2 then "TAPERED_LINEARITY"
  else
    let sentence_lengths := sentences.map Py.wordCount
    let first := sentence_lengths.headD 0
    let lastLen := sentence_lengths.getLastD 0
    let secondLast := (sentence_lengths.drop (sentence_lengths.length - 2)).headD 0
    if sentence_lengths.length ≥ 3 ∧ lastLen < first ∧ secondLast < first then
      "TAPERED_LINEARITY"
    else if sentences.any fun sentence =>
        Py.containsSub sentence "(" ∧ Py.containsSub sentence ")" then
      "NESTED_GLIDE"
    else if spiral_markers.any fun marker => Py.containsSub (Py.lower content) marker then
      "SPIRAL_DESCENT"
    else "ANCHOR_LOCK_CHAIN"

/-- Logical connectors of `CDPProcessor._calculate_logic_weight`. -/
def logical_connectors : List String :=
  ["therefore", "because", "since", "however", "although", "furthermore"]

/-- Qualifying phrases of `CDPProcessor._calculate_logic_weight`. -/
def qualifiers : List String :=
  ["perhaps", "likely", "suggests", "indicates", "appears", "seems"]

/-- Model of `CDPProcessor._calculate_logic_weight`; `none` models the
`StatisticsError` that `statistics.mean` raises when the paragraph has no
sentences. -/
def calculate_logic_weight (content : String) (sentences : List String) : Option ℚ :=
  if sentences.isEmpty then none
  else
    let connector_count := markerHits (Py.lower content) logical_connectors
    let qualifier_count := markerHits (Py.lower content) qualifiers
    let avg_sentence_length := meanQ (sentences.map fun sentence => (Py.wordCount sentence : ℚ))
    let complexity_factor := min (avg_sentence_length / 20) 2
    let raw_weight := ((connector_count + qualifier_count : Nat) : ℚ) * complexity_factor
    some (min (raw_weight / 10) 1)

/-- Model of `CDPProcessor._calculate_clause_density`. -/
def calculate_clause_density (sentences : List String) : ℚ :=
  let total_clauses : Nat := (sentences.map fun sentence =>
    Py.countSub sentence "," + Py.countSub sentence ";" +
      Py.countSub sentence " and " + Py.countSub sentence " but " + 1).sum
  if sentences.length = 0 then 0
  else
    let density : ℚ := (total_clauses : ℚ) / (sentences.length : ℚ)
    min (density / 5) 1

/-- Strong resolution indicators of `CDPProcessor._calculate_resolution_score`. -/
def strong_resolution : List String :=
  ["therefore", "thus", "consequently", "in conclusion", "ultimately"]

/-- Weak resolution indicators. -/
def weak_resolution : List String := ["however", "but", "although", "yet", "still"]

/-- Model of `CDPProcessor._calculate_resolution_score`: inspects only the
final sentence. -/
def calculate_resolution_score (_content : String) (sentences : List String) : ℚ :=
  if sentences.length < 2 then 1/2
  else
    match sentences.getLast? with
    | none => 1/2
    | some lastSentence =>
      let last_sentence := Py.lower lastSentence
      let strong_count := markerHits last_sentence strong_resolution
      let weak_count := markerHits last_sentence weak_resolution
      if strong_count > 0 then min (7/10 + (strong_count : ℚ) * (1/10)) 1
      else if weak_count > 0 then max (3/10 - (weak_count : ℚ) * (1/10)) 0
      else 1/2

/-- Model of `CDPProcessor._analyze_paragraph`; `none` propagates the
`StatisticsError` of `_calculate_logic_weight`. -/
def analyze_paragraph (content : String) (position total : Nat) :
    Option ParagraphAnalysis := do
  let words := Py.splitWs content
  let sentences := Py.splitSentences content
  let slope_type := detect_slope_type content position total
  let anchor_type := detect_anchor_type content
  let convergence_pattern := detect_convergence_pattern content sentences
  let logic_weight ← calculate_logic_weight content sentences
  let clause_density := calculate_clause_density sentences
  let resolution_score := calculate_resolution_score content sentences
  some
    { content := content
      word_count := words.length
      sentence_count := sentences.length
      slope_type := slope_type
      anchor_type := anchor_type
      convergence_pattern := convergence_pattern
      logic_weight := logic_weight
      clause_density := clause_density
      resolution_score := resolution_score }

/-- Model of `CDPProcessor._extract_paragraphs`: split on blank lines, strip,
drop empties, and keep only paragraphs of at least `MIN_PARAGRAPH_MASS`
words. -/
def extract_paragraphs (content : String) : List String :=
  let paragraphs := ((Py.splitOnSep "\n\n" content).map Py.strip).filter
    fun p => ¬p.isEmpty
  paragraphs.filter fun para => Py.wordCount para ≥ CertNodeConfig.MIN_PARAGRAPH_MASS

/-- Insert-or-increment for the slope frequency table, preserving first
insertion order as a Python dict does. -/
def incrCount (k : String) : List (String × Nat) → List (String × Nat)
  | [] => [(k, 1)]
  | (k2, n) :: rest => if k2 = k then (k2, n + 1) :: rest else (k2, n) :: incrCount k rest

/-- Model of `CDPProcessor._determine_overall_slope`. -/
def determine_overall_slope (paragraphs : List ParagraphAnalysis) : String :=
  if paragraphs.isEmpty then "THEORETICAL"
  else
    let slope_counts := paragraphs.foldl (fun acc para => incrCount para.slope_type acc) []
    match slope_counts with
    | [] => "THEORETICAL"
    | x :: rest => (maxByValue x rest).1

/-- Model of `CDPProcessor._calculate_structural_integrity`. -/
def calculate_structural_integrity (paragraphs : List ParagraphAnalysis) : ℚ :=
  if paragraphs.isEmpty then 0
  else
    let avg_logic_weight := meanQ (paragraphs.map (·.logic_weight))
    let avg_clause_density := meanQ (paragraphs.map (·.clause_density))
    let avg_resolution := meanQ (paragraphs.map (·.resolution_score))
    (avg_logic_weight + avg_clause_density + avg_resolution) / 3

/-- Model of `CDPProcessor._calculate_logic_continuity`. -/
def calculate_logic_continuity (paragraphs : List ParagraphAnalysis) : ℚ :=
  if paragraphs.length < 2 then 1
  else
    let continuity_scores := (paragraphs.zip paragraphs.tail).map fun pair =>
      let current := pair.1
      let next_para := pair.2
      let slope_consistency : ℚ :=
        if current.slope_type = next_para.slope_type then 1 else 1/2
      let weight_diff := |current.logic_weight - next_para.logic_weight|
      let weight_consistency := max 0 (1 - weight_diff)
      let transition_score := (current.resolution_score + next_para.logic_weight) / 2
      (slope_consistency + weight_consistency + transition_score) / 3
    meanQ continuity_scores

/-- Model of `CDPProcessor._assess_convergence`. -/
def assess_convergence (paragraphs : List ParagraphAnalysis) : Bool :=
  if paragraphs.isEmpty then false
  else
    let structural_integrity := calculate_structural_integrity paragraphs
    let logic_continuity := calculate_logic_continuity paragraphs
    let final_resolution :=
      match paragraphs.getLast? with
      | some p => p.resolution_score
      | none => 0
    structural_integrity ≥ 6/10 ∧ logic_continuity ≥ 6/10 ∧ final_resolution ≥ 6/10

/-- Enumerate with indices, modelling Python `enumerate`. -/
def enumIdx (l : List α) : List (Nat × α) := l.enum

/-- Run an `Option`-valued function over a list, failing at the first `none`:
the Python `for` loop appending each analysis, with a raised exception
propagating out of the whole loop. -/
def mapA (f : α → Option β) : List α → Option (List β)
  | [] => some []
  | x :: xs => do
    let y ← f x
    let ys ← mapA f xs
    some (y :: ys)

/-- Model of `CDPProcessor.process_content`.  Returns `none` when a raised
`StatisticsError` escapes the method (a paragraph that passes the word filter
but yields no sentences). -/
def process_content (content : String) (author_id : Option String) :
    Option CDPResult := do
  let paragraphs := extract_paragraphs content
  let paragraph_analyses ← mapA (fun p => analyze_paragraph p.2 p.1 paragraphs.length)
    (enumIdx paragraphs)
  let overall_slope := determine_overall_slope paragraph_analyses
  let structural_integrity := calculate_structural_integrity paragraph_analyses
  let logic_continuity := calculate_logic_continuity paragraph_analyses
  let convergence_achieved := assess_convergence paragraph_analyses
  some
    { paragraphs := paragraph_analyses
      overall_slope := overall_slope
      structural_integrity := structural_integrity
      logic_continuity := logic_continuity
      convergence_achieved := convergence_achieved
      processing_metadata :=
        [("total_paragraphs", .i paragraphs.length),
         ("total_words", .i ((paragraph_analyses.map (·.word_count)).sum : Nat)),
         ("processing_version", .s CertNodeConfig.CDP_VERSION),
         ("author_id", match author_id with | some a => .s a | none => .null)] }

end CDP

namespace FRAME

/-- A structural boundary constraint (`frame_processor.StructuralBoundary`). -/
structure StructuralBoundary where
  boundary_type : String
  min_value : ℚ
  max_value : ℚ
  target_value : ℚ
  weight : ℚ
deriving Repr, DecidableEq

/-- Taper analysis record (`frame_processor.TaperAnalysis`). -/
structure TaperAnalysis where
  taper_achieved : Bool
  taper_score : ℚ
  taper_pattern : String
  resolution_strength : ℚ
deriving Repr, DecidableEq

/-- Complete FRAME analysis result (`frame_processor.FRAMEResult`). -/
structure FRAMEResult where
  boundaries_satisfied : Bool
  boundary_violations : List String
  taper_analysis : TaperAnalysis
  slope_resolution : Bool
  structural_score : ℚ
  logical_consistency : ℚ
  evidence_quality : ℚ
  reasoning_clarity : ℚ
  recommendations : List String
  metadata : List (String × PyJson.JVal)
deriving Repr

/-- The fixed boundary table of `FRAMEProcessor._initialize_boundaries`, as
the association list of its dictionary in insertion order. -/
def boundaries : List (String × StructuralBoundary) :=
  [("min_paragraphs", ⟨"paragraph_count", 2, 50, 8, 8/10⟩),
   ("logic_weight", ⟨"logic_weight", 3/10, 1, 7/10, 1⟩),
   ("clause_density", ⟨"clause_density", 2/10, 1, 6/10, 9/10⟩),
   ("resolution_score", ⟨"resolution_score", 4/10, 1, 8/10, 1⟩),
   ("structural_integrity", ⟨"structural_integrity", 5/10, 1, 75/100, 1⟩),
   ("logic_continuity", ⟨"logic_continuity", 4/10, 1, 7/10, 9/10⟩)]

/-- Python `f"{x:.2f}"` rounding used in the violation messages: two decimal
digits with banker-free half-away rounding idealized as exact decimal
rounding of the rational score. -/
def fmt2f (q : ℚ) : String :=
  let sign := if q < 0 then "-" else ""
  let cents : Int := Int.floor (|q| * 100 + 1/2)
  let whole := cents / 100
  let frac := (cents % 100).toNat
  sign ++ PyJson.natRepr whole.toNat ++ "." ++
    ⟨[Sha256.hexDigit (frac / 10), Sha256.hexDigit (frac % 10)]⟩

/-- Model of `FRAMEProcessor._check_boundaries`. -/
def check_boundaries (cdp_result : CDP.CDPResult) : Bool × List String :=
  let para_count := cdp_result.paragraphs.length
  let violations1 : List String :=
    if (para_count : ℚ) < 2 then
      ["Insufficient paragraphs: " ++ PyJson.natRepr para_count ++ " < 2.0"]
    else if (para_count : ℚ) > 50 then
      ["Excessive paragraphs: " ++ PyJson.natRepr para_count ++ " > 50.0"]
    else []
  let violations2 : List String :=
    if cdp_result.structural_integrity < 5/10 then
      ["Low structural integrity: " ++ fmt2f cdp_result.structural_integrity ++ " < 0.5"]
    else []
  let violations3 : List String :=
    if cdp_result.logic_continuity < 4/10 then
      ["Poor logic continuity: " ++ fmt2f cdp_result.logic_continuity ++ " < 0.4"]
    else []
  let violations := violations1 ++ violations2 ++ violations3
  (violations.length = 0, violations)

/-- Model of `FRAMEProcessor._check_descending_taper`. -/
def check_descending_taper (word_counts : List Nat) : Bool :=
  if word_counts.length < 3 then false
  else
    let third_length0 := word_counts.length / 3
    let third_length := if third_length0 = 0 then 1 else third_length0
    let first_third_avg : ℚ :=
      ((word_counts.take third_length).sum : ℚ) / (third_length : ℚ)
    let last_third_avg : ℚ :=
      ((word_counts.drop (word_counts.length - third_length)).sum : ℚ) / (third_length : ℚ)
    last_third_avg ≤ first_third_avg * (8/10)

/-- Model of `FRAMEProcessor._check_resolution_taper`. -/
def check_resolution_taper (logic_weights : List ℚ) : Bool :=
  if logic_weights.length < 3 then false
  else
    let final_weight := logic_weights.getLastD 0
    let avg_weight :=
      (logic_weights.take (logic_weights.length - 1)).sum /
        ((logic_weights.length - 1 : Nat) : ℚ)
    final_weight ≥ avg_weight

/-- Model of `FRAMEProcessor._analyze_taper`. -/
def analyze_taper (paragraphs : List CDP.ParagraphAnalysis) : TaperAnalysis :=
  if paragraphs.length < 3 then
    { taper_achieved := false
      taper_score := 1/2
      taper_pattern := "insufficient_length"
      resolution_strength :=
        match paragraphs.getLast? with
        | some p => p.resolution_score
        | none => 0 }
  else
    let word_counts := paragraphs.map (·.word_count)
    let descending_taper := check_descending_taper word_counts
    let logic_weights := paragraphs.map (·.logic_weight)
    let resolution_taper := check_resolution_taper logic_weights
    let (taper_pattern, taper_score) : String × ℚ :=
      if descending_taper ∧ resolution_taper then ("optimal_convergent", 9/10)
      else if descending_taper then ("length_convergent", 7/10)
      else if resolution_taper then ("logic_convergent", 8/10)
      else ("non_convergent", 3/10)
    { taper_achieved := taper_score ≥ 6/10
      taper_score := taper_score
      taper_pattern := taper_pattern
      resolution_strength :=
        match paragraphs.getLast? with
        | some p => p.resolution_score
        | none => 0 }

/-- Model of `FRAMEProcessor._check_slope_resolution`. -/
def check_slope_resolution (cdp_result : CDP.CDPResult) : Bool :=
  if ¬cdp_result.convergence_achieved then false
  else if cdp_result.paragraphs.isEmpty then false
  else
    let final_resolution :=
      match cdp_result.paragraphs.getLast? with
      | some p => p.resolution_score
      | none => 0
    final_resolution ≥ 6/10

/-- Model of `FRAMEProcessor._calculate_structural_score`. -/
def calculate_structural_score (boundaries_satisfied : Bool)
    (taper_analysis : TaperAnalysis) (slope_resolution : Bool) : ℚ :=
  let boundary_score : ℚ := if boundaries_satisfied then 1 else 1/2
  let taper_score := taper_analysis.taper_score
  let resolution_score : ℚ := if slope_resolution then 1 else 3/10
  (4/10) * boundary_score + (3/10) * taper_score + (3/10) * resolution_score

/-- Model of `FRAMEProcessor._calculate_logical_consistency`. -/
def calculate_logical_consistency (cdp_result : CDP.CDPResult) : ℚ :=
  cdp_result.logic_continuity

/-- Model of `FRAMEProcessor._calculate_evidence_quality`. -/
def calculate_evidence_quality (cdp_result : CDP.CDPResult) : ℚ :=
  if cdp_result.paragraphs.isEmpty then 0
  else
    let primary_count :=
      (cdp_result.paragraphs.filter fun p => p.anchor_type = "PRIMARY_SOURCE").length
    let evidence_ratt : ℚ := (primary_count : ℚ) / (cdp_result.paragraphs.length : ℚ)
    (evidence_ratt + cdp_result.structural_integrity) / 2

/-- Model of `FRAMEProcessor._calculate_reasoning_clarity`. -/
def calculate_reasoning_clarity (cdp_result : CDP.CDPResult) : ℚ :=
  if cdp_result.paragraphs.isEmpty then 0
  else
    let avg_logic_weight :=
      (cdp_result.paragraphs.map (·.logic_weight)).sum /
        (cdp_result.paragraphs.length : ℚ)
    let convergence_bonus : ℚ := if cdp_result.convergence_achieved then 2/10 else 0
    min (avg_logic_weight + convergence_bonus) 1

/-- Remediation string chosen for one boundary violation in
`FRAMEProcessor._generate_recommendations`. -/
def violationRec (violation : String) : List String :=
  let v := Py.lower violation
  if Py.containsSub v "paragraphs" then
    if Py.containsSub v "insufficient" then ["Add more paragraphs to develop logic fully"]
    else ["Consolidate paragraphs to improve focus"]
  else if Py.containsSub v "logic weight" then
    ["Strengthen logical reasoning with more connectors and qualifiers"]
  else if Py.containsSub v "clause density" then
    ["Increase sentence complexity with more interlocking clauses"]
  else if Py.containsSub v "resolution" then
    ["Strengthen final paragraph with decisive conclusion"]
  else if Py.containsSub v "continuity" then
    ["Improve logical flow between paragraphs"]
  else []

/-- Order-preserving deduplication, the final loop of
`FRAMEProcessor._generate_recommendations`. -/
def dedupPreserve (l : List String) : List String :=
  (l.foldl (fun acc rec => if acc.contains rec then acc else acc ++ [rec]) [])

/-- Model of `FRAMEProcessor._generate_recommendations`. -/
def generate_recommendations (violations : List String)
    (taper_analysis : TaperAnalysis) (slope_resolution : Bool) : List String :=
  let fromViolations := violations.flatMap violationRec
  let fromTaper : List String :=
    if ¬taper_analysis.taper_achieved then
      if taper_analysis.taper_pattern = "non_convergent" then
        ["Restructure content to converge toward clear resolution"]
      else if ¬Py.containsSub taper_analysis.taper_pattern "length" then
        ["Taper paragraph length toward conclusion"]
      else []
    else []
  let fromResolution : List String :=
    if ¬slope_resolution then
      ["Strengthen logical conclusion to achieve slope resolution"]
    else []
  dedupPreserve (fromViolations ++ fromTaper ++ fromResolution)

/-- Model of `FRAMEProcessor.process_content`; `nowIso` is the value of the
`datetime.utcnow().isoformat()` call in `_get_timestamp`. -/
def process_content (cdp_result : CDP.CDPResult) (nowIso : String) : FRAMEResult :=
  let bv := check_boundaries cdp_result
  let boundaries_satisfied := bv.1
  let violations := bv.2
  let taper_analysis := analyze_taper cdp_result.paragraphs
  let slope_resolution := check_slope_resolution cdp_result
  let structural_score :=
    calculate_structural_score boundaries_satisfied taper_analysis slope_resolution
  { boundaries_satisfied := boundaries_satisfied
    boundary_violations := violations
    taper_analysis := taper_analysis
    slope_resolution := slope_resolution
    structural_score := structural_score
    logical_consistency := calculate_logical_consistency cdp_result
    evidence_quality := calculate_evidence_quality cdp_result
    reasoning_clarity := calculate_reasoning_clarity cdp_result
    recommendations := generate_recommendations violations taper_analysis slope_resolution
    metadata :=
      [("frame_version", .s CertNodeConfig.FRAME_VERSION),
       ("boundaries_checked", .i boundaries.length),
       ("processing_timestamp", .s nowIso)] }

end FRAME

namespace STRIDE

/-- The ASCII apostrophe, used to spell marker phrases. -/
def apos : String := (Char.ofNat 39).toString

/-- Rhythm pattern analysis (`stride_processor.RhythmAnalysis`).  Python's
`sentence_variation` is `min(stdev/mean, 1.0)`, which involves a square root;
the embedding stores its square `sentence_variation_sq = min((stdev/mean)^2,
1.0)` instead, an order-preserving encoding on the nonnegative reals, so every
threshold comparison against it is squared accordingly. -/
structure RhythmAnalysis where
  rhythm_detected : Bool
  rhythm_score : ℚ
  rhythm_patterns : List String
  sentence_variation_sq : ℚ
deriving Repr, DecidableEq

/-- Tone analysis (`stride_processor.ToneAnalysis`). -/
structure ToneAnalysis where
  tone_neutrality : ℚ
  emotional_markers : List String
  persuasion_intensity : ℚ
  objectivity_score : ℚ
deriving Repr, DecidableEq

/-- Drift detection (`stride_processor.DriftDetection`). -/
structure DriftDetection where
  rhetorical_drift : Bool
  style_drift : Bool
  emotional_drift : Bool
  drift_severity : ℚ
  drift_markers : List String
deriving Repr, DecidableEq

/-- Complete STRIDE analysis result (`stride_processor.STRIDEResult`).  The
`recommendations` field models Python's `list(set(...))` as order-preserving
deduplication; the iteration order of a Python `set` of strings is
unspecified (hash-salted per process), and no theorem below depends on the
order of this field. -/
structure STRIDEResult where
  tone_analysis : ToneAnalysis
  rhythm_analysis : RhythmAnalysis
  drift_detection : DriftDetection
  suppression_needed : Bool
  suppression_score : ℚ
  recommendations : List String
  metadata : List (String × PyJson.JVal)
deriving Repr

/-- Rhetorical drift markers of `STRIDEProcessor._initialize_drift_markers`. -/
def rhetorical_markers : List String :=
  ["magnificent", "incredible", "amazing", "stunning", "remarkable",
   "extraordinary", "phenomenal", "fantastic", "brilliant", "spectacular",
   "obviously", "clearly", "undoubtedly", "certainly", "absolutely"]

/-- Emotional drift markers. -/
def emotional_markers : List String :=
  ["devastating", "heartbreaking", "thrilling", "exciting", "shocking",
   "alarming", "disturbing", "inspiring", "uplifting", "depressing",
   "frustrating", "infuriating", "delightful", "wonderful", "terrible"]

/-- Persuasive drift markers. -/
def persuasive_markers : List String :=
  ["you must", "you should", "you need to", "you have to",
   "we must", "we should", "we need to", "it" ++ apos ++ "s essential",
   "it" ++ apos ++ "s crucial", "it" ++ apos ++ "s vital",
   "it" ++ apos ++ "s imperative", "don" ++ apos ++ "t forget"]

/-- Stylistic drift markers. -/
def stylistic_markers : List String :=
  ["imagine", "picture this", "let me tell you", "here" ++ apos ++ "s the thing",
   "the bottom line", "at the end of the day", "when all is said and done",
   "truth be told", "to be honest", "frankly speaking"]

/-- Rhythm intensifier markers. -/
def rhythm_intensifiers : List String :=
  ["again and again", "over and over", "time and time again",
   "more and more", "bigger and bigger", "faster and faster",
   "round and round", "up and down", "back and forth"]

/-- Model of `STRIDEProcessor._analyze_tone`. -/
def analyze_tone (paragraphs : List CDP.ParagraphAnalysis) : ToneAnalysis :=
  let perPara := paragraphs.map fun para =>
    let content_lower := Py.lower para.content
    let para_emotional := emotional_markers.filter fun marker =>
      Py.containsSub content_lower marker
    let persuasion_count := CDP.markerHits content_lower persuasive_markers
    let persuasion_score := min ((persuasion_count : ℚ) / 5) 1
    let subjective_count :=
      CDP.markerHits content_lower (rhetorical_markers ++ stylistic_markers)
    let objectivity := max 0 (1 - (subjective_count : ℚ) / 10)
    (para_emotional, persuasion_score, objectivity)
  let emotional_found := (perPara.map (·.1)).flatten
  let persuasion_scores := perPara.map (·.2.1)
  let objectivity_scores := perPara.map (·.2.2)
  let tone_neutrality := if objectivity_scores.isEmpty then 0 else meanQ objectivity_scores
  let persuasion_intensity := if persuasion_scores.isEmpty then 0 else meanQ persuasion_scores
  { tone_neutrality := tone_neutrality
    emotional_markers := emotional_found
    persuasion_intensity := persuasion_intensity
    objectivity_score := tone_neutrality }

/-- Model of `STRIDEProcessor._detect_repetitive_patterns`. -/
def detect_repetitive_patterns (sentences : List String) : List String :=
  if sentences.length < 2 then []
  else
    let starters := (sentences.filter fun s => (Py.splitWs s).length ≥ 2).map
      fun s => Py.lower (String.intercalate " " ((Py.splitWs s).take 2))
    let starter_counts := starters.foldl (fun acc st => CDP.incrCount st acc) []
    (starter_counts.filter fun p => p.2 > 2).map
      fun p => "repeated_starter: " ++ p.1

/-- Whether a lowercase word consists only of alphabetic characters, Python
`str.isalpha` restricted to ASCII. -/
def isAlphaWord (w : String) : Bool :=
  ¬w.isEmpty ∧ w.data.all fun c =>
    (c.toNat ≥ 97 ∧ c.toNat ≤ 122) ∨ (c.toNat ≥ 65 ∧ c.toNat ≤ 90)

/-- First triple of consecutive equal letters, if any. -/
def firstTriple : List Char → Option Char
  | a :: b :: c :: rest =>
    if a = b ∧ b = c then some a else firstTriple (b :: c :: rest)
  | _ => none

/-- Model of `STRIDEProcessor._detect_sound_patterns`: simple alliteration
detection, at most one pattern per sentence. -/
def detect_sound_patterns (sentences : List String) : List String :=
  sentences.flatMap fun sentence =>
    let words := Py.splitWs (Py.lower sentence)
    if words.length < 3 then []
    else
      let first_letters := (words.filter isAlphaWord).map fun w => w.data.headD ' '
      if first_letters.length ≥ 3 then
        match firstTriple first_letters with
        | some c => ["alliteration_detected: " ++ c.toString]
        | none => []
      else []

/-- Model of `STRIDEProcessor._analyze_rhythm`. -/
def analyze_rhythm (paragraphs : List CDP.ParagraphAnalysis) : RhythmAnalysis :=
  let perPara := paragraphs.map fun para =>
    let content := para.content
    let sentences := Py.splitSentences content
    let para_lengths := sentences.map Py.wordCount
    let content_lower := Py.lower content
    let intensifier_hits := rhythm_intensifiers.filter fun marker =>
      Py.containsSub content_lower marker
    let patterns := intensifier_hits ++ detect_repetitive_patterns sentences ++
      detect_sound_patterns sentences
    (para_lengths, patterns)
  let sentence_lengths := (perPara.map (·.1)).flatten
  let rhythm_patterns := (perPara.map (·.2)).flatten
  let variation_sq := calculate_sentence_variation_sq sentence_lengths
  let rhythm_score := min ((rhythm_patterns.length : ℚ) / 10) 1
  { rhythm_detected := rhythm_score > 3/10
    rhythm_score := rhythm_score
    rhythm_patterns := rhythm_patterns
    sentence_variation_sq := variation_sq }
where
  /-- Model of `STRIDEProcessor._calculate_sentence_variation`, squared: the
  Python function returns `min(stdev/mean, 1.0)` (sample standard deviation);
  the embedding returns the square of that value. -/
  calculate_sentence_variation_sq (sentence_lengths : List Nat) : ℚ :=
    if sentence_lengths.length < 2 then 0
    else
      let mean_length := meanQ (sentence_lengths.map fun n => (n : ℚ))
      if mean_length = 0 then 0
      else
        let variance :=
          ((sentence_lengths.map fun n => ((n : ℚ) - mean_length) ^ 2).sum) /
            ((sentence_lengths.length - 1 : Nat) : ℚ)
        min (variance / mean_length ^ 2) 1

/-- Model of `STRIDEProcessor._detect_drift`. -/
def detect_drift (paragraphs : List CDP.ParagraphAnalysis)
    (tone_analysis : ToneAnalysis) (rhythm_analysis : RhythmAnalysis) :
    DriftDetection :=
  let rhetorical_count := (paragraphs.map fun para =>
    CDP.markerHits (Py.lower para.content) rhetorical_markers).sum
  let rhetorical_drift := rhetorical_count > paragraphs.length
  let style_count := (paragraphs.map fun para =>
    CDP.markerHits (Py.lower para.content) stylistic_markers).sum
  let style_drift := (style_count : ℚ) > (paragraphs.length : ℚ) * (1/2)
  let emotional_drift := tone_analysis.emotional_markers.length > paragraphs.length
  let drift_markers :=
    (if rhetorical_drift then ["excessive_rhetorical_language"] else []) ++
    (if style_drift then ["stylistic_language_detected"] else []) ++
    (if emotional_drift then ["emotional_language_excessive"] else [])
  let drift_factors : List Bool :=
    [rhetorical_drift, style_drift, emotional_drift,
     rhythm_analysis.rhythm_detected,
     tone_analysis.persuasion_intensity > 1/2]
  let drift_severity :=
    ((drift_factors.filter id).length : ℚ) / (drift_factors.length : ℚ)
  { rhetorical_drift := rhetorical_drift
    style_drift := style_drift
    emotional_drift := emotional_drift
    drift_severity := drift_severity
    drift_markers := drift_markers }

/-- Model of `STRIDEProcessor._needs_suppression`. -/
def needs_suppression (tone_analysis : ToneAnalysis)
    (rhythm_analysis : RhythmAnalysis) (drift_detection : DriftDetection) : Bool :=
  let suppression_triggers : List Bool :=
    [tone_analysis.tone_neutrality < 6/10,
     rhythm_analysis.rhythm_detected,
     drift_detection.drift_severity > 4/10,
     tone_analysis.persuasion_intensity > 1/2]
  (suppression_triggers.filter id).length ≥ 2

/-- Model of `STRIDEProcessor._calculate_suppression_score`. -/
def calculate_suppression_score (tone_analysis : ToneAnalysis)
    (rhythm_analysis : RhythmAnalysis) (drift_detection : DriftDetection) : ℚ :=
  let tone_factor := 1 - tone_analysis.tone_neutrality
  let rhythm_factor := rhythm_analysis.rhythm_score
  let drift_factor := drift_detection.drift_severity
  let persuasion_factor := tone_analysis.persuasion_intensity
  (3/10) * tone_factor + (2/10) * rhythm_factor + (3/10) * drift_factor +
    (2/10) * persuasion_factor

/-- Model of `STRIDEProcessor._generate_recommendations`, with `list(set(_))`
modelled as order-preserving deduplication (see `STRIDEResult`). -/
def generate_recommendations (tone_analysis : ToneAnalysis)
    (rhythm_analysis : RhythmAnalysis) (drift_detection : DriftDetection) :
    List String :=
  let recs :=
    (if tone_analysis.tone_neutrality < 6/10 then
      ["Increase tone neutrality by removing subjective language"] else []) ++
    (if ¬tone_analysis.emotional_markers.isEmpty then
      ["Replace emotional language with objective descriptions"] else []) ++
    (if tone_analysis.persuasion_intensity > 1/2 then
      ["Reduce persuasive language in favor of informational presentation"] else []) ++
    (if rhythm_analysis.rhythm_detected then
      ["Eliminate rhythmic patterns that prioritize sound over logic"] else []) ++
    (if rhythm_analysis.sentence_variation_sq > (7/10) ^ 2 then
      ["Standardize sentence structure for logical consistency"] else []) ++
    (if drift_detection.rhetorical_drift then
      ["Remove rhetorical embellishments and focus on logical content"] else []) ++
    (if drift_detection.style_drift then
      ["Eliminate stylistic devices that distract from logical flow"] else []) ++
    (if drift_detection.emotional_drift then
      ["Replace emotional appeals with factual presentation"] else []) ++
    (drift_detection.drift_markers.flatMap fun marker =>
      if Py.containsSub marker "rhetorical" then
        ["Reduce use of rhetorical intensifiers"]
      else if Py.containsSub marker "stylistic" then
        ["Remove conversational and stylistic elements"]
      else if Py.containsSub marker "emotional" then
        ["Maintain emotional neutrality in presentation"]
      else [])
  FRAME.dedupPreserve recs

/-- Model of `STRIDEProcessor.process_content`; `nowIso` is the value of the
`datetime.utcnow().isoformat()` call in `_get_timestamp`. -/
def process_content (cdp_result : CDP.CDPResult) (nowIso : String) : STRIDEResult :=
  let tone_analysis := analyze_tone cdp_result.paragraphs
  let rhythm_analysis := analyze_rhythm cdp_result.paragraphs
  let drift_detection := detect_drift cdp_result.paragraphs tone_analysis rhythm_analysis
  let suppression := needs_suppression tone_analysis rhythm_analysis drift_detection
  let suppression_score :=
    calculate_suppression_score tone_analysis rhythm_analysis drift_detection
  { tone_analysis := tone_analysis
    rhythm_analysis := rhythm_analysis
    drift_detection := drift_detection
    suppression_needed := suppression
    suppression_score := suppression_score
    recommendations := generate_recommendations tone_analysis rhythm_analysis drift_detection
    metadata :=
      [("stride_version", .s CertNodeConfig.STRIDE_VERSION),
       ("processing_timestamp", .s nowIso),
       ("total_paragraphs", .i cdp_result.paragraphs.length)] }

end STRIDE

namespace ICS

/-- Cryptographic fingerprint record (`ics_generator.ContentFingerprint`). -/
structure ContentFingerprint where
  content_hash : String
  structure_hash : String
  logic_hash : String
  combined_hash : String
  fingerprint_algorithm : String
deriving Repr, DecidableEq

/-- Certification metadata record (`ics_generator.CertificationMetadata`). -/
structure CertificationMetadata where
  cert_id : String
  timestamp : String
  operator : String
  system_version : String
  processing_versions : List (String × String)
  content_type : String
  author_signature : Option String
deriving Repr, DecidableEq

/-- Complete ICS signature (`ics_generator.ICSSignature`).  Note the Python
dataclass has exactly the five fields below plus the read-only properties
`cert_id`, `timestamp` and `cert_type`; it has no `author_signature`
attribute. -/
structure ICSSignature where
  fingerprint : ContentFingerprint
  metadata : CertificationMetadata
  analysis_summary : List (String × PyJson.JVal)
  vault_anchor : String
  verification_data : List (String × PyJson.JVal)
deriving Repr

/-- The `cert_id` property of `ICSSignature`. -/
def ICSSignature.cert_id (s : ICSSignature) : String := s.metadata.cert_id

/-- The `timestamp` property of `ICSSignature`. -/
def ICSSignature.timestamp (s : ICSSignature) : String := s.metadata.timestamp

/-- The `cert_type` property of `ICSSignature`. -/
def ICSSignature.cert_type (s : ICSSignature) : String := s.metadata.content_type

/-- Model of `ICSGenerator._hash_content`. -/
def hash_content (content : String) : String := Py.sha256Hex content

/-- Model of `ICSGenerator._hash_data`:
`sha256(json.dumps(data, sort_keys=True, ensure_ascii=False).encode('utf-8'))`. -/
def hash_data (data : List (String × PyJson.JVal)) : String :=
  Py.sha256Hex (PyJson.dumps false (.obj data))

/-- Model of `ICSGenerator._generate_fingerprint`. -/
def generate_fingerprint (content : String) (cdp_result : CDP.CDPResult)
    (frame_result : FRAME.FRAMEResult) (stride_result : STRIDE.STRIDEResult) :
    ContentFingerprint :=
  let content_hash := hash_content content
  let structure_hash := hash_data
    [("overall_slope", .s cdp_result.overall_slope),
     ("structural_integrity", .f cdp_result.structural_integrity),
     ("logic_continuity", .f cdp_result.logic_continuity),
     ("convergence_achieved", .b cdp_result.convergence_achieved),
     ("paragraph_count", .i cdp_result.paragraphs.length),
     ("paragraph_slopes", .arr (cdp_result.paragraphs.map fun p => .s p.slope_type)),
     ("paragraph_anchors", .arr (cdp_result.paragraphs.map fun p => .s p.anchor_type))]
  let logic_hash := hash_data
    [("boundaries_satisfied", .b frame_result.boundaries_satisfied),
     ("structural_score", .f frame_result.structural_score),
     ("taper_achieved", .b frame_result.taper_analysis.taper_achieved),
     ("slope_resolution", .b frame_result.slope_resolution),
     ("suppression_score", .f stride_result.suppression_score),
     ("tone_neutrality", .f stride_result.tone_analysis.tone_neutrality),
     ("drift_severity", .f stride_result.drift_detection.drift_severity)]
  let combined_hash := hash_data
    [("content_hash", .s content_hash),
     ("structure_hash", .s structure_hash),
     ("logic_hash", .s logic_hash),
     ("generator_version", .s CertNodeConfig.CERTNODE_VERSION),
     ("algorithm", .s CertNodeConfig.HASH_ALGORITHM)]
  { content_hash := content_hash
    structure_hash := structure_hash
    logic_hash := logic_hash
    combined_hash := combined_hash
    fingerprint_algorithm := CertNodeConfig.HASH_ALGORITHM }

/-- Model of `ICSGenerator._create_metadata`; `uuidStr` and `nowIso` are the
values of the `uuid.uuid4()` and `datetime.now(timezone.utc).isoformat()`
calls. -/
def create_metadata (cert_type : String) (author_id : Option String)
    (uuidStr nowIso : String) : CertificationMetadata :=
  let author_signature := author_id.map fun a => (Py.sha256Hex a).take 16
  { cert_id := uuidStr
    timestamp := nowIso
    operator := CertNodeConfig.OPERATOR
    system_version := CertNodeConfig.CERTNODE_VERSION
    processing_versions :=
      [("CDP", CertNodeConfig.CDP_VERSION),
       ("FRAME", CertNodeConfig.FRAME_VERSION),
       ("STRIDE", CertNodeConfig.STRIDE_VERSION)]
    content_type := cert_type
    author_signature := author_signature }

/-- Python `round(x, 3)` on the exact-rational model: round half to even at
three decimal places. -/
def round3 (q : ℚ) : ℚ :=
  let scaled := q * 1000
  let lo : Int := Int.floor scaled
  let frac := scaled - lo
  let n : Int :=
    if frac > 1/2 then lo + 1
    else if frac < 1/2 then lo
    else if lo % 2 = 0 then lo else lo + 1
  (n : ℚ) / 1000

/-- Model of `ICSGenerator._create_analysis_summary`. -/
def create_analysis_summary (cdp_result : CDP.CDPResult)
    (frame_result : FRAME.FRAMEResult) (stride_result : STRIDE.STRIDEResult) :
    List (String × PyJson.JVal) :=
  [("cdp_analysis", .obj
     [("overall_slope", .s cdp_result.overall_slope),
      ("structural_integrity", .f (round3 cdp_result.structural_integrity)),
      ("logic_continuity", .f (round3 cdp_result.logic_continuity)),
      ("convergence_achieved", .b cdp_result.convergence_achieved),
      ("total_paragraphs", .i cdp_result.paragraphs.length)]),
   ("frame_analysis", .obj
     [("boundaries_satisfied", .b frame_result.boundaries_satisfied),
      ("structural_score", .f (round3 frame_result.structural_score)),
      ("taper_achieved", .b frame_result.taper_analysis.taper_achieved),
      ("slope_resolution", .b frame_result.slope_resolution),
      ("violation_count", .i frame_result.boundary_violations.length)]),
   ("stride_analysis", .obj
     [("suppression_needed", .b stride_result.suppression_needed),
      ("suppression_score", .f (round3 stride_result.suppression_score)),
      ("tone_neutrality", .f (round3 stride_result.tone_analysis.tone_neutrality)),
      ("drift_detected", .b (stride_result.drift_detection.drift_severity > 4/10)),
      ("drift_severity", .f (round3 stride_result.drift_detection.drift_severity))])]

/-- Model of `ICSGenerator._generate_vault_anchor`.  The Python method calls
`self.config.get_genesis_hash()`, whose result depends on the wall clock at
the moment of that call, passed here as `genesisNowIso`. -/
def generate_vault_anchor (fingerprint : ContentFingerprint)
    (metadata : CertificationMetadata) (genesisNowIso : String) : String :=
  hash_data
    [("combined_hash", .s fingerprint.combined_hash),
     ("cert_id", .s metadata.cert_id),
     ("timestamp", .s metadata.timestamp),
     ("operator", .s metadata.operator),
     ("genesis_hash", .s (CertNodeConfig.get_genesis_hash genesisNowIso))]

/-- Model of `ICSGenerator._create_verification_data`; it recomputes the
vault anchor, performing a second `get_genesis_hash()` call whose wall-clock
instant is `genesisNowIso2`. -/
def create_verification_data (content : String) (fingerprint : ContentFingerprint)
    (metadata : CertificationMetadata) (_analysis_summary : List (String × PyJson.JVal))
    (genesisNowIso2 : String) : List (String × PyJson.JVal) :=
  [("verification_algorithm", .s fingerprint.fingerprint_algorithm),
   ("content_length", .i content.length),
   ("word_count", .i (Py.wordCount content : Nat)),
   ("paragraph_count", .i (Py.countSub content "\n\n" + 1 : Nat)),
   ("cert_type", .s metadata.content_type),
   ("processing_timestamp", .s metadata.timestamp),
   ("verification_url", .s ("https://certnode.io/verify?hash=" ++ fingerprint.combined_hash)),
   ("badge_url", .s ("https://certnode.io/badge?cert=" ++ metadata.cert_id)),
   ("vault_url", .s ("https://certnode.io/vault?anchor=" ++
      generate_vault_anchor fingerprint metadata genesisNowIso2))]

/-- Model of `ICSGenerator.generate_signature`.  `uuidStr`, `nowIso`,
`genesisNowIso1` and `genesisNowIso2` are the values produced by the
`uuid.uuid4()` call, the metadata timestamp call, and the two
`get_genesis_hash()` wall-clock reads (signature anchor, then
verification-data anchor), in call order. -/
def generate_signature (content : String) (cdp_result : CDP.CDPResult)
    (frame_result : FRAME.FRAMEResult) (stride_result : STRIDE.STRIDEResult)
    (cert_type : String) (author_id : Option String)
    (uuidStr nowIso genesisNowIso1 genesisNowIso2 : String) : ICSSignature :=
  let fingerprint := generate_fingerprint content cdp_result frame_result stride_result
  let metadata := create_metadata cert_type author_id uuidStr nowIso
  let analysis_summary := create_analysis_summary cdp_result frame_result stride_result
  let vault_anchor := generate_vault_anchor fingerprint metadata genesisNowIso1
  let verification_data :=
    create_verification_data content fingerprint metadata analysis_summary genesisNowIso2
  { fingerprint := fingerprint
    metadata := metadata
    analysis_summary := analysis_summary
    vault_anchor := vault_anchor
    verification_data := verification_data }

/-- The content-mismatch message of `ICSGenerator.verify_signature`. -/
def contentMismatchMsg : String := "Content hash mismatch - content has been modified"

/-- The combined-hash failure message. -/
def combinedMismatchMsg : String :=
  "Combined hash verification failed - signature integrity compromised"

/-- The vault-anchor failure message. -/
def anchorMismatchMsg : String := "Vault anchor verification failed"

/-- Model of `ICSGenerator.verify_signature`.  `genesisNowIso` is the wall
clock of the `get_genesis_hash()` call performed while recomputing the vault
anchor, and `nowUs` the epoch microseconds of `datetime.now(timezone.utc)` in
the age check.  The only exception that can escape the translated `try` body
is the `TypeError` raised when subtracting a timezone-naive certificate
timestamp from the aware current time; the surrounding handler converts it
into a `Verification error: ...` entry, exactly as the Python code does. -/
def verify_signature (content : String) (signature : ICSSignature)
    (genesisNowIso : String) (nowUs : Int) : Bool × List String :=
  let content_hash := hash_content content
  let errors1 : List String :=
    if content_hash ≠ signature.fingerprint.content_hash then [contentMismatchMsg] else []
  let expected_combined_hash := hash_data
    [("content_hash", .s signature.fingerprint.content_hash),
     ("structure_hash", .s signature.fingerprint.structure_hash),
     ("logic_hash", .s signature.fingerprint.logic_hash),
     ("generator_version", .s signature.metadata.system_version),
     ("algorithm", .s signature.fingerprint.fingerprint_algorithm)]
  let errors2 : List String :=
    if expected_combined_hash ≠ signature.fingerprint.combined_hash then
      [combinedMismatchMsg]
    else []
  let expected_vault_anchor :=
    generate_vault_anchor signature.fingerprint signature.metadata genesisNowIso
  let errors3 : List String :=
    if expected_vault_anchor ≠ signature.vault_anchor then [anchorMismatchMsg] else []
  let soFar := errors1 ++ errors2 ++ errors3
  match PyTime.fromisoformat (Py.replace signature.metadata.timestamp "Z" "+00:00") with
  | none =>
    let errors := soFar ++ ["Invalid timestamp format in certificate"]
    (errors.length = 0, errors)
  | some cert_time =>
    if ¬cert_time.aware then
      (false, soFar ++
        ["Verification error: can" ++ STRIDE.apos ++
         "t subtract offset-naive and offset-aware datetimes"])
    else
      let age_days := PyTime.timedeltaDays (nowUs - cert_time.epochUs)
      let errors := soFar ++
        (if age_days > 365 * 5 then ["Certificate is too old (> 5 years)"] else [])
      (errors.length = 0, errors)

end ICS

namespace CertNodeProcessor

/-- Certification request (`certnode_processor.CertificationRequest`); the
free-form `metadata` field is unused by the certification path and omitted. -/
structure CertificationRequest where
  content : String
  cert_type : String
  author_id : Option String := none
  author_name : Option String := none
  title : Option String := none
deriving Repr, DecidableEq

/-- Certification result (`certnode_processor.CertificationResult`).
`processing_time` (wall-clock measurement) and `output_files` (file-system
side effects) carry no information about the certification outcome and are
omitted from the embedding. -/
structure CertificationResult where
  success : Bool
  cert_id : String
  ics_signature : Option ICS.ICSSignature
  cdp_result : Option CDP.CDPResult
  frame_result : Option FRAME.FRAMEResult
  stride_result : Option STRIDE.STRIDEResult
  certification_score : ℚ
  issues : List String
  recommendations : List String
deriving Repr

/-- Model of `CertNodeProcessor._calculate_certification_score`. -/
def calculate_certification_score (cdp_result : CDP.CDPResult)
    (frame_result : FRAME.FRAMEResult) (stride_result : STRIDE.STRIDEResult) : ℚ :=
  let cdp_score : ℚ :=
    (if cdp_result.convergence_achieved then 4/10 else 0) +
      cdp_result.structural_integrity * (3/10) +
      cdp_result.logic_continuity * (3/10)
  let frame_score := frame_result.structural_score
  let stride_score := 1 - stride_result.suppression_score
  let total_score :=
    cdp_score * (4/10) + frame_score * (35/100) + stride_score * (25/100)
  min (max total_score 0) 1

/-- Model of `CertNodeProcessor._determine_certification_success`: the gate
with its four early-return conditions. -/
def determine_certification_success (cdp_result : CDP.CDPResult)
    (frame_result : FRAME.FRAMEResult) (stride_result : STRIDE.STRIDEResult)
    (certification_score : ℚ) : Bool :=
  if certification_score < CertNodeConfig.CERTIFICATION_THRESHOLD then false
  else if ¬cdp_result.convergence_achieved then false
  else if ¬frame_result.boundaries_satisfied then false
  else if stride_result.drift_detection.drift_severity > 7/10 then false
  else true

/-- The wall-clock and randomness inputs consumed by one
`CertNodeProcessor.certify_content` run, in call order: the FRAME and STRIDE
metadata timestamps, then (on the success path) the `uuid.uuid4()` value, the
metadata timestamp, and the two `get_genesis_hash()` wall-clock reads of
`ICSGenerator.generate_signature`. -/
structure RunClock where
  frameNowIso : String
  strideNowIso : String
  uuidStr : String
  metaNowIso : String
  genesisNowIso1 : String
  genesisNowIso2 : String
deriving Repr, DecidableEq

/-- Model of `CertNodeProcessor.certify_content`.  A `StatisticsError` raised
inside CDP processing (`CDP.process_content = none`) is caught by the
top-level handler and converted into the failure result, exactly as the
Python `except` clause does; its message is the `statistics.mean` message for
an empty sequence. -/
def certify_content (request : CertificationRequest) (clock : RunClock) :
    CertificationResult :=
  match CDP.process_content request.content request.author_id with
  | none =>
    { success := false
      cert_id := "ERROR"
      ics_signature := none
      cdp_result := none
      frame_result := none
      stride_result := none
      certification_score := 0
      issues := ["Processing error: mean requires at least one data point"]
      recommendations := ["Review content format and retry certification"] }
  | some cdp_result =>
    let issues1 : List String :=
      if ¬cdp_result.convergence_achieved then
        ["Content does not achieve logical convergence"]
      else []
    let recommendations1 : List String :=
      if ¬cdp_result.convergence_achieved then
        ["Strengthen logical flow between paragraphs",
         "Ensure final paragraph provides clear resolution"]
      else []
    let frame_result := FRAME.process_content cdp_result clock.frameNowIso
    let issues2 := if ¬frame_result.boundaries_satisfied then
        frame_result.boundary_violations else []
    let recommendations2 := if ¬frame_result.boundaries_satisfied then
        frame_result.recommendations else []
    let stride_result := STRIDE.process_content cdp_result clock.strideNowIso
    let issues3 : List String := if stride_result.suppression_needed then
        ["Content contains rhetorical drift requiring suppression"] else []
    let recommendations3 := if stride_result.suppression_needed then
        stride_result.recommendations else []
    let certification_score :=
      calculate_certification_score cdp_result frame_result stride_result
    let success :=
      determine_certification_success cdp_result frame_result stride_result
        certification_score
    let ics_signature : Option ICS.ICSSignature :=
      if success then
        some (ICS.generate_signature request.content cdp_result frame_result
          stride_result request.cert_type request.author_id clock.uuidStr
          clock.metaNowIso clock.genesisNowIso1 clock.genesisNowIso2)
      else none
    { success := success
      cert_id :=
        match ics_signature with
        | some s => s.metadata.cert_id
        | none => "FAILED"
      ics_signature := ics_signature
      cdp_result := some cdp_result
      frame_result := some frame_result
      stride_result := some stride_result
      certification_score := certification_score
      issues := issues1 ++ issues2 ++ issues3
      recommendations := recommendations1 ++ recommendations2 ++ recommendations3 }

end CertNodeProcessor

namespace Vault

/-- A dynamically-typed Python attribute value, as needed for the attribute
reads `VaultManager.store_certification` performs on its `signature`
argument. -/
inductive PyVal where
  | str (v : String)
  | optStr (v : Option String)
  | fp (v : ICS.ContentFingerprint)
  | md (v : ICS.CertificationMetadata)
  | js (v : List (String × PyJson.JVal))
deriving Repr

/-- Python attribute lookup on an `ICSSignature` instance: the five dataclass
fields plus the three read-only properties.  Every other name — in
particular `author_signature` — raises `AttributeError`, modelled as `none`. -/
def getattrICSSignature (s : ICS.ICSSignature) : String → Option PyVal
  | "fingerprint" => some (.fp s.fingerprint)
  | "metadata" => some (.md s.metadata)
  | "analysis_summary" => some (.js s.analysis_summary)
  | "vault_anchor" => some (.str s.vault_anchor)
  | "verification_data" => some (.js s.verification_data)
  | "cert_id" => some (.str s.metadata.cert_id)
  | "timestamp" => some (.str s.metadata.timestamp)
  | "cert_type" => some (.str s.metadata.content_type)
  | _ => none

/-- A vault record (`vault_manager.VaultEntry`).  The `metadata` field holds
whatever value the caller assigned; `store_certification` assigns the
`CertificationMetadata` object itself. -/
structure VaultEntry where
  vault_anchor : String
  cert_id : String
  ics_hash : String
  content_hash : String
  timestamp : String
  cert_type : String
  author_signature : Option String
  metadata : ICS.CertificationMetadata
deriving Repr, DecidableEq

/-- Exceptions distinguished by `VaultManager.store_certification`'s handlers. -/
inductive PyError where
  | attributeError (name : String)
  | integrityError (msg : String)
deriving Repr, DecidableEq

/-- The vault database: the `vault_entries` table with its primary key on
`vault_anchor` and unique constraint on `cert_id`. -/
structure VaultDB where
  entries : List VaultEntry
deriving Repr, DecidableEq

/-- Building the `VaultEntry` inside `store_certification`: the keyword
arguments are evaluated left to right, and `signature.author_signature` — an
attribute `ICSSignature` does not define — raises `AttributeError`. -/
def buildVaultEntry (signature : ICS.ICSSignature) : Except PyError VaultEntry := do
  let vault_anchor := signature.fingerprint.combined_hash
  let cert_id := signature.cert_id
  let ics_hash := signature.fingerprint.combined_hash
  let content_hash := signature.fingerprint.content_hash
  let timestamp := signature.timestamp
  let cert_type := signature.cert_type
  let author_signature ←
    match getattrICSSignature signature "author_signature" with
    | some (.optStr v) => Except.ok v
    | some (.str v) => Except.ok (some v)
    | some _ => Except.ok none
    | none => Except.error (.attributeError "author_signature")
  Except.ok
    { vault_anchor := vault_anchor
      cert_id := cert_id
      ics_hash := ics_hash
      content_hash := content_hash
      timestamp := timestamp
      cert_type := cert_type
      author_signature := author_signature
      metadata := signature.metadata }

/-- The SQLite `INSERT` into `vault_entries`: an `IntegrityError` on a
duplicate primary key (`vault_anchor`) or unique `cert_id`, the appended row
otherwise. -/
def insertEntry (e : VaultEntry) (db : VaultDB) : Except PyError VaultDB :=
  if db.entries.any fun x => x.vault_anchor = e.vault_anchor then
    Except.error (.integrityError "UNIQUE constraint failed: vault_entries.vault_anchor")
  else if db.entries.any fun x => x.cert_id = e.cert_id then
    Except.error (.integrityError "UNIQUE constraint failed: vault_entries.cert_id")
  else Except.ok ⟨db.entries ++ [e]⟩

/-- Model of `VaultManager.store_certification`: the entire body runs inside
`try`, the `sqlite3.IntegrityError` handler and the catch-all `Exception`
handler both return `False`, and a completed insert returns `True`.  (On the
insert path the Python code would additionally hit a `TypeError` from
`json.dumps(entry.metadata)`, also mapped to `False` by the catch-all; the
path is unreachable because building the entry always fails first.) -/
def store_certification (signature : ICS.ICSSignature) (db : VaultDB) :
    Bool × VaultDB :=
  match (do insertEntry (← buildVaultEntry signature) db :
      Except PyError VaultDB) with
  | .ok db2 => (true, db2)
  | .error _ => (false, db)

end Vault

namespace API

/-- The JSON body of a `POST /api/v1/certify` request, at the granularity the
handler reads it: each field either absent or a string. -/
structure CertifyBody where
  content : Option String := none
  cert_type : Option String := none
  author_id : Option String := none
  author_name : Option String := none
  title : Option String := none
deriving Repr, DecidableEq

/-- Python `repr` of a list of strings, used by the invalid-`cert_type`
message (`f"... {list(self.config.CERT_TYPES.keys())}"`). -/
def pyStrListRepr (l : List String) : String :=
  "[" ++ String.intercalate ", "
    (l.map fun k => STRIDE.apos ++ k ++ STRIDE.apos) ++ "]"

/-- The validation prefix of `CertNodeAPI.certify_content` (the body of the
handler up to building the `CertificationRequest`): every failing check
raises `BadRequest` with the message returned here, before the processor or
any analyzer is invoked.  `none` for the whole body models a request without
a JSON body. -/
def certify_validate (body : Option CertifyBody) :
    Except String CertNodeProcessor.CertificationRequest :=
  match body with
  | none => Except.error "JSON body required"
  | some data =>
    match data.content with
    | none => Except.error (STRIDE.apos ++ "content" ++ STRIDE.apos ++ " field required")
    | some content =>
      if (Py.strip content).length < 100 then
        Except.error "Content too short (minimum 100 characters)"
      else
        let cert_type := data.cert_type.getD "LOGIC_FRAGMENT"
        if ¬CertNodeConfig.CERT_TYPE_KEYS.contains cert_type then
          Except.error ("Invalid cert_type. Must be one of: " ++
            pyStrListRepr CertNodeConfig.CERT_TYPE_KEYS)
        else
          Except.ok
            { content := content
              cert_type := cert_type
              author_id := data.author_id
              author_name := data.author_name
              title := data.title }

/-- The `certify` route: request validation followed by the certification
pipeline.  The pipeline (processor, analyzers, vault write and response
building) is abstracted as `pipeline`; a validation error is returned before
`pipeline` is ever applied, so the route's result on invalid input is the
same for every pipeline. -/
def certify_route {α : Type} (pipeline : CertNodeProcessor.CertificationRequest → α)
    (body : Option CertifyBody) : Except String α :=
  (certify_validate body).map pipeline

end API

namespace Scenario

/-- A 50-word, two-sentence paragraph that scores `logic_weight = 1`,
`clause_density = 1` and `resolution_score = 1` under the CDP rubric (it
contains six logical connectors, two qualifiers, five clause separators per
sentence and three strong resolution markers in its final sentence) while
triggering none of the STRIDE drift markers. -/
def samplePara : String :=
  "Observed variation, however, narrows because sampling coverage improved since baseline, although residual noise appears small, and the measured gap seems stable across cohorts, reviewers agree. Furthermore, convergence holds, therefore the estimate tightens, thus reviewers consequently accept the pooled reading, and the remaining spread, once adjusted, stays within tolerance bounds here."

/-- A two-paragraph document built from `samplePara`; it passes every gate of
the certification pipeline. -/
def sampleContent : String := samplePara ++ "\n\n" ++ samplePara

/-- The same document with its first character changed (`O` to `Q`). -/
def mutatedContent : String := "Qbserved" ++ (sampleContent.drop 8)

/-- Concrete wall-clock and randomness values for one certification run. -/
def sampleClock : CertNodeProcessor.RunClock :=
  { frameNowIso := "2025-06-01T12:00:00.000100"
    strideNowIso := "2025-06-01T12:00:00.000200"
    uuidStr := "3f2b8e04-5a17-4c2e-9b6d-8d41c7a90e12"
    metaNowIso := "2025-06-01T12:00:00.000300+00:00"
    genesisNowIso1 := "2025-06-01T12:00:00.000400"
    genesisNowIso2 := "2025-06-01T12:00:00.000500" }

/-- The certification request for `sampleContent`. -/
def sampleRequest : CertNodeProcessor.CertificationRequest :=
  { content := sampleContent, cert_type := "LOGIC_FRAGMENT" }

/-- The certification run on `sampleContent` at `sampleClock`. -/
def sampleRun : CertNodeProcessor.CertificationResult :=
  CertNodeProcessor.certify_content sampleRequest sampleClock

/-- The CDP result of the run.  Concretely: two analyzed paragraphs, each
with `logic_weight = clause_density = resolution_score = 1`, slope
PERSUASIVE; `structural_integrity = logic_continuity = 1`;
`convergence_achieved = true`. -/
def sampleCdp : CDP.CDPResult :=
  (CDP.process_content sampleRequest.content sampleRequest.author_id).get
    (by set_option maxRecDepth 1000000 in rfl)

/-- The FRAME result of the run.  Concretely: boundaries satisfied with no
violations, taper `insufficient_length` (score 1/2, not achieved), slope
resolution true, `structural_score = 17/20`. -/
def sampleFrame : FRAME.FRAMEResult :=
  FRAME.process_content sampleCdp sampleClock.frameNowIso

/-- The STRIDE result of the run.  Concretely: tone neutrality 1, persuasion
intensity 0, no rhythm patterns, no drift, `drift_severity = 0`,
`suppression_score = 0`, suppression not needed. -/
def sampleStride : STRIDE.STRIDEResult :=
  STRIDE.process_content sampleCdp sampleClock.strideNowIso

/-- The certification score of the run, 379/400 = 0.9475. -/
def sampleScore : ℚ :=
  CertNodeProcessor.calculate_certification_score sampleCdp sampleFrame sampleStride

/-- The ICS signature issued by the run. -/
def sampleSig : ICS.ICSSignature :=
  ICS.generate_signature sampleRequest.content sampleCdp sampleFrame sampleStride
    sampleRequest.cert_type sampleRequest.author_id sampleClock.uuidStr
    sampleClock.metaNowIso sampleClock.genesisNowIso1 sampleClock.genesisNowIso2

/-- The `datetime.utcnow().isoformat()` instant of the `get_genesis_hash()`
call that a verification performed right after the run observes: one
microsecond after the instant the stored vault anchor was computed from. -/
def verifyGenesisIso : String := "2025-06-01T12:00:00.000401"

/-- The epoch microseconds of `datetime.now(timezone.utc)` during the
verification age check (half a day after certification, far below the 5-year
limit). -/
def verifyNowUs : Int := 1748822400000000

/-- The CDP result for a document whose only paragraph is below the 50-word
floor: no analyzed paragraphs. -/
def shortCdp : CDP.CDPResult := (CDP.process_content "x" none).get (by rfl)

/-- The empty vault database. -/
def emptyVault : Vault.VaultDB := ⟨[]⟩

end Scenario

set_option maxRecDepth 400000

/-- The suffix that SHA-256 padding appends after the message bytes. -/
def Sha256.padSuffix (len : Nat) : List Nat :=
  let zeroCount := (55 + 64 - len % 64) % 64
  let bitLen := 8 * len
  0x80 :: (List.replicate zeroCount 0 ++
    [(bitLen >>> 56) &&& 0xFF, (bitLen >>> 48) &&& 0xFF, (bitLen >>> 40) &&& 0xFF,
     (bitLen >>> 32) &&& 0xFF, (bitLen >>> 24) &&& 0xFF, (bitLen >>> 16) &&& 0xFF,
     (bitLen >>> 8) &&& 0xFF, bitLen &&& 0xFF])

/-- Bytes 0 to 191 of the content message. -/
def shaMsg_content_1 : List Nat :=
  [79, 98, 115, 101, 114, 118, 101, 100, 32, 118, 97, 114, 105, 97, 116, 105, 111, 110,
   44, 32, 104, 111, 119, 101, 118, 101, 114, 44, 32, 110, 97, 114, 114, 111, 119, 115,
   32, 98, 101, 99, 97, 117, 115, 101, 32, 115, 97, 109, 112, 108, 105, 110, 103, 32,
   99, 111, 118, 101, 114, 97, 103, 101, 32, 105, 109, 112, 114, 111, 118, 101, 100, 32,
   115, 105, 110, 99, 101, 32, 98, 97, 115, 101, 108, 105, 110, 101, 44, 32, 97, 108,
   116, 104, 111, 117, 103, 104, 32, 114, 101, 115, 105, 100, 117, 97, 108, 32, 110, 111,
   105, 115, 101, 32, 97, 112, 112, 101, 97, 114, 115, 32, 115, 109, 97, 108, 108, 44,
   32, 97, 110, 100, 32, 116, 104, 101, 32, 109, 101, 97, 115, 117, 114, 101, 100, 32,
   103, 97, 112, 32, 115, 101, 101, 109, 115, 32, 115, 116, 97, 98, 108, 101, 32, 97,
   99, 114, 111, 115, 115, 32, 99, 111, 104, 111, 114, 116, 115, 44, 32, 114, 101, 118,
   105, 101, 119, 101, 114, 115, 32, 97, 103, 114, 101, 101]

/-- Bytes 192 to 383 of the content message. -/
def shaMsg_content_2 : List Nat :=
  [46, 32, 70, 117, 114, 116, 104, 101, 114, 109, 111, 114, 101, 44, 32, 99, 111, 110,
   118, 101, 114, 103, 101, 110, 99, 101, 32, 104, 111, 108, 100, 115, 44, 32, 116, 104,
   101, 114, 101, 102, 111, 114, 101, 32, 116, 104, 101, 32, 101, 115, 116, 105, 109, 97,
   116, 101, 32, 116, 105, 103, 104, 116, 101, 110, 115, 44, 32, 116, 104, 117, 115, 32,
   114, 101, 118, 105, 101, 119, 101, 114, 115, 32, 99, 111, 110, 115, 101, 113, 117, 101,
   110, 116, 108, 121, 32, 97, 99, 99, 101, 112, 116, 32, 116, 104, 101, 32, 112, 111,
   111, 108, 101, 100, 32, 114, 101, 97, 100, 105, 110, 103, 44, 32, 97, 110, 100, 32,
   116, 104, 101, 32, 114, 101, 109, 97, 105, 110, 105, 110, 103, 32, 115, 112, 114, 101,
   97, 100, 44, 32, 111, 110, 99, 101, 32, 97, 100, 106, 117, 115, 116, 101, 100, 44,
   32, 115, 116, 97, 121, 115, 32, 119, 105, 116, 104, 105, 110, 32, 116, 111, 108, 101,
   114, 97, 110, 99, 101, 32, 98, 111, 117, 110, 100, 115]

/-- Bytes 384 to 575 of the content message. -/
def shaMsg_content_3 : List Nat :=
  [32, 104, 101, 114, 101, 46, 10, 10, 79, 98, 115, 101, 114, 118, 101, 100, 32, 118,
   97, 114, 105, 97, 116, 105, 111, 110, 44, 32, 104, 111, 119, 101, 118, 101, 114, 44,
   32, 110, 97, 114, 114, 111, 119, 115, 32, 98, 101, 99, 97, 117, 115, 101, 32, 115,
   97, 109, 112, 108, 105, 110, 103, 32, 99, 111, 118, 101, 114, 97, 103, 101, 32, 105,
   109, 112, 114, 111, 118, 101, 100, 32, 115, 105, 110, 99, 101, 32, 98, 97, 115, 101,
   108, 105, 110, 101, 44, 32, 97, 108, 116, 104, 111, 117, 103, 104, 32, 114, 101, 115,
   105, 100, 117, 97, 108, 32, 110, 111, 105, 115, 101, 32, 97, 112, 112, 101, 97, 114,
   115, 32, 115, 109, 97, 108, 108, 44, 32, 97, 110, 100, 32, 116, 104, 101, 32, 109,
   101, 97, 115, 117, 114, 101, 100, 32, 103, 97, 112, 32, 115, 101, 101, 109, 115, 32,
   115, 116, 97, 98, 108, 101, 32, 97, 99, 114, 111, 115, 115, 32, 99, 111, 104, 111,
   114, 116, 115, 44, 32, 114, 101, 118, 105, 101, 119, 101]

/-- Bytes 576 to 767 of the content message. -/
def shaMsg_content_4 : List Nat :=
  [114, 115, 32, 97, 103, 114, 101, 101, 46, 32, 70, 117, 114, 116, 104, 101, 114, 109,
   111, 114, 101, 44, 32, 99, 111, 110, 118, 101, 114, 103, 101, 110, 99, 101, 32, 104,
   111, 108, 100, 115, 44, 32, 116, 104, 101, 114, 101, 102, 111, 114, 101, 32, 116, 104,
   101, 32, 101, 115, 116, 105, 109, 97, 116, 101, 32, 116, 105, 103, 104, 116, 101, 110,
   115, 44, 32, 116, 104, 117, 115, 32, 114, 101, 118, 105, 101, 119, 101, 114, 115, 32,
   99, 111, 110, 115, 101, 113, 117, 101, 110, 116, 108, 121, 32, 97, 99, 99, 101, 112,
   116, 32, 116, 104, 101, 32, 112, 111, 111, 108, 101, 100, 32, 114, 101, 97, 100, 105,
   110, 103, 44, 32, 97, 110, 100, 32, 116, 104, 101, 32, 114, 101, 109, 97, 105, 110,
   105, 110, 103, 32, 115, 112, 114, 101, 97, 100, 44, 32, 111, 110, 99, 101, 32, 97,
   100, 106, 117, 115, 116, 101, 100, 44, 32, 115, 116, 97, 121, 115, 32, 119, 105, 116,
   104, 105, 110, 32, 116, 111, 108, 101, 114, 97, 110, 99]

/-- The final 14 message bytes of the content message. -/
def shaLast_content : List Nat :=
  [101, 32, 98, 111, 117, 110, 100, 115, 32, 104, 101, 114, 101, 46]

/-- UTF-8 bytes of the content message, in 192-byte chunks. -/
def shaBytes_content : List Nat :=
  shaMsg_content_1 ++ (shaMsg_content_2 ++ (shaMsg_content_3 ++ (shaMsg_content_4 ++ (shaLast_content))))

/-- Bytes 0 to 191 of the mutated message. -/
def shaMsg_mutated_1 : List Nat :=
  [81, 98, 115, 101, 114, 118, 101, 100, 32, 118, 97, 114, 105, 97, 116, 105, 111, 110,
   44, 32, 104, 111, 119, 101, 118, 101, 114, 44, 32, 110, 97, 114, 114, 111, 119, 115,
   32, 98, 101, 99, 97, 117, 115, 101, 32, 115, 97, 109, 112, 108, 105, 110, 103, 32,
   99, 111, 118, 101, 114, 97, 103, 101, 32, 105, 109, 112, 114, 111, 118, 101, 100, 32,
   115, 105, 110, 99, 101, 32, 98, 97, 115, 101, 108, 105, 110, 101, 44, 32, 97, 108,
   116, 104, 111, 117, 103, 104, 32, 114, 101, 115, 105, 100, 117, 97, 108, 32, 110, 111,
   105, 115, 101, 32, 97, 112, 112, 101, 97, 114, 115, 32, 115, 109, 97, 108, 108, 44,
   32, 97, 110, 100, 32, 116, 104, 101, 32, 109, 101, 97, 115, 117, 114, 101, 100, 32,
   103, 97, 112, 32, 115, 101, 101, 109, 115, 32, 115, 116, 97, 98, 108, 101, 32, 97,
   99, 114, 111, 115, 115, 32, 99, 111, 104, 111, 114, 116, 115, 44, 32, 114, 101, 118,
   105, 101, 119, 101, 114, 115, 32, 97, 103, 114, 101, 101]

/-- Bytes 192 to 383 of the mutated message. -/
def shaMsg_mutated_2 : List Nat :=
  [46, 32, 70, 117, 114, 116, 104, 101, 114, 109, 111, 114, 101, 44, 32, 99, 111, 110,
   118, 101, 114, 103, 101, 110, 99, 101, 32, 104, 111, 108, 100, 115, 44, 32, 116, 104,
   101, 114, 101, 102, 111, 114, 101, 32, 116, 104, 101, 32, 101, 115, 116, 105, 109, 97,
   116, 101, 32, 116, 105, 103, 104, 116, 101, 110, 115, 44, 32, 116, 104, 117, 115, 32,
   114, 101, 118, 105, 101, 119, 101, 114, 115, 32, 99, 111, 110, 115, 101, 113, 117, 101,
   110, 116, 108, 121, 32, 97, 99, 99, 101, 112, 116, 32, 116, 104, 101, 32, 112, 111,
   111, 108, 101, 100, 32, 114, 101, 97, 100, 105, 110, 103, 44, 32, 97, 110, 100, 32,
   116, 104, 101, 32, 114, 101, 109, 97, 105, 110, 105, 110, 103, 32, 115, 112, 114, 101,
   97, 100, 44, 32, 111, 110, 99, 101, 32, 97, 100, 106, 117, 115, 116, 101, 100, 44,
   32, 115, 116, 97, 121, 115, 32, 119, 105, 116, 104, 105, 110, 32, 116, 111, 108, 101,
   114, 97, 110, 99, 101, 32, 98, 111, 117, 110, 100, 115]

/-- Bytes 384 to 575 of the mutated message. -/
def shaMsg_mutated_3 : List Nat :=
  [32, 104, 101, 114, 101, 46, 10, 10, 79, 98, 115, 101, 114, 118, 101, 100, 32, 118,
   97, 114, 105, 97, 116, 105, 111, 110, 44, 32, 104, 111, 119, 101, 118, 101, 114, 44,
   32, 110, 97, 114, 114, 111, 119, 115, 32, 98, 101, 99, 97, 117, 115, 101, 32, 115,
   97, 109, 112, 108, 105, 110, 103, 32, 99, 111, 118, 101, 114, 97, 103, 101, 32, 105,
   109, 112, 114, 111, 118, 101, 100, 32, 115, 105, 110, 99, 101, 32, 98, 97, 115, 101,
   108, 105, 110, 101, 44, 32, 97, 108, 116, 104, 111, 117, 103, 104, 32, 114, 101, 115,
   105, 100, 117, 97, 108, 32, 110, 111, 105, 115, 101, 32, 97, 112, 112, 101, 97, 114,
   115, 32, 115, 109, 97, 108, 108, 44, 32, 97, 110, 100, 32, 116, 104, 101, 32, 109,
   101, 97, 115, 117, 114, 101, 100, 32, 103, 97, 112, 32, 115, 101, 101, 109, 115, 32,
   115, 116, 97, 98, 108, 101, 32, 97, 99, 114, 111, 115, 115, 32, 99, 111, 104, 111,
   114, 116, 115, 44, 32, 114, 101, 118, 105, 101, 119, 101]

/-- Bytes 576 to 767 of the mutated message. -/
def shaMsg_mutated_4 : List Nat :=
  [114, 115, 32, 97, 103, 114, 101, 101, 46, 32, 70, 117, 114, 116, 104, 101, 114, 109,
   111, 114, 101, 44, 32, 99, 111, 110, 118, 101, 114, 103, 101, 110, 99, 101, 32, 104,
   111, 108, 100, 115, 44, 32, 116, 104, 101, 114, 101, 102, 111, 114, 101, 32, 116, 104,
   101, 32, 101, 115, 116, 105, 109, 97, 116, 101, 32, 116, 105, 103, 104, 116, 101, 110,
   115, 44, 32, 116, 104, 117, 115, 32, 114, 101, 118, 105, 101, 119, 101, 114, 115, 32,
   99, 111, 110, 115, 101, 113, 117, 101, 110, 116, 108, 121, 32, 97, 99, 99, 101, 112,
   116, 32, 116, 104, 101, 32, 112, 111, 111, 108, 101, 100, 32, 114, 101, 97, 100, 105,
   110, 103, 44, 32, 97, 110, 100, 32, 116, 104, 101, 32, 114, 101, 109, 97, 105, 110,
   105, 110, 103, 32, 115, 112, 114, 101, 97, 100, 44, 32, 111, 110, 99, 101, 32, 97,
   100, 106, 117, 115, 116, 101, 100, 44, 32, 115, 116, 97, 121, 115, 32, 119, 105, 116,
   104, 105, 110, 32, 116, 111, 108, 101, 114, 97, 110, 99]

/-- The final 14 message bytes of the mutated message. -/
def shaLast_mutated : List Nat :=
  [101, 32, 98, 111, 117, 110, 100, 115, 32, 104, 101, 114, 101, 46]

/-- UTF-8 bytes of the mutated message, in 192-byte chunks. -/
def shaBytes_mutated : List Nat :=
  shaMsg_mutated_1 ++ (shaMsg_mutated_2 ++ (shaMsg_mutated_3 ++ (shaMsg_mutated_4 ++ (shaLast_mutated))))

/-- Bytes 0 to 191 of the structJ message. -/
def shaMsg_structJ_1 : List Nat :=
  [123, 34, 99, 111, 110, 118, 101, 114, 103, 101, 110, 99, 101, 95, 97, 99, 104, 105,
   101, 118, 101, 100, 34, 58, 32, 116, 114, 117, 101, 44, 32, 34, 108, 111, 103, 105,
   99, 95, 99, 111, 110, 116, 105, 110, 117, 105, 116, 121, 34, 58, 32, 49, 46, 48,
   44, 32, 34, 111, 118, 101, 114, 97, 108, 108, 95, 115, 108, 111, 112, 101, 34, 58,
   32, 34, 80, 69, 82, 83, 85, 65, 83, 73, 86, 69, 34, 44, 32, 34, 112, 97,
   114, 97, 103, 114, 97, 112, 104, 95, 97, 110, 99, 104, 111, 114, 115, 34, 58, 32,
   91, 34, 83, 89, 78, 84, 72, 69, 84, 73, 67, 95, 82, 65, 84, 73, 79, 78,
   65, 76, 69, 34, 44, 32, 34, 83, 89, 78, 84, 72, 69, 84, 73, 67, 95, 82,
   65, 84, 73, 79, 78, 65, 76, 69, 34, 93, 44, 32, 34, 112, 97, 114, 97, 103,
   114, 97, 112, 104, 95, 99, 111, 117, 110, 116, 34, 58, 32, 50, 44, 32, 34, 112,
   97, 114, 97, 103, 114, 97, 112, 104, 95, 115, 108, 111]

/-- The final 64 message bytes of the structJ message. -/
def shaLast_structJ : List Nat :=
  [112, 101, 115, 34, 58, 32, 91, 34, 80, 69, 82, 83, 85, 65, 83, 73, 86, 69,
   34, 44, 32, 34, 80, 69, 82, 83, 85, 65, 83, 73, 86, 69, 34, 93, 44, 32,
   34, 115, 116, 114, 117, 99, 116, 117, 114, 97, 108, 95, 105, 110, 116, 101, 103, 114,
   105, 116, 121, 34, 58, 32, 49, 46, 48, 125]

/-- UTF-8 bytes of the structJ message, in 192-byte chunks. -/
def shaBytes_structJ : List Nat :=
  shaMsg_structJ_1 ++ (shaLast_structJ)

/-- The final 180 message bytes of the logicJ message. -/
def shaLast_logicJ : List Nat :=
  [123, 34, 98, 111, 117, 110, 100, 97, 114, 105, 101, 115, 95, 115, 97, 116, 105, 115,
   102, 105, 101, 100, 34, 58, 32, 116, 114, 117, 101, 44, 32, 34, 100, 114, 105, 102,
   116, 95, 115, 101, 118, 101, 114, 105, 116, 121, 34, 58, 32, 48, 46, 48, 44, 32,
   34, 115, 108, 111, 112, 101, 95, 114, 101, 115, 111, 108, 117, 116, 105, 111, 110, 34,
   58, 32, 116, 114, 117, 101, 44, 32, 34, 115, 116, 114, 117, 99, 116, 117, 114, 97,
   108, 95, 115, 99, 111, 114, 101, 34, 58, 32, 48, 46, 56, 53, 44, 32, 34, 115,
   117, 112, 112, 114, 101, 115, 115, 105, 111, 110, 95, 115, 99, 111, 114, 101, 34, 58,
   32, 48, 46, 48, 44, 32, 34, 116, 97, 112, 101, 114, 95, 97, 99, 104, 105, 101,
   118, 101, 100, 34, 58, 32, 102, 97, 108, 115, 101, 44, 32, 34, 116, 111, 110, 101,
   95, 110, 101, 117, 116, 114, 97, 108, 105, 116, 121, 34, 58, 32, 49, 46, 48, 125]

/-- UTF-8 bytes of the logicJ message, in 192-byte chunks. -/
def shaBytes_logicJ : List Nat :=
  shaLast_logicJ

/-- Bytes 0 to 191 of the combinedJ message. -/
def shaMsg_combinedJ_1 : List Nat :=
  [123, 34, 97, 108, 103, 111, 114, 105, 116, 104, 109, 34, 58, 32, 34, 115, 104, 97,
   50, 53, 54, 34, 44, 32, 34, 99, 111, 110, 116, 101, 110, 116, 95, 104, 97, 115,
   104, 34, 58, 32, 34, 102, 98, 56, 56, 101, 52, 101, 48, 53, 100, 48, 56, 99,
   56, 48, 98, 54, 55, 102, 97, 48, 97, 48, 99, 98, 98, 99, 102, 100, 100, 51,
   99, 99, 56, 56, 101, 52, 50, 99, 54, 48, 51, 97, 54, 54, 102, 56, 57, 55,
   101, 100, 55, 56, 100, 51, 57, 48, 100, 101, 55, 53, 101, 54, 99, 34, 44, 32,
   34, 103, 101, 110, 101, 114, 97, 116, 111, 114, 95, 118, 101, 114, 115, 105, 111, 110,
   34, 58, 32, 34, 118, 49, 46, 48, 46, 48, 34, 44, 32, 34, 108, 111, 103, 105,
   99, 95, 104, 97, 115, 104, 34, 58, 32, 34, 48, 55, 57, 101, 51, 99, 99, 52,
   54, 100, 97, 101, 48, 55, 55, 52, 99, 98, 49, 102, 56, 48, 98, 52, 100, 102,
   55, 102, 54, 51, 56, 56, 52, 53, 101, 102, 51, 48]

/-- The final 114 message bytes of the combinedJ message. -/
def shaLast_combinedJ : List Nat :=
  [53, 54, 97, 100, 48, 56, 97, 53, 98, 99, 102, 48, 48, 50, 100, 51, 48, 99,
   101, 102, 54, 98, 52, 52, 48, 52, 34, 44, 32, 34, 115, 116, 114, 117, 99, 116,
   117, 114, 101, 95, 104, 97, 115, 104, 34, 58, 32, 34, 98, 98, 102, 49, 54, 99,
   49, 51, 50, 53, 53, 52, 99, 51, 97, 52, 50, 54, 48, 102, 56, 53, 55, 100,
   97, 100, 54, 56, 51, 50, 53, 51, 53, 57, 51, 53, 97, 100, 56, 97, 102, 98,
   97, 97, 51, 52, 52, 101, 98, 102, 54, 55, 48, 54, 101, 53, 55, 55, 97, 48,
   57, 55, 56, 53, 34, 125]

/-- UTF-8 bytes of the combinedJ message, in 192-byte chunks. -/
def shaBytes_combinedJ : List Nat :=
  shaMsg_combinedJ_1 ++ (shaLast_combinedJ)

/-- Bytes 0 to 191 of the gen400 message. -/
def shaMsg_gen400_1 : List Nat :=
  [123, 34, 97, 110, 99, 104, 111, 114, 95, 116, 121, 112, 101, 115, 34, 58, 32, 91,
   34, 80, 82, 73, 77, 65, 82, 89, 95, 83, 79, 85, 82, 67, 69, 34, 44, 32,
   34, 83, 89, 78, 84, 72, 69, 84, 73, 67, 95, 82, 65, 84, 73, 79, 78, 65,
   76, 69, 34, 44, 32, 34, 67, 82, 79, 83, 83, 95, 83, 79, 85, 82, 67, 69,
   68, 95, 76, 79, 71, 73, 67, 34, 44, 32, 34, 67, 79, 78, 84, 69, 88, 84,
   85, 65, 76, 95, 82, 69, 67, 65, 76, 76, 34, 93, 44, 32, 34, 111, 112, 101,
   114, 97, 116, 111, 114, 34, 58, 32, 34, 83, 82, 66, 32, 67, 114, 101, 97, 116,
   105, 118, 101, 32, 72, 111, 108, 100, 105, 110, 103, 115, 32, 76, 76, 67, 34, 44,
   32, 34, 115, 108, 111, 112, 101, 95, 116, 121, 112, 101, 115, 34, 58, 32, 91, 34,
   73, 78, 83, 84, 82, 85, 67, 84, 73, 79, 78, 65, 76, 34, 44, 32, 34, 82,
   69, 67, 85, 82, 83, 73, 86, 69, 34, 44, 32, 34]

/-- Bytes 192 to 383 of the gen400 message. -/
def shaMsg_gen400_2 : List Nat :=
  [68, 73, 65, 71, 78, 79, 83, 84, 73, 67, 34, 44, 32, 34, 67, 79, 77, 80,
   65, 82, 65, 84, 73, 86, 69, 34, 44, 32, 34, 84, 72, 69, 79, 82, 69, 84,
   73, 67, 65, 76, 34, 44, 32, 34, 80, 69, 82, 83, 85, 65, 83, 73, 86, 69,
   34, 93, 44, 32, 34, 116, 105, 109, 101, 115, 116, 97, 109, 112, 34, 58, 32, 34,
   50, 48, 50, 53, 45, 48, 54, 45, 48, 49, 84, 49, 50, 58, 48, 48, 58, 48,
   48, 46, 48, 48, 48, 52, 48, 48, 34, 44, 32, 34, 118, 101, 114, 115, 105, 111,
   110, 115, 34, 58, 32, 123, 34, 99, 100, 112, 34, 58, 32, 34, 118, 49, 46, 48,
   46, 51, 34, 44, 32, 34, 99, 101, 114, 116, 110, 111, 100, 101, 34, 58, 32, 34,
   118, 49, 46, 48, 46, 48, 34, 44, 32, 34, 102, 114, 97, 109, 101, 34, 58, 32,
   34, 118, 51, 46, 48, 46, 49, 34, 44, 32, 34, 108, 99, 108, 34, 58, 32, 34,
   118, 49, 46, 49, 34, 44, 32, 34, 115, 101, 99, 108]

/-- The final 35 message bytes of the gen400 message. -/
def shaLast_gen400 : List Nat :=
  [34, 58, 32, 34, 118, 49, 46, 48, 34, 44, 32, 34, 115, 116, 114, 105, 100, 101,
   34, 58, 32, 34, 76, 49, 92, 117, 50, 49, 57, 49, 46, 51, 34, 125, 125]

/-- UTF-8 bytes of the gen400 message, in 192-byte chunks. -/
def shaBytes_gen400 : List Nat :=
  shaMsg_gen400_1 ++ (shaMsg_gen400_2 ++ (shaLast_gen400))

/-- Bytes 0 to 191 of the gen401 message. -/
def shaMsg_gen401_1 : List Nat :=
  [123, 34, 97, 110, 99, 104, 111, 114, 95, 116, 121, 112, 101, 115, 34, 58, 32, 91,
   34, 80, 82, 73, 77, 65, 82, 89, 95, 83, 79, 85, 82, 67, 69, 34, 44, 32,
   34, 83, 89, 78, 84, 72, 69, 84, 73, 67, 95, 82, 65, 84, 73, 79, 78, 65,
   76, 69, 34, 44, 32, 34, 67, 82, 79, 83, 83, 95, 83, 79, 85, 82, 67, 69,
   68, 95, 76, 79, 71, 73, 67, 34, 44, 32, 34, 67, 79, 78, 84, 69, 88, 84,
   85, 65, 76, 95, 82, 69, 67, 65, 76, 76, 34, 93, 44, 32, 34, 111, 112, 101,
   114, 97, 116, 111, 114, 34, 58, 32, 34, 83, 82, 66, 32, 67, 114, 101, 97, 116,
   105, 118, 101, 32, 72, 111, 108, 100, 105, 110, 103, 115, 32, 76, 76, 67, 34, 44,
   32, 34, 115, 108, 111, 112, 101, 95, 116, 121, 112, 101, 115, 34, 58, 32, 91, 34,
   73, 78, 83, 84, 82, 85, 67, 84, 73, 79, 78, 65, 76, 34, 44, 32, 34, 82,
   69, 67, 85, 82, 83, 73, 86, 69, 34, 44, 32, 34]

/-- Bytes 192 to 383 of the gen401 message. -/
def shaMsg_gen401_2 : List Nat :=
  [68, 73, 65, 71, 78, 79, 83, 84, 73, 67, 34, 44, 32, 34, 67, 79, 77, 80,
   65, 82, 65, 84, 73, 86, 69, 34, 44, 32, 34, 84, 72, 69, 79, 82, 69, 84,
   73, 67, 65, 76, 34, 44, 32, 34, 80, 69, 82, 83, 85, 65, 83, 73, 86, 69,
   34, 93, 44, 32, 34, 116, 105, 109, 101, 115, 116, 97, 109, 112, 34, 58, 32, 34,
   50, 48, 50, 53, 45, 48, 54, 45, 48, 49, 84, 49, 50, 58, 48, 48, 58, 48,
   48, 46, 48, 48, 48, 52, 48, 49, 34, 44, 32, 34, 118, 101, 114, 115, 105, 111,
   110, 115, 34, 58, 32, 123, 34, 99, 100, 112, 34, 58, 32, 34, 118, 49, 46, 48,
   46, 51, 34, 44, 32, 34, 99, 101, 114, 116, 110, 111, 100, 101, 34, 58, 32, 34,
   118, 49, 46, 48, 46, 48, 34, 44, 32, 34, 102, 114, 97, 109, 101, 34, 58, 32,
   34, 118, 51, 46, 48, 46, 49, 34, 44, 32, 34, 108, 99, 108, 34, 58, 32, 34,
   118, 49, 46, 49, 34, 44, 32, 34, 115, 101, 99, 108]

/-- The final 35 message bytes of the gen401 message. -/
def shaLast_gen401 : List Nat :=
  [34, 58, 32, 34, 118, 49, 46, 48, 34, 44, 32, 34, 115, 116, 114, 105, 100, 101,
   34, 58, 32, 34, 76, 49, 92, 117, 50, 49, 57, 49, 46, 51, 34, 125, 125]

/-- UTF-8 bytes of the gen401 message, in 192-byte chunks. -/
def shaBytes_gen401 : List Nat :=
  shaMsg_gen401_1 ++ (shaMsg_gen401_2 ++ (shaLast_gen401))

/-- Bytes 0 to 191 of the anch400 message. -/
def shaMsg_anch400_1 : List Nat :=
  [123, 34, 99, 101, 114, 116, 95, 105, 100, 34, 58, 32, 34, 51, 102, 50, 98, 56,
   101, 48, 52, 45, 53, 97, 49, 55, 45, 52, 99, 50, 101, 45, 57, 98, 54, 100,
   45, 56, 100, 52, 49, 99, 55, 97, 57, 48, 101, 49, 50, 34, 44, 32, 34, 99,
   111, 109, 98, 105, 110, 101, 100, 95, 104, 97, 115, 104, 34, 58, 32, 34, 97, 98,
   57, 56, 57, 48, 100, 97, 48, 51, 49, 99, 97, 57, 48, 55, 101, 56, 98, 51,
   56, 52, 98, 50, 56, 57, 97, 54, 97, 50, 53, 101, 102, 56, 52, 51, 98, 98,
   100, 56, 50, 97, 49, 100, 53, 52, 101, 48, 49, 56, 54, 53, 53, 100, 48, 53,
   54, 55, 102, 52, 57, 101, 49, 53, 34, 44, 32, 34, 103, 101, 110, 101, 115, 105,
   115, 95, 104, 97, 115, 104, 34, 58, 32, 34, 97, 48, 50, 99, 51, 102, 50, 55,
   50, 51, 57, 55, 98, 50, 49, 56, 52, 99, 52, 49, 56, 97, 48, 98, 51, 54,
   54, 99, 51, 101, 97, 100, 55, 52, 51, 100, 98, 99]

/-- The final 118 message bytes of the anch400 message. -/
def shaLast_anch400 : List Nat :=
  [52, 52, 49, 56, 51, 52, 48, 56, 101, 100, 102, 48, 97, 98, 53, 100, 53, 99,
   51, 52, 57, 53, 53, 57, 57, 53, 34, 44, 32, 34, 111, 112, 101, 114, 97, 116,
   111, 114, 34, 58, 32, 34, 83, 82, 66, 32, 67, 114, 101, 97, 116, 105, 118, 101,
   32, 72, 111, 108, 100, 105, 110, 103, 115, 32, 76, 76, 67, 34, 44, 32, 34, 116,
   105, 109, 101, 115, 116, 97, 109, 112, 34, 58, 32, 34, 50, 48, 50, 53, 45, 48,
   54, 45, 48, 49, 84, 49, 50, 58, 48, 48, 58, 48, 48, 46, 48, 48, 48, 51,
   48, 48, 43, 48, 48, 58, 48, 48, 34, 125]

/-- UTF-8 bytes of the anch400 message, in 192-byte chunks. -/
def shaBytes_anch400 : List Nat :=
  shaMsg_anch400_1 ++ (shaLast_anch400)

/-- Bytes 0 to 191 of the anch401 message. -/
def shaMsg_anch401_1 : List Nat :=
  [123, 34, 99, 101, 114, 116, 95, 105, 100, 34, 58, 32, 34, 51, 102, 50, 98, 56,
   101, 48, 52, 45, 53, 97, 49, 55, 45, 52, 99, 50, 101, 45, 57, 98, 54, 100,
   45, 56, 100, 52, 49, 99, 55, 97, 57, 48, 101, 49, 50, 34, 44, 32, 34, 99,
   111, 109, 98, 105, 110, 101, 100, 95, 104, 97, 115, 104, 34, 58, 32, 34, 97, 98,
   57, 56, 57, 48, 100, 97, 48, 51, 49, 99, 97, 57, 48, 55, 101, 56, 98, 51,
   56, 52, 98, 50, 56, 57, 97, 54, 97, 50, 53, 101, 102, 56, 52, 51, 98, 98,
   100, 56, 50, 97, 49, 100, 53, 52, 101, 48, 49, 56, 54, 53, 53, 100, 48, 53,
   54, 55, 102, 52, 57, 101, 49, 53, 34, 44, 32, 34, 103, 101, 110, 101, 115, 105,
   115, 95, 104, 97, 115, 104, 34, 58, 32, 34, 56, 53, 98, 57, 55, 54, 56, 48,
   99, 49, 48, 51, 48, 97, 52, 53, 97, 97, 54, 53, 99, 56, 102, 97, 98, 100,
   48, 57, 97, 57, 55, 48, 54, 50, 102, 101, 51, 49]

/-- The final 118 message bytes of the anch401 message. -/
def shaLast_anch401 : List Nat :=
  [49, 100, 52, 50, 49, 102, 101, 100, 55, 51, 54, 57, 57, 55, 57, 99, 97, 99,
   102, 48, 53, 56, 98, 102, 100, 54, 34, 44, 32, 34, 111, 112, 101, 114, 97, 116,
   111, 114, 34, 58, 32, 34, 83, 82, 66, 32, 67, 114, 101, 97, 116, 105, 118, 101,
   32, 72, 111, 108, 100, 105, 110, 103, 115, 32, 76, 76, 67, 34, 44, 32, 34, 116,
   105, 109, 101, 115, 116, 97, 109, 112, 34, 58, 32, 34, 50, 48, 50, 53, 45, 48,
   54, 45, 48, 49, 84, 49, 50, 58, 48, 48, 58, 48, 48, 46, 48, 48, 48, 51,
   48, 48, 43, 48, 48, 58, 48, 48, 34, 125]

/-- UTF-8 bytes of the anch401 message, in 192-byte chunks. -/
def shaBytes_anch401 : List Nat :=
  shaMsg_anch401_1 ++ (shaLast_anch401)

/-- The fingerprint issued by the sample run, with all four digests as
literal hex strings. -/
def fpLit : ICS.ContentFingerprint :=
  { content_hash := "fb88e4e05d08c80b67fa0a0cbbcfdd3cc88e42c603a66f897ed78d390de75e6c"
    structure_hash := "bbf16c132554c3a4260f857dad6832535935ad8afbaa344ebf6706e577a09785"
    logic_hash := "079e3cc46dae0774cb1f80b4df7f638845ef3056ad08a5bcf002d30cef6b4404"
    combined_hash := "ab9890da031ca907e8b384b289a6a25ef843bbd82a1d54e018655d0567f49e15"
    fingerprint_algorithm := "sha256" }

/-- The metadata record issued by the sample run. -/
def metaLit : ICS.CertificationMetadata :=
  { cert_id := "3f2b8e04-5a17-4c2e-9b6d-8d41c7a90e12"
    timestamp := "2025-06-01T12:00:00.000300+00:00"
    operator := "SRB Creative Holdings LLC"
    system_version := "v1.0.0"
    processing_versions := [("CDP", "v1.0.3"), ("FRAME", "v3.0.1"), ("STRIDE", "L1↑.3")]
    content_type := "LOGIC_FRAGMENT"
    author_signature := none }

/-- A second, distinct set of wall-clock and randomness values, as consumed
by an independent later run on the same request. -/
def Scenario.altClock : CertNodeProcessor.RunClock :=
  { frameNowIso := "2025-06-02T08:30:00.000700"
    strideNowIso := "2025-06-02T08:30:00.000800"
    uuidStr := "b4d91c22-7e45-4b7a-a1fd-0c3de1f20b77"
    metaNowIso := "2025-06-02T08:30:00.000900+00:00"
    genesisNowIso1 := "2025-06-02T08:30:00.001000"
    genesisNowIso2 := "2025-06-02T08:30:00.001100" }

/-- Padding appends `padSuffix` of the message length to the message. -/
theorem Sha256.pad_eq (msg : List Nat) :
    Sha256.pad msg = msg ++ Sha256.padSuffix msg.length := by
  unfold Sha256.pad Sha256.padSuffix
  simp only [List.append_assoc, List.singleton_append, List.cons_append, List.nil_append]

/-- Byte encoding of the content message. -/
theorem sha_content_bytes : Py.encodeUtf8 "Observed variation, however, narrows because sampling coverage improved since baseline, although residual noise appears small, and the measured gap seems stable across cohorts, reviewers agree. Furthermore, convergence holds, therefore the estimate tightens, thus reviewers consequently accept the pooled reading, and the remaining spread, once adjusted, stays within tolerance bounds here.\n\nObserved variation, however, narrows because sampling coverage improved since baseline, although residual noise appears small, and the measured gap seems stable across cohorts, reviewers agree. Furthermore, convergence holds, therefore the estimate tightens, thus reviewers consequently accept the pooled reading, and the remaining spread, once adjusted, stays within tolerance bounds here." = shaBytes_content := by
  decide

/-- SHA-256 padding of the content message, split at 192-byte boundaries. -/
theorem sha_content_pad : Sha256.pad shaBytes_content =
    shaMsg_content_1 ++ (shaMsg_content_2 ++ (shaMsg_content_3 ++ (shaMsg_content_4 ++ ((shaLast_content ++ Sha256.padSuffix 782))))) := by
  rw [Sha256.pad_eq]
  rw [show (shaBytes_content.length = 782) from by decide]
  unfold shaBytes_content
  simp only [List.append_assoc]

/-- Compression state after stage 1 of the content message. -/
theorem sha_content_st1 :
    List.foldl Sha256.step (Sha256.H0, []) shaMsg_content_1 =
      ([4099192837, 386672394, 3436946719, 14108609, 905954228, 2656099212, 3844132242, 1485320456], []) := by
  decide

/-- Compression state after stage 2 of the content message. -/
theorem sha_content_st2 :
    List.foldl Sha256.step ([4099192837, 386672394, 3436946719, 14108609, 905954228, 2656099212, 3844132242, 1485320456], []) shaMsg_content_2 =
      ([1959786208, 365494117, 3022201775, 2720675849, 2050133300, 3791766430, 1924309536, 2911854747], []) := by
  decide

/-- Compression state after stage 3 of the content message. -/
theorem sha_content_st3 :
    List.foldl Sha256.step ([1959786208, 365494117, 3022201775, 2720675849, 2050133300, 3791766430, 1924309536, 2911854747], []) shaMsg_content_3 =
      ([3991528898, 1910066404, 3628522698, 2676274542, 852812895, 1905480865, 1338440346, 1638506890], []) := by
  decide

/-- Compression state after stage 4 of the content message. -/
theorem sha_content_st4 :
    List.foldl Sha256.step ([3991528898, 1910066404, 3628522698, 2676274542, 852812895, 1905480865, 1338440346, 1638506890], []) shaMsg_content_4 =
      ([3354268182, 3571353764, 2878931812, 2605731743, 2936228604, 3489335935, 3387226491, 936698657], []) := by
  decide

/-- Compression state after stage 5 of the content message. -/
theorem sha_content_st5 :
    List.foldl Sha256.step ([3354268182, 3571353764, 2878931812, 2605731743, 2936228604, 3489335935, 3387226491, 936698657], []) (shaLast_content ++ Sha256.padSuffix 782) =
      ([4220052704, 1560856587, 1744439820, 3150961980, 3364766406, 61239177, 2128055609, 233266796], []) := by
  decide

/-- SHA-256 digest of the content message. -/
theorem sha_content_hex : Py.sha256Hex "Observed variation, however, narrows because sampling coverage improved since baseline, although residual noise appears small, and the measured gap seems stable across cohorts, reviewers agree. Furthermore, convergence holds, therefore the estimate tightens, thus reviewers consequently accept the pooled reading, and the remaining spread, once adjusted, stays within tolerance bounds here.\n\nObserved variation, however, narrows because sampling coverage improved since baseline, although residual noise appears small, and the measured gap seems stable across cohorts, reviewers agree. Furthermore, convergence holds, therefore the estimate tightens, thus reviewers consequently accept the pooled reading, and the remaining spread, once adjusted, stays within tolerance bounds here." = "fb88e4e05d08c80b67fa0a0cbbcfdd3cc88e42c603a66f897ed78d390de75e6c" := by
  unfold Py.sha256Hex Sha256.hexDigest Sha256.digestWords
  rw [sha_content_bytes, sha_content_pad, List.foldl_append, sha_content_st1, List.foldl_append, sha_content_st2, List.foldl_append, sha_content_st3, List.foldl_append, sha_content_st4, sha_content_st5]
  decide

/-- Byte encoding of the mutated message. -/
theorem sha_mutated_bytes : Py.encodeUtf8 "Qbserved variation, however, narrows because sampling coverage improved since baseline, although residual noise appears small, and the measured gap seems stable across cohorts, reviewers agree. Furthermore, convergence holds, therefore the estimate tightens, thus reviewers consequently accept the pooled reading, and the remaining spread, once adjusted, stays within tolerance bounds here.\n\nObserved variation, however, narrows because sampling coverage improved since baseline, although residual noise appears small, and the measured gap seems stable across cohorts, reviewers agree. Furthermore, convergence holds, therefore the estimate tightens, thus reviewers consequently accept the pooled reading, and the remaining spread, once adjusted, stays within tolerance bounds here." = shaBytes_mutated := by
  decide

/-- SHA-256 padding of the mutated message, split at 192-byte boundaries. -/
theorem sha_mutated_pad : Sha256.pad shaBytes_mutated =
    shaMsg_mutated_1 ++ (shaMsg_mutated_2 ++ (shaMsg_mutated_3 ++ (shaMsg_mutated_4 ++ ((shaLast_mutated ++ Sha256.padSuffix 782))))) := by
  rw [Sha256.pad_eq]
  rw [show (shaBytes_mutated.length = 782) from by decide]
  unfold shaBytes_mutated
  simp only [List.append_assoc]

/-- Compression state after stage 1 of the mutated message. -/
theorem sha_mutated_st1 :
    List.foldl Sha256.step (Sha256.H0, []) shaMsg_mutated_1 =
      ([1263799266, 1775549703, 3355660623, 2004142095, 4233130183, 1461267890, 325341828, 2776160030], []) := by
  decide

/-- Compression state after stage 2 of the mutated message. -/
theorem sha_mutated_st2 :
    List.foldl Sha256.step ([1263799266, 1775549703, 3355660623, 2004142095, 4233130183, 1461267890, 325341828, 2776160030], []) shaMsg_mutated_2 =
      ([2324596123, 3826321781, 3747609366, 4128168471, 1033306213, 4261289867, 4052279603, 766305121], []) := by
  decide

/-- Compression state after stage 3 of the mutated message. -/
theorem sha_mutated_st3 :
    List.foldl Sha256.step ([2324596123, 3826321781, 3747609366, 4128168471, 1033306213, 4261289867, 4052279603, 766305121], []) shaMsg_mutated_3 =
      ([1456298100, 3227215220, 4225706021, 1757504467, 684498092, 1128848681, 3110174577, 4033600991], []) := by
  decide

/-- Compression state after stage 4 of the mutated message. -/
theorem sha_mutated_st4 :
    List.foldl Sha256.step ([1456298100, 3227215220, 4225706021, 1757504467, 684498092, 1128848681, 3110174577, 4033600991], []) shaMsg_mutated_4 =
      ([1090858463, 3761354237, 2097321151, 75670977, 824093763, 4219418269, 2254963930, 301116660], []) := by
  decide

/-- Compression state after stage 5 of the mutated message. -/
theorem sha_mutated_st5 :
    List.foldl Sha256.step ([1090858463, 3761354237, 2097321151, 75670977, 824093763, 4219418269, 2254963930, 301116660], []) (shaLast_mutated ++ Sha256.padSuffix 782) =
      ([2379872243, 301770460, 1328393287, 2161541414, 2992124718, 3715733829, 4059695643, 3741656178], []) := by
  decide

/-- SHA-256 digest of the mutated message. -/
theorem sha_mutated_hex : Py.sha256Hex "Qbserved variation, however, narrows because sampling coverage improved since baseline, although residual noise appears small, and the measured gap seems stable across cohorts, reviewers agree. Furthermore, convergence holds, therefore the estimate tightens, thus reviewers consequently accept the pooled reading, and the remaining spread, once adjusted, stays within tolerance bounds here.\n\nObserved variation, however, narrows because sampling coverage improved since baseline, although residual noise appears small, and the measured gap seems stable across cohorts, reviewers agree. Furthermore, convergence holds, therefore the estimate tightens, thus reviewers consequently accept the pooled reading, and the remaining spread, once adjusted, stays within tolerance bounds here." = "8dd9f7f311fca6dc4f2dac4780d68126b258332edd799945f1fa0a1bdf052472" := by
  unfold Py.sha256Hex Sha256.hexDigest Sha256.digestWords
  rw [sha_mutated_bytes, sha_mutated_pad, List.foldl_append, sha_mutated_st1, List.foldl_append, sha_mutated_st2, List.foldl_append, sha_mutated_st3, List.foldl_append, sha_mutated_st4, sha_mutated_st5]
  decide

/-- Byte encoding of the structJ message. -/
theorem sha_structJ_bytes : Py.encodeUtf8 "\x7b\"convergence_achieved\": true, \"logic_continuity\": 1.0, \"overall_slope\": \"PERSUASIVE\", \"paragraph_anchors\": [\"SYNTHETIC_RATIONALE\", \"SYNTHETIC_RATIONALE\"], \"paragraph_count\": 2, \"paragraph_slopes\": [\"PERSUASIVE\", \"PERSUASIVE\"], \"structural_integrity\": 1.0\x7d" = shaBytes_structJ := by
  decide

/-- SHA-256 padding of the structJ message, split at 192-byte boundaries. -/
theorem sha_structJ_pad : Sha256.pad shaBytes_structJ =
    shaMsg_structJ_1 ++ ((shaLast_structJ ++ Sha256.padSuffix 256)) := by
  rw [Sha256.pad_eq]
  rw [show (shaBytes_structJ.length = 256) from by decide]
  unfold shaBytes_structJ
  simp only [List.append_assoc]

/-- Compression state after stage 1 of the structJ message. -/
theorem sha_structJ_st1 :
    List.foldl Sha256.step (Sha256.H0, []) shaMsg_structJ_1 =
      ([1125346325, 2940303147, 3277540454, 440328519, 224913116, 919666237, 2037848233, 3027456110], []) := by
  decide

/-- Compression state after stage 2 of the structJ message. -/
theorem sha_structJ_st2 :
    List.foldl Sha256.step ([1125346325, 2940303147, 3277540454, 440328519, 224913116, 919666237, 2037848233, 3027456110], []) (shaLast_structJ ++ Sha256.padSuffix 256) =
      ([3153161235, 626312100, 638551421, 2909286995, 1496690058, 4222235726, 3211200229, 2007013253], []) := by
  decide

/-- SHA-256 digest of the structJ message. -/
theorem sha_structJ_hex : Py.sha256Hex "\x7b\"convergence_achieved\": true, \"logic_continuity\": 1.0, \"overall_slope\": \"PERSUASIVE\", \"paragraph_anchors\": [\"SYNTHETIC_RATIONALE\", \"SYNTHETIC_RATIONALE\"], \"paragraph_count\": 2, \"paragraph_slopes\": [\"PERSUASIVE\", \"PERSUASIVE\"], \"structural_integrity\": 1.0\x7d" = "bbf16c132554c3a4260f857dad6832535935ad8afbaa344ebf6706e577a09785" := by
  unfold Py.sha256Hex Sha256.hexDigest Sha256.digestWords
  rw [sha_structJ_bytes, sha_structJ_pad, List.foldl_append, sha_structJ_st1, sha_structJ_st2]
  decide

/-- Byte encoding of the logicJ message. -/
theorem sha_logicJ_bytes : Py.encodeUtf8 "\x7b\"boundaries_satisfied\": true, \"drift_severity\": 0.0, \"slope_resolution\": true, \"structural_score\": 0.85, \"suppression_score\": 0.0, \"taper_achieved\": false, \"tone_neutrality\": 1.0\x7d" = shaBytes_logicJ := by
  decide

/-- SHA-256 padding of the logicJ message, split at 192-byte boundaries. -/
theorem sha_logicJ_pad : Sha256.pad shaBytes_logicJ =
    (shaLast_logicJ ++ Sha256.padSuffix 180) := by
  rw [Sha256.pad_eq]
  rw [show (shaBytes_logicJ.length = 180) from by decide]
  unfold shaBytes_logicJ
  rfl

/-- Compression state after stage 1 of the logicJ message. -/
theorem sha_logicJ_st1 :
    List.foldl Sha256.step (Sha256.H0, []) (shaLast_logicJ ++ Sha256.padSuffix 180) =
      ([127810756, 1840121716, 3407839412, 3749667720, 1173303382, 2903025084, 4026716940, 4016784388], []) := by
  decide

/-- SHA-256 digest of the logicJ message. -/
theorem sha_logicJ_hex : Py.sha256Hex "\x7b\"boundaries_satisfied\": true, \"drift_severity\": 0.0, \"slope_resolution\": true, \"structural_score\": 0.85, \"suppression_score\": 0.0, \"taper_achieved\": false, \"tone_neutrality\": 1.0\x7d" = "079e3cc46dae0774cb1f80b4df7f638845ef3056ad08a5bcf002d30cef6b4404" := by
  unfold Py.sha256Hex Sha256.hexDigest Sha256.digestWords
  rw [sha_logicJ_bytes, sha_logicJ_pad, sha_logicJ_st1]
  decide

/-- Byte encoding of the combinedJ message. -/
theorem sha_combinedJ_bytes : Py.encodeUtf8 "\x7b\"algorithm\": \"sha256\", \"content_hash\": \"fb88e4e05d08c80b67fa0a0cbbcfdd3cc88e42c603a66f897ed78d390de75e6c\", \"generator_version\": \"v1.0.0\", \"logic_hash\": \"079e3cc46dae0774cb1f80b4df7f638845ef3056ad08a5bcf002d30cef6b4404\", \"structure_hash\": \"bbf16c132554c3a4260f857dad6832535935ad8afbaa344ebf6706e577a09785\"\x7d" = shaBytes_combinedJ := by
  decide

/-- SHA-256 padding of the combinedJ message, split at 192-byte boundaries. -/
theorem sha_combinedJ_pad : Sha256.pad shaBytes_combinedJ =
    shaMsg_combinedJ_1 ++ ((shaLast_combinedJ ++ Sha256.padSuffix 306)) := by
  rw [Sha256.pad_eq]
  rw [show (shaBytes_combinedJ.length = 306) from by decide]
  unfold shaBytes_combinedJ
  simp only [List.append_assoc]

/-- Compression state after stage 1 of the combinedJ message. -/
theorem sha_combinedJ_st1 :
    List.foldl Sha256.step (Sha256.H0, []) shaMsg_combinedJ_1 =
      ([3425223357, 115866715, 1055414016, 2703688584, 1103922386, 4272658168, 3433263331, 1709007158], []) := by
  decide

/-- Compression state after stage 2 of the combinedJ message. -/
theorem sha_combinedJ_st2 :
    List.foldl Sha256.step ([3425223357, 115866715, 1055414016, 2703688584, 1103922386, 4272658168, 3433263331, 1709007158], []) (shaLast_combinedJ ++ Sha256.padSuffix 306) =
      ([2878902490, 52209927, 3904079026, 2309399134, 4165188568, 706565344, 409296133, 1744084501], []) := by
  decide

/-- SHA-256 digest of the combinedJ message. -/
theorem sha_combinedJ_hex : Py.sha256Hex "\x7b\"algorithm\": \"sha256\", \"content_hash\": \"fb88e4e05d08c80b67fa0a0cbbcfdd3cc88e42c603a66f897ed78d390de75e6c\", \"generator_version\": \"v1.0.0\", \"logic_hash\": \"079e3cc46dae0774cb1f80b4df7f638845ef3056ad08a5bcf002d30cef6b4404\", \"structure_hash\": \"bbf16c132554c3a4260f857dad6832535935ad8afbaa344ebf6706e577a09785\"\x7d" = "ab9890da031ca907e8b384b289a6a25ef843bbd82a1d54e018655d0567f49e15" := by
  unfold Py.sha256Hex Sha256.hexDigest Sha256.digestWords
  rw [sha_combinedJ_bytes, sha_combinedJ_pad, List.foldl_append, sha_combinedJ_st1, sha_combinedJ_st2]
  decide

/-- Byte encoding of the gen400 message. -/
theorem sha_gen400_bytes : Py.encodeUtf8 "\x7b\"anchor_types\": [\"PRIMARY_SOURCE\", \"SYNTHETIC_RATIONALE\", \"CROSS_SOURCED_LOGIC\", \"CONTEXTUAL_RECALL\"], \"operator\": \"SRB Creative Holdings LLC\", \"slope_types\": [\"INSTRUCTIONAL\", \"RECURSIVE\", \"DIAGNOSTIC\", \"COMPARATIVE\", \"THEORETICAL\", \"PERSUASIVE\"], \"timestamp\": \"2025-06-01T12:00:00.000400\", \"versions\": \x7b\"cdp\": \"v1.0.3\", \"certnode\": \"v1.0.0\", \"frame\": \"v3.0.1\", \"lcl\": \"v1.1\", \"secl\": \"v1.0\", \"stride\": \"L1\\u2191.3\"\x7d\x7d" = shaBytes_gen400 := by
  decide

/-- SHA-256 padding of the gen400 message, split at 192-byte boundaries. -/
theorem sha_gen400_pad : Sha256.pad shaBytes_gen400 =
    shaMsg_gen400_1 ++ (shaMsg_gen400_2 ++ ((shaLast_gen400 ++ Sha256.padSuffix 419))) := by
  rw [Sha256.pad_eq]
  rw [show (shaBytes_gen400.length = 419) from by decide]
  unfold shaBytes_gen400
  simp only [List.append_assoc]

/-- Compression state after stage 1 of the gen400 message. -/
theorem sha_gen400_st1 :
    List.foldl Sha256.step (Sha256.H0, []) shaMsg_gen400_1 =
      ([4186106410, 1218519110, 1034575182, 2784378445, 3861526076, 4248341043, 3754286311, 1984841062], []) := by
  decide

/-- Compression state after stage 2 of the gen400 message. -/
theorem sha_gen400_st2 :
    List.foldl Sha256.step ([4186106410, 1218519110, 1034575182, 2784378445, 3861526076, 4248341043, 3754286311, 1984841062], []) shaMsg_gen400_2 =
      ([809322722, 808022842, 901328381, 3817822445, 2528033952, 1986866248, 211529272, 161343428], []) := by
  decide

/-- Compression state after stage 3 of the gen400 message. -/
theorem sha_gen400_st3 :
    List.foldl Sha256.step ([809322722, 808022842, 901328381, 3817822445, 2528033952, 1986866248, 211529272, 161343428], []) (shaLast_gen400 ++ Sha256.padSuffix 419) =
      ([2687254311, 597144088, 1279363595, 913063597, 1950202948, 406063341, 4037762396, 882203029], []) := by
  decide

/-- SHA-256 digest of the gen400 message. -/
theorem sha_gen400_hex : Py.sha256Hex "\x7b\"anchor_types\": [\"PRIMARY_SOURCE\", \"SYNTHETIC_RATIONALE\", \"CROSS_SOURCED_LOGIC\", \"CONTEXTUAL_RECALL\"], \"operator\": \"SRB Creative Holdings LLC\", \"slope_types\": [\"INSTRUCTIONAL\", \"RECURSIVE\", \"DIAGNOSTIC\", \"COMPARATIVE\", \"THEORETICAL\", \"PERSUASIVE\"], \"timestamp\": \"2025-06-01T12:00:00.000400\", \"versions\": \x7b\"cdp\": \"v1.0.3\", \"certnode\": \"v1.0.0\", \"frame\": \"v3.0.1\", \"lcl\": \"v1.1\", \"secl\": \"v1.0\", \"stride\": \"L1\\u2191.3\"\x7d\x7d" = "a02c3f272397b2184c418a0b366c3ead743dbc44183408edf0ab5d5c34955995" := by
  unfold Py.sha256Hex Sha256.hexDigest Sha256.digestWords
  rw [sha_gen400_bytes, sha_gen400_pad, List.foldl_append, sha_gen400_st1, List.foldl_append, sha_gen400_st2, sha_gen400_st3]
  decide

/-- Byte encoding of the gen401 message. -/
theorem sha_gen401_bytes : Py.encodeUtf8 "\x7b\"anchor_types\": [\"PRIMARY_SOURCE\", \"SYNTHETIC_RATIONALE\", \"CROSS_SOURCED_LOGIC\", \"CONTEXTUAL_RECALL\"], \"operator\": \"SRB Creative Holdings LLC\", \"slope_types\": [\"INSTRUCTIONAL\", \"RECURSIVE\", \"DIAGNOSTIC\", \"COMPARATIVE\", \"THEORETICAL\", \"PERSUASIVE\"], \"timestamp\": \"2025-06-01T12:00:00.000401\", \"versions\": \x7b\"cdp\": \"v1.0.3\", \"certnode\": \"v1.0.0\", \"frame\": \"v3.0.1\", \"lcl\": \"v1.1\", \"secl\": \"v1.0\", \"stride\": \"L1\\u2191.3\"\x7d\x7d" = shaBytes_gen401 := by
  decide

/-- SHA-256 padding of the gen401 message, split at 192-byte boundaries. -/
theorem sha_gen401_pad : Sha256.pad shaBytes_gen401 =
    shaMsg_gen401_1 ++ (shaMsg_gen401_2 ++ ((shaLast_gen401 ++ Sha256.padSuffix 419))) := by
  rw [Sha256.pad_eq]
  rw [show (shaBytes_gen401.length = 419) from by decide]
  unfold shaBytes_gen401
  simp only [List.append_assoc]

/-- Compression state after stage 1 of the gen401 message. -/
theorem sha_gen401_st1 :
    List.foldl Sha256.step (Sha256.H0, []) shaMsg_gen401_1 =
      ([4186106410, 1218519110, 1034575182, 2784378445, 3861526076, 4248341043, 3754286311, 1984841062], []) := by
  decide

/-- Compression state after stage 2 of the gen401 message. -/
theorem sha_gen401_st2 :
    List.foldl Sha256.step ([4186106410, 1218519110, 1034575182, 2784378445, 3861526076, 4248341043, 3754286311, 1984841062], []) shaMsg_gen401_2 =
      ([694245394, 1148686109, 1805997904, 1052470796, 2120577834, 1337183087, 4098269722, 209467591], []) := by
  decide

/-- Compression state after stage 3 of the gen401 message. -/
theorem sha_gen401_st3 :
    List.foldl Sha256.step ([694245394, 1148686109, 1805997904, 1052470796, 2120577834, 1337183087, 4098269722, 209467591], []) (shaLast_gen401 ++ Sha256.padSuffix 419) =
      ([2243524224, 3238201925, 2858797306, 3171527024, 1660825885, 1109388659, 1771543724, 4032348118], []) := by
  decide

/-- SHA-256 digest of the gen401 message. -/
theorem sha_gen401_hex : Py.sha256Hex "\x7b\"anchor_types\": [\"PRIMARY_SOURCE\", \"SYNTHETIC_RATIONALE\", \"CROSS_SOURCED_LOGIC\", \"CONTEXTUAL_RECALL\"], \"operator\": \"SRB Creative Holdings LLC\", \"slope_types\": [\"INSTRUCTIONAL\", \"RECURSIVE\", \"DIAGNOSTIC\", \"COMPARATIVE\", \"THEORETICAL\", \"PERSUASIVE\"], \"timestamp\": \"2025-06-01T12:00:00.000401\", \"versions\": \x7b\"cdp\": \"v1.0.3\", \"certnode\": \"v1.0.0\", \"frame\": \"v3.0.1\", \"lcl\": \"v1.1\", \"secl\": \"v1.0\", \"stride\": \"L1\\u2191.3\"\x7d\x7d" = "85b97680c1030a45aa65c8fabd09a97062fe311d421fed7369979cacf058bfd6" := by
  unfold Py.sha256Hex Sha256.hexDigest Sha256.digestWords
  rw [sha_gen401_bytes, sha_gen401_pad, List.foldl_append, sha_gen401_st1, List.foldl_append, sha_gen401_st2, sha_gen401_st3]
  decide

/-- Byte encoding of the anch400 message. -/
theorem sha_anch400_bytes : Py.encodeUtf8 "\x7b\"cert_id\": \"3f2b8e04-5a17-4c2e-9b6d-8d41c7a90e12\", \"combined_hash\": \"ab9890da031ca907e8b384b289a6a25ef843bbd82a1d54e018655d0567f49e15\", \"genesis_hash\": \"a02c3f272397b2184c418a0b366c3ead743dbc44183408edf0ab5d5c34955995\", \"operator\": \"SRB Creative Holdings LLC\", \"timestamp\": \"2025-06-01T12:00:00.000300+00:00\"\x7d" = shaBytes_anch400 := by
  decide

/-- SHA-256 padding of the anch400 message, split at 192-byte boundaries. -/
theorem sha_anch400_pad : Sha256.pad shaBytes_anch400 =
    shaMsg_anch400_1 ++ ((shaLast_anch400 ++ Sha256.padSuffix 310)) := by
  rw [Sha256.pad_eq]
  rw [show (shaBytes_anch400.length = 310) from by decide]
  unfold shaBytes_anch400
  simp only [List.append_assoc]

/-- Compression state after stage 1 of the anch400 message. -/
theorem sha_anch400_st1 :
    List.foldl Sha256.step (Sha256.H0, []) shaMsg_anch400_1 =
      ([1111519372, 3015252383, 927634719, 214249062, 1409402897, 721690681, 2854610212, 2558564646], []) := by
  decide

/-- Compression state after stage 2 of the anch400 message. -/
theorem sha_anch400_st2 :
    List.foldl Sha256.step ([1111519372, 3015252383, 927634719, 214249062, 1409402897, 721690681, 2854610212, 2558564646], []) (shaLast_anch400 ++ Sha256.padSuffix 310) =
      ([2386623600, 1100406504, 1293626479, 686975486, 1671369571, 177106022, 1053676160, 1050105590], []) := by
  decide

/-- SHA-256 digest of the anch400 message. -/
theorem sha_anch400_hex : Py.sha256Hex "\x7b\"cert_id\": \"3f2b8e04-5a17-4c2e-9b6d-8d41c7a90e12\", \"combined_hash\": \"ab9890da031ca907e8b384b289a6a25ef843bbd82a1d54e018655d0567f49e15\", \"genesis_hash\": \"a02c3f272397b2184c418a0b366c3ead743dbc44183408edf0ab5d5c34955995\", \"operator\": \"SRB Creative Holdings LLC\", \"timestamp\": \"2025-06-01T12:00:00.000300+00:00\"\x7d" = "8e40fc704196dee84d1b2c6f28f269fe639f13630a8e6c663ecdd2803e9756f6" := by
  unfold Py.sha256Hex Sha256.hexDigest Sha256.digestWords
  rw [sha_anch400_bytes, sha_anch400_pad, List.foldl_append, sha_anch400_st1, sha_anch400_st2]
  decide

/-- Byte encoding of the anch401 message. -/
theorem sha_anch401_bytes : Py.encodeUtf8 "\x7b\"cert_id\": \"3f2b8e04-5a17-4c2e-9b6d-8d41c7a90e12\", \"combined_hash\": \"ab9890da031ca907e8b384b289a6a25ef843bbd82a1d54e018655d0567f49e15\", \"genesis_hash\": \"85b97680c1030a45aa65c8fabd09a97062fe311d421fed7369979cacf058bfd6\", \"operator\": \"SRB Creative Holdings LLC\", \"timestamp\": \"2025-06-01T12:00:00.000300+00:00\"\x7d" = shaBytes_anch401 := by
  decide

/-- SHA-256 padding of the anch401 message, split at 192-byte boundaries. -/
theorem sha_anch401_pad : Sha256.pad shaBytes_anch401 =
    shaMsg_anch401_1 ++ ((shaLast_anch401 ++ Sha256.padSuffix 310)) := by
  rw [Sha256.pad_eq]
  rw [show (shaBytes_anch401.length = 310) from by decide]
  unfold shaBytes_anch401
  simp only [List.append_assoc]

/-- Compression state after stage 1 of the anch401 message. -/
theorem sha_anch401_st1 :
    List.foldl Sha256.step (Sha256.H0, []) shaMsg_anch401_1 =
      ([382569769, 1229231123, 2087279315, 4138981566, 564912877, 1455017562, 442384883, 2928873492], []) := by
  decide

/-- Compression state after stage 2 of the anch401 message. -/
theorem sha_anch401_st2 :
    List.foldl Sha256.step ([382569769, 1229231123, 2087279315, 4138981566, 564912877, 1455017562, 442384883, 2928873492], []) (shaLast_anch401 ++ Sha256.padSuffix 310) =
      ([1779294585, 75611898, 3665020704, 3694516672, 1329285359, 3306228464, 2913791270, 1678719035], []) := by
  decide

/-- SHA-256 digest of the anch401 message. -/
theorem sha_anch401_hex : Py.sha256Hex "\x7b\"cert_id\": \"3f2b8e04-5a17-4c2e-9b6d-8d41c7a90e12\", \"combined_hash\": \"ab9890da031ca907e8b384b289a6a25ef843bbd82a1d54e018655d0567f49e15\", \"genesis_hash\": \"85b97680c1030a45aa65c8fabd09a97062fe311d421fed7369979cacf058bfd6\", \"operator\": \"SRB Creative Holdings LLC\", \"timestamp\": \"2025-06-01T12:00:00.000300+00:00\"\x7d" = "6a0de1790481befada73c720dc35d9c04f3b48efc5110af0adaced26640f383b" := by
  unfold Py.sha256Hex Sha256.hexDigest Sha256.digestWords
  rw [sha_anch401_bytes, sha_anch401_pad, List.foldl_append, sha_anch401_st1, sha_anch401_st2]
  decide

/-- The sample document, as one literal string. -/
theorem contentSampleLit : Scenario.sampleRequest.content = "Observed variation, however, narrows because sampling coverage improved since baseline, although residual noise appears small, and the measured gap seems stable across cohorts, reviewers agree. Furthermore, convergence holds, therefore the estimate tightens, thus reviewers consequently accept the pooled reading, and the remaining spread, once adjusted, stays within tolerance bounds here.\n\nObserved variation, however, narrows because sampling coverage improved since baseline, although residual noise appears small, and the measured gap seems stable across cohorts, reviewers agree. Furthermore, convergence holds, therefore the estimate tightens, thus reviewers consequently accept the pooled reading, and the remaining spread, once adjusted, stays within tolerance bounds here." := by
  decide

/-- The mutated document, as one literal string. -/
theorem contentMutatedLit : Scenario.mutatedContent = "Qbserved variation, however, narrows because sampling coverage improved since baseline, although residual noise appears small, and the measured gap seems stable across cohorts, reviewers agree. Furthermore, convergence holds, therefore the estimate tightens, thus reviewers consequently accept the pooled reading, and the remaining spread, once adjusted, stays within tolerance bounds here.\n\nObserved variation, however, narrows because sampling coverage improved since baseline, although residual noise appears small, and the measured gap seems stable across cohorts, reviewers agree. Furthermore, convergence holds, therefore the estimate tightens, thus reviewers consequently accept the pooled reading, and the remaining spread, once adjusted, stays within tolerance bounds here." := by
  decide

/-- The serialized structure dictionary of the sample CDP result. -/
theorem dumpStructSample :
    PyJson.dumps false (PyJson.JVal.obj
      [("overall_slope", PyJson.JVal.s Scenario.sampleCdp.overall_slope),
       ("structural_integrity", PyJson.JVal.f Scenario.sampleCdp.structural_integrity),
       ("logic_continuity", PyJson.JVal.f Scenario.sampleCdp.logic_continuity),
       ("convergence_achieved", PyJson.JVal.b Scenario.sampleCdp.convergence_achieved),
       ("paragraph_count", PyJson.JVal.i Scenario.sampleCdp.paragraphs.length),
       ("paragraph_slopes", PyJson.JVal.arr
         (Scenario.sampleCdp.paragraphs.map fun p => PyJson.JVal.s p.slope_type)),
       ("paragraph_anchors", PyJson.JVal.arr
         (Scenario.sampleCdp.paragraphs.map fun p => PyJson.JVal.s p.anchor_type))]) =
    "\x7b\"convergence_achieved\": true, \"logic_continuity\": 1.0, \"overall_slope\": \"PERSUASIVE\", \"paragraph_anchors\": [\"SYNTHETIC_RATIONALE\", \"SYNTHETIC_RATIONALE\"], \"paragraph_count\": 2, \"paragraph_slopes\": [\"PERSUASIVE\", \"PERSUASIVE\"], \"structural_integrity\": 1.0\x7d" := by
  decide

/-- The serialized logic dictionary of the sample FRAME and STRIDE results. -/
theorem dumpLogicSample :
    PyJson.dumps false (PyJson.JVal.obj
      [("boundaries_satisfied", PyJson.JVal.b Scenario.sampleFrame.boundaries_satisfied),
       ("structural_score", PyJson.JVal.f Scenario.sampleFrame.structural_score),
       ("taper_achieved", PyJson.JVal.b Scenario.sampleFrame.taper_analysis.taper_achieved),
       ("slope_resolution", PyJson.JVal.b Scenario.sampleFrame.slope_resolution),
       ("suppression_score", PyJson.JVal.f Scenario.sampleStride.suppression_score),
       ("tone_neutrality", PyJson.JVal.f Scenario.sampleStride.tone_analysis.tone_neutrality),
       ("drift_severity", PyJson.JVal.f Scenario.sampleStride.drift_detection.drift_severity)]) =
    "\x7b\"boundaries_satisfied\": true, \"drift_severity\": 0.0, \"slope_resolution\": true, \"structural_score\": 0.85, \"suppression_score\": 0.0, \"taper_achieved\": false, \"tone_neutrality\": 1.0\x7d" := by
  decide

/-- The serialized combined dictionary, fingerprint side. -/
theorem dumpCombinedSample :
    PyJson.dumps false (PyJson.JVal.obj
      [("content_hash", PyJson.JVal.s "fb88e4e05d08c80b67fa0a0cbbcfdd3cc88e42c603a66f897ed78d390de75e6c"),
       ("structure_hash", PyJson.JVal.s "bbf16c132554c3a4260f857dad6832535935ad8afbaa344ebf6706e577a09785"),
       ("logic_hash", PyJson.JVal.s "079e3cc46dae0774cb1f80b4df7f638845ef3056ad08a5bcf002d30cef6b4404"),
       ("generator_version", PyJson.JVal.s CertNodeConfig.CERTNODE_VERSION),
       ("algorithm", PyJson.JVal.s CertNodeConfig.HASH_ALGORITHM)]) =
    "\x7b\"algorithm\": \"sha256\", \"content_hash\": \"fb88e4e05d08c80b67fa0a0cbbcfdd3cc88e42c603a66f897ed78d390de75e6c\", \"generator_version\": \"v1.0.0\", \"logic_hash\": \"079e3cc46dae0774cb1f80b4df7f638845ef3056ad08a5bcf002d30cef6b4404\", \"structure_hash\": \"bbf16c132554c3a4260f857dad6832535935ad8afbaa344ebf6706e577a09785\"\x7d" := by
  decide

/-- The serialized combined dictionary, verification side (versions read from
the stored metadata rather than the configuration constants). -/
theorem dumpCombinedVerify :
    PyJson.dumps false (PyJson.JVal.obj
      [("content_hash", PyJson.JVal.s "fb88e4e05d08c80b67fa0a0cbbcfdd3cc88e42c603a66f897ed78d390de75e6c"),
       ("structure_hash", PyJson.JVal.s "bbf16c132554c3a4260f857dad6832535935ad8afbaa344ebf6706e577a09785"),
       ("logic_hash", PyJson.JVal.s "079e3cc46dae0774cb1f80b4df7f638845ef3056ad08a5bcf002d30cef6b4404"),
       ("generator_version", PyJson.JVal.s "v1.0.0"),
       ("algorithm", PyJson.JVal.s "sha256")]) =
    "\x7b\"algorithm\": \"sha256\", \"content_hash\": \"fb88e4e05d08c80b67fa0a0cbbcfdd3cc88e42c603a66f897ed78d390de75e6c\", \"generator_version\": \"v1.0.0\", \"logic_hash\": \"079e3cc46dae0774cb1f80b4df7f638845ef3056ad08a5bcf002d30cef6b4404\", \"structure_hash\": \"bbf16c132554c3a4260f857dad6832535935ad8afbaa344ebf6706e577a09785\"\x7d" := by
  decide

/-- The serialized genesis system state at wall clock `...000400`. -/
theorem dumpGenesis400 :
    PyJson.dumps true (PyJson.JVal.obj
      [("versions", PyJson.JVal.obj
         [("frame", PyJson.JVal.s CertNodeConfig.FRAME_VERSION),
          ("stride", PyJson.JVal.s CertNodeConfig.STRIDE_VERSION),
          ("cdp", PyJson.JVal.s CertNodeConfig.CDP_VERSION),
          ("secl", PyJson.JVal.s CertNodeConfig.SECL_VERSION),
          ("lcl", PyJson.JVal.s CertNodeConfig.LCL_VERSION),
          ("certnode", PyJson.JVal.s CertNodeConfig.CERTNODE_VERSION)]),
       ("operator", PyJson.JVal.s CertNodeConfig.OPERATOR),
       ("timestamp", PyJson.JVal.s "2025-06-01T12:00:00.000400"),
       ("slope_types", PyJson.JVal.arr (CertNodeConfig.SLOPE_TYPE_KEYS.map PyJson.JVal.s)),
       ("anchor_types", PyJson.JVal.arr (CertNodeConfig.ANCHOR_TYPE_KEYS.map PyJson.JVal.s))]) =
    "\x7b\"anchor_types\": [\"PRIMARY_SOURCE\", \"SYNTHETIC_RATIONALE\", \"CROSS_SOURCED_LOGIC\", \"CONTEXTUAL_RECALL\"], \"operator\": \"SRB Creative Holdings LLC\", \"slope_types\": [\"INSTRUCTIONAL\", \"RECURSIVE\", \"DIAGNOSTIC\", \"COMPARATIVE\", \"THEORETICAL\", \"PERSUASIVE\"], \"timestamp\": \"2025-06-01T12:00:00.000400\", \"versions\": \x7b\"cdp\": \"v1.0.3\", \"certnode\": \"v1.0.0\", \"frame\": \"v3.0.1\", \"lcl\": \"v1.1\", \"secl\": \"v1.0\", \"stride\": \"L1\\u2191.3\"\x7d\x7d" := by
  decide

/-- The serialized genesis system state at wall clock `...000401`. -/
theorem dumpGenesis401 :
    PyJson.dumps true (PyJson.JVal.obj
      [("versions", PyJson.JVal.obj
         [("frame", PyJson.JVal.s CertNodeConfig.FRAME_VERSION),
          ("stride", PyJson.JVal.s CertNodeConfig.STRIDE_VERSION),
          ("cdp", PyJson.JVal.s CertNodeConfig.CDP_VERSION),
          ("secl", PyJson.JVal.s CertNodeConfig.SECL_VERSION),
          ("lcl", PyJson.JVal.s CertNodeConfig.LCL_VERSION),
          ("certnode", PyJson.JVal.s CertNodeConfig.CERTNODE_VERSION)]),
       ("operator", PyJson.JVal.s CertNodeConfig.OPERATOR),
       ("timestamp", PyJson.JVal.s "2025-06-01T12:00:00.000401"),
       ("slope_types", PyJson.JVal.arr (CertNodeConfig.SLOPE_TYPE_KEYS.map PyJson.JVal.s)),
       ("anchor_types", PyJson.JVal.arr (CertNodeConfig.ANCHOR_TYPE_KEYS.map PyJson.JVal.s))]) =
    "\x7b\"anchor_types\": [\"PRIMARY_SOURCE\", \"SYNTHETIC_RATIONALE\", \"CROSS_SOURCED_LOGIC\", \"CONTEXTUAL_RECALL\"], \"operator\": \"SRB Creative Holdings LLC\", \"slope_types\": [\"INSTRUCTIONAL\", \"RECURSIVE\", \"DIAGNOSTIC\", \"COMPARATIVE\", \"THEORETICAL\", \"PERSUASIVE\"], \"timestamp\": \"2025-06-01T12:00:00.000401\", \"versions\": \x7b\"cdp\": \"v1.0.3\", \"certnode\": \"v1.0.0\", \"frame\": \"v3.0.1\", \"lcl\": \"v1.1\", \"secl\": \"v1.0\", \"stride\": \"L1\\u2191.3\"\x7d\x7d" := by
  decide

/-- The serialized vault-anchor dictionary built from the stored genesis
hash (wall clock `...000400`). -/
theorem dumpAnchor400 :
    PyJson.dumps false (PyJson.JVal.obj
      [("combined_hash", PyJson.JVal.s "ab9890da031ca907e8b384b289a6a25ef843bbd82a1d54e018655d0567f49e15"),
       ("cert_id", PyJson.JVal.s "3f2b8e04-5a17-4c2e-9b6d-8d41c7a90e12"),
       ("timestamp", PyJson.JVal.s "2025-06-01T12:00:00.000300+00:00"),
       ("operator", PyJson.JVal.s "SRB Creative Holdings LLC"),
       ("genesis_hash", PyJson.JVal.s "a02c3f272397b2184c418a0b366c3ead743dbc44183408edf0ab5d5c34955995")]) =
    "\x7b\"cert_id\": \"3f2b8e04-5a17-4c2e-9b6d-8d41c7a90e12\", \"combined_hash\": \"ab9890da031ca907e8b384b289a6a25ef843bbd82a1d54e018655d0567f49e15\", \"genesis_hash\": \"a02c3f272397b2184c418a0b366c3ead743dbc44183408edf0ab5d5c34955995\", \"operator\": \"SRB Creative Holdings LLC\", \"timestamp\": \"2025-06-01T12:00:00.000300+00:00\"\x7d" := by
  decide

/-- The serialized vault-anchor dictionary as recomputed at verification
time (wall clock `...000401`). -/
theorem dumpAnchor401 :
    PyJson.dumps false (PyJson.JVal.obj
      [("combined_hash", PyJson.JVal.s "ab9890da031ca907e8b384b289a6a25ef843bbd82a1d54e018655d0567f49e15"),
       ("cert_id", PyJson.JVal.s "3f2b8e04-5a17-4c2e-9b6d-8d41c7a90e12"),
       ("timestamp", PyJson.JVal.s "2025-06-01T12:00:00.000300+00:00"),
       ("operator", PyJson.JVal.s "SRB Creative Holdings LLC"),
       ("genesis_hash", PyJson.JVal.s "85b97680c1030a45aa65c8fabd09a97062fe311d421fed7369979cacf058bfd6")]) =
    "\x7b\"cert_id\": \"3f2b8e04-5a17-4c2e-9b6d-8d41c7a90e12\", \"combined_hash\": \"ab9890da031ca907e8b384b289a6a25ef843bbd82a1d54e018655d0567f49e15\", \"genesis_hash\": \"85b97680c1030a45aa65c8fabd09a97062fe311d421fed7369979cacf058bfd6\", \"operator\": \"SRB Creative Holdings LLC\", \"timestamp\": \"2025-06-01T12:00:00.000300+00:00\"\x7d" := by
  decide

/-- The genesis hash at wall clock `...000400`. -/
theorem genesisHash400 :
    CertNodeConfig.get_genesis_hash "2025-06-01T12:00:00.000400" = "a02c3f272397b2184c418a0b366c3ead743dbc44183408edf0ab5d5c34955995" := by
  unfold CertNodeConfig.get_genesis_hash
  dsimp only
  rw [dumpGenesis400, sha_gen400_hex]

/-- The genesis hash at wall clock `...000401`. -/
theorem genesisHash401 :
    CertNodeConfig.get_genesis_hash "2025-06-01T12:00:00.000401" = "85b97680c1030a45aa65c8fabd09a97062fe311d421fed7369979cacf058bfd6" := by
  unfold CertNodeConfig.get_genesis_hash
  dsimp only
  rw [dumpGenesis401, sha_gen401_hex]

/-- The fingerprint of the sample run equals the literal fingerprint. -/
theorem fingerprintSample :
    ICS.generate_fingerprint Scenario.sampleRequest.content Scenario.sampleCdp
      Scenario.sampleFrame Scenario.sampleStride = fpLit := by
  unfold ICS.generate_fingerprint ICS.hash_content ICS.hash_data
  dsimp only
  rw [contentSampleLit, sha_content_hex]
  rw [dumpStructSample, sha_structJ_hex]
  rw [dumpLogicSample, sha_logicJ_hex]
  rw [dumpCombinedSample, sha_combinedJ_hex]
  rfl

/-- The metadata of the sample run equals the literal metadata. -/
theorem metadataSample :
    ICS.create_metadata Scenario.sampleRequest.cert_type Scenario.sampleRequest.author_id
      Scenario.sampleClock.uuidStr Scenario.sampleClock.metaNowIso = metaLit := by
  decide

/-- The vault anchor stored by the sample run. -/
theorem anchorStored :
    ICS.generate_vault_anchor fpLit metaLit Scenario.sampleClock.genesisNowIso1 =
      "8e40fc704196dee84d1b2c6f28f269fe639f13630a8e6c663ecdd2803e9756f6" := by
  unfold ICS.generate_vault_anchor ICS.hash_data
  rw [show Scenario.sampleClock.genesisNowIso1 = "2025-06-01T12:00:00.000400" from rfl]
  rw [genesisHash400]
  dsimp only [fpLit, metaLit]
  rw [dumpAnchor400, sha_anch400_hex]

/-- The vault anchor recomputed during verification one microsecond later. -/
theorem anchorRecomputed :
    ICS.generate_vault_anchor fpLit metaLit Scenario.verifyGenesisIso =
      "6a0de1790481befada73c720dc35d9c04f3b48efc5110af0adaced26640f383b" := by
  unfold ICS.generate_vault_anchor ICS.hash_data
  rw [show Scenario.verifyGenesisIso = "2025-06-01T12:00:00.000401" from rfl]
  rw [genesisHash401]
  dsimp only [fpLit, metaLit]
  rw [dumpAnchor401, sha_anch401_hex]

/-- The fingerprint field of the sample signature. -/
theorem sigFingerprint : Scenario.sampleSig.fingerprint = fpLit :=
  fingerprintSample

/-- The metadata field of the sample signature. -/
theorem sigMetadata : Scenario.sampleSig.metadata = metaLit :=
  metadataSample

/-- The vault-anchor field of the sample signature. -/
theorem sigVaultAnchor : Scenario.sampleSig.vault_anchor = "8e40fc704196dee84d1b2c6f28f269fe639f13630a8e6c663ecdd2803e9756f6" := by
  show ICS.generate_vault_anchor
      (ICS.generate_fingerprint Scenario.sampleRequest.content Scenario.sampleCdp
        Scenario.sampleFrame Scenario.sampleStride)
      (ICS.create_metadata Scenario.sampleRequest.cert_type Scenario.sampleRequest.author_id
        Scenario.sampleClock.uuidStr Scenario.sampleClock.metaNowIso)
      Scenario.sampleClock.genesisNowIso1 = _
  rw [fingerprintSample, metadataSample]
  exact anchorStored

/-- Verifying the unchanged sample content against the sample signature:
invalid, with exactly the vault-anchor failure. -/
theorem verifySampleRun :
    ICS.verify_signature Scenario.sampleRequest.content Scenario.sampleSig
      Scenario.verifyGenesisIso Scenario.verifyNowUs = (false, [ICS.anchorMismatchMsg]) := by
  unfold ICS.verify_signature ICS.hash_content ICS.hash_data
  rw [sigFingerprint, sigMetadata, sigVaultAnchor]
  rw [contentSampleLit, sha_content_hex]
  rw [anchorRecomputed]
  dsimp only [fpLit, metaLit]
  rw [dumpCombinedVerify, sha_combinedJ_hex]
  decide

/-- Verifying the mutated content against the sample signature: invalid,
with the content-hash mismatch and the vault-anchor failure. -/
theorem verifyMutatedRun :
    ICS.verify_signature Scenario.mutatedContent Scenario.sampleSig
      Scenario.verifyGenesisIso Scenario.verifyNowUs =
      (false, [ICS.contentMismatchMsg, ICS.anchorMismatchMsg]) := by
  unfold ICS.verify_signature ICS.hash_content ICS.hash_data
  rw [sigFingerprint, sigMetadata, sigVaultAnchor]
  rw [contentMutatedLit, sha_mutated_hex]
  rw [anchorRecomputed]
  dsimp only [fpLit, metaLit]
  rw [dumpCombinedVerify, sha_combinedJ_hex]
  decide

/-- The CDP stage of the sample run produces `sampleCdp`. -/
theorem runCdp :
    CDP.process_content Scenario.sampleRequest.content Scenario.sampleRequest.author_id =
      some Scenario.sampleCdp :=
  (Option.some_get _).symm

/-- The certification gate passes on the sample analyses. -/
theorem runGate :
    CertNodeProcessor.determine_certification_success Scenario.sampleCdp
      (FRAME.process_content Scenario.sampleCdp Scenario.sampleClock.frameNowIso)
      (STRIDE.process_content Scenario.sampleCdp Scenario.sampleClock.strideNowIso)
      (CertNodeProcessor.calculate_certification_score Scenario.sampleCdp
        (FRAME.process_content Scenario.sampleCdp Scenario.sampleClock.frameNowIso)
        (STRIDE.process_content Scenario.sampleCdp Scenario.sampleClock.strideNowIso)) =
      true := by
  decide

/-- The sample run succeeds. -/
theorem runSuccess : Scenario.sampleRun.success = true := by
  unfold Scenario.sampleRun CertNodeProcessor.certify_content
  rw [runCdp]
  dsimp only
  exact runGate

/-- The sample run issues exactly the sample signature. -/
theorem runSignature : Scenario.sampleRun.ics_signature = some Scenario.sampleSig := by
  unfold Scenario.sampleRun CertNodeProcessor.certify_content
  rw [runCdp]
  dsimp only
  rw [runGate]
  exact rfl

/-- The FRAME boundary verdict does not depend on the FRAME wall clock. -/
theorem frame_clock_boundaries (cdp : CDP.CDPResult) (t1 t2 : String) :
    (FRAME.process_content cdp t1).boundaries_satisfied =
      (FRAME.process_content cdp t2).boundaries_satisfied := rfl

/-- The FRAME structural score does not depend on the FRAME wall clock. -/
theorem frame_clock_score (cdp : CDP.CDPResult) (t1 t2 : String) :
    (FRAME.process_content cdp t1).structural_score =
      (FRAME.process_content cdp t2).structural_score := rfl

/-- The FRAME taper analysis does not depend on the FRAME wall clock. -/
theorem frame_clock_taper (cdp : CDP.CDPResult) (t1 t2 : String) :
    (FRAME.process_content cdp t1).taper_analysis =
      (FRAME.process_content cdp t2).taper_analysis := rfl

/-- The FRAME slope-resolution verdict does not depend on the FRAME wall clock. -/
theorem frame_clock_slope (cdp : CDP.CDPResult) (t1 t2 : String) :
    (FRAME.process_content cdp t1).slope_resolution =
      (FRAME.process_content cdp t2).slope_resolution := rfl

/-- The STRIDE suppression score does not depend on the STRIDE wall clock. -/
theorem stride_clock_suppression (cdp : CDP.CDPResult) (t1 t2 : String) :
    (STRIDE.process_content cdp t1).suppression_score =
      (STRIDE.process_content cdp t2).suppression_score := rfl

/-- The STRIDE tone analysis does not depend on the STRIDE wall clock. -/
theorem stride_clock_tone (cdp : CDP.CDPResult) (t1 t2 : String) :
    (STRIDE.process_content cdp t1).tone_analysis =
      (STRIDE.process_content cdp t2).tone_analysis := rfl

/-- The STRIDE drift detection does not depend on the STRIDE wall clock. -/
theorem stride_clock_drift (cdp : CDP.CDPResult) (t1 t2 : String) :
    (STRIDE.process_content cdp t1).drift_detection =
      (STRIDE.process_content cdp t2).drift_detection := rfl

/-- The certification gate verdict is the same for any two run clocks. -/
theorem gate_clock (cdp : CDP.CDPResult) (t1 t2 u1 u2 : String) :
    CertNodeProcessor.determine_certification_success cdp
      (FRAME.process_content cdp t1) (STRIDE.process_content cdp u1)
      (CertNodeProcessor.calculate_certification_score cdp
        (FRAME.process_content cdp t1) (STRIDE.process_content cdp u1)) =
    CertNodeProcessor.determine_certification_success cdp
      (FRAME.process_content cdp t2) (STRIDE.process_content cdp u2)
      (CertNodeProcessor.calculate_certification_score cdp
        (FRAME.process_content cdp t2) (STRIDE.process_content cdp u2)) := by
  unfold CertNodeProcessor.determine_certification_success
    CertNodeProcessor.calculate_certification_score
  rw [frame_clock_score cdp t1 t2, stride_clock_suppression cdp u1 u2,
    frame_clock_boundaries cdp t1 t2, stride_clock_drift cdp u1 u2]

/-- The fingerprint is the same for any two run clocks. -/
theorem fingerprint_clock (content : String) (cdp : CDP.CDPResult)
    (t1 t2 u1 u2 : String) :
    ICS.generate_fingerprint content cdp (FRAME.process_content cdp t1)
      (STRIDE.process_content cdp u1) =
    ICS.generate_fingerprint content cdp (FRAME.process_content cdp t2)
      (STRIDE.process_content cdp u2) := by
  unfold ICS.generate_fingerprint
  rw [frame_clock_boundaries cdp t1 t2, frame_clock_score cdp t1 t2,
    frame_clock_taper cdp t1 t2, frame_clock_slope cdp t1 t2,
    stride_clock_suppression cdp u1 u2, stride_clock_tone cdp u1 u2,
    stride_clock_drift cdp u1 u2]

/-- Claim C3: two certification runs on identical content, cert type and
author id produce identical fingerprints — the content, structure, logic and
combined hashes agree across the runs — whatever the wall clocks and
certificate ids of the two runs. -/
theorem claim_C3_fingerprint_deterministic
    (r1 r2 : CertNodeProcessor.CertificationRequest)
    (c1 c2 : CertNodeProcessor.RunClock)
    (hc : r1.content = r2.content) (ht : r1.cert_type = r2.cert_type)
    (ha : r1.author_id = r2.author_id) :
    (CertNodeProcessor.certify_content r1 c1).ics_signature.map
        (fun s => s.fingerprint) =
      (CertNodeProcessor.certify_content r2 c2).ics_signature.map
        (fun s => s.fingerprint) := by
  unfold CertNodeProcessor.certify_content
  rw [hc, ht, ha]
  cases hcdp : CDP.process_content r2.content r2.author_id with
  | none => rfl
  | some cdp =>
    dsimp only
    rw [gate_clock cdp c1.frameNowIso c2.frameNowIso c1.strideNowIso c2.strideNowIso]
    split_ifs with h
    · refine congrArg some ?_
      show ICS.generate_fingerprint r2.content cdp
          (FRAME.process_content cdp c1.frameNowIso)
          (STRIDE.process_content cdp c1.strideNowIso) =
        ICS.generate_fingerprint r2.content cdp
          (FRAME.process_content cdp c2.frameNowIso)
          (STRIDE.process_content cdp c2.strideNowIso)
      exact fingerprint_clock r2.content cdp c1.frameNowIso c2.frameNowIso
        c1.strideNowIso c2.strideNowIso
    · rfl

/-- Witness for C3 at the sample request with two distinct run clocks. -/
theorem claim_C3_witness :
    Scenario.sampleRequest.content = Scenario.sampleRequest.content ∧
    (CertNodeProcessor.certify_content Scenario.sampleRequest Scenario.sampleClock).ics_signature.map
        (fun s => s.fingerprint) =
      (CertNodeProcessor.certify_content Scenario.sampleRequest Scenario.altClock).ics_signature.map
        (fun s => s.fingerprint) :=
  ⟨rfl, claim_C3_fingerprint_deterministic Scenario.sampleRequest Scenario.sampleRequest
    Scenario.sampleClock Scenario.altClock rfl rfl rfl⟩


/-! ### Helper lemmas -/

theorem Py.stripList_length_le (l : List Char) : (Py.stripList l).length ≤ l.length := by
  unfold Py.stripList
  calc ((l.dropWhile Py.isSpace).reverse.dropWhile Py.isSpace).reverse.length
      = ((l.dropWhile Py.isSpace).reverse.dropWhile Py.isSpace).length := by
        simp
    _ ≤ (l.dropWhile Py.isSpace).reverse.length :=
        Py.dropWhile_len_le _ _
    _ = (l.dropWhile Py.isSpace).length := by simp
    _ ≤ l.length := Py.dropWhile_len_le _ _

theorem Py.strip_length_le (s : String) : (Py.strip s).length ≤ s.length :=
  Py.stripList_length_le s.data

theorem meanQ_nonneg (l : List ℚ) (h : ∀ x ∈ l, 0 ≤ x) : 0 ≤ meanQ l := by
  unfold meanQ
  exact div_nonneg (List.sum_nonneg h) (Nat.cast_nonneg _)

theorem meanQ_le_one (l : List ℚ) (h : ∀ x ∈ l, x ≤ 1) : meanQ l ≤ 1 := by
  unfold meanQ
  rcases Decidable.em (l = []) with rfl | hne
  · simp
  · have hlen : (0 : ℚ) < l.length := by
      have := List.length_pos.mpr hne
      exact_mod_cast this
    rw [div_le_one hlen]
    have := List.sum_le_card_nsmul l 1 h
    simpa using this

theorem meanQ_bounds (l : List ℚ) (h : ∀ x ∈ l, 0 ≤ x ∧ x ≤ 1) :
    0 ≤ meanQ l ∧ meanQ l ≤ 1 :=
  ⟨meanQ_nonneg l fun x hx => (h x hx).1, meanQ_le_one l fun x hx => (h x hx).2⟩

theorem CDP.mapA_mem {α β : Type} {f : α → Option β} :
    ∀ {l : List α} {ys : List β}, CDP.mapA f l = some ys →
      ∀ y ∈ ys, ∃ x ∈ l, f x = some y := by
  intro l
  induction l with
  | nil =>
    intro ys h y hy
    simp [CDP.mapA] at h
    subst h
    simp at hy
  | cons a rest ih =>
    intro ys h y hy
    simp only [CDP.mapA, Option.bind_eq_bind] at h
    cases hfa : f a with
    | none => rw [hfa] at h; simp at h
    | some b =>
      rw [hfa] at h
      cases hrest : CDP.mapA f rest with
      | none => rw [hrest] at h; simp at h
      | some bs =>
        rw [hrest] at h
        simp at h
        subst h
        rcases List.mem_cons.mp hy with rfl | hy2
        · exact ⟨a, List.mem_cons_self _ _, hfa⟩
        · obtain ⟨x, hx, hfx⟩ := ih hrest y hy2
          exact ⟨x, List.mem_cons_of_mem _ hx, hfx⟩

theorem CDP.calculate_logic_weight_bounds {content : String} {sentences : List String}
    {lw : ℚ} (h : CDP.calculate_logic_weight content sentences = some lw) :
    0 ≤ lw ∧ lw ≤ 1 := by
  unfold CDP.calculate_logic_weight at h
  split at h
  · exact absurd h (by simp)
  · simp only [Option.some.injEq] at h
    subst h
    constructor
    · apply le_min _ zero_le_one
      apply div_nonneg _ (by norm_num)
      apply mul_nonneg (Nat.cast_nonneg _)
      apply le_min _ (by norm_num)
      apply div_nonneg _ (by norm_num)
      exact meanQ_nonneg _ fun x hx => by
        obtain ⟨sentence, _, rfl⟩ := List.mem_map.mp hx
        exact Nat.cast_nonneg _
    · exact min_le_right _ _

theorem CDP.calculate_clause_density_bounds (sentences : List String) :
    0 ≤ CDP.calculate_clause_density sentences ∧
      CDP.calculate_clause_density sentences ≤ 1 := by
  unfold CDP.calculate_clause_density
  split
  · norm_num
  · constructor
    · apply le_min _ zero_le_one
      apply div_nonneg _ (by norm_num)
      exact div_nonneg (Nat.cast_nonneg _) (Nat.cast_nonneg _)
    · exact min_le_right _ _

theorem CDP.calculate_resolution_score_bounds (content : String)
    (sentences : List String) :
    0 ≤ CDP.calculate_resolution_score content sentences ∧
      CDP.calculate_resolution_score content sentences ≤ 1 := by
  have auxSub : ∀ k : ℚ, 0 ≤ k → 3/10 - k * (1/10) ≤ 1 := fun k hk => by linarith
  unfold CDP.calculate_resolution_score
  split
  · norm_num
  · split
    · norm_num
    · dsimp only
      split
      · constructor
        · apply le_min _ zero_le_one
          positivity
        · exact min_le_right _ _
      · split
        · constructor
          · exact le_max_right _ _
          · exact max_le (auxSub _ (Nat.cast_nonneg _)) zero_le_one
        · norm_num

theorem CDP.analyze_paragraph_bounds {content : String} {pos total : Nat}
    {p : CDP.ParagraphAnalysis}
    (h : CDP.analyze_paragraph content pos total = some p) :
    (0 ≤ p.logic_weight ∧ p.logic_weight ≤ 1) ∧
    (0 ≤ p.clause_density ∧ p.clause_density ≤ 1) ∧
    (0 ≤ p.resolution_score ∧ p.resolution_score ≤ 1) := by
  unfold CDP.analyze_paragraph at h
  simp only [Option.bind_eq_bind] at h
  cases hlw : CDP.calculate_logic_weight content (Py.splitSentences content) with
  | none => rw [hlw] at h; simp at h
  | some lw =>
    rw [hlw] at h
    simp only [Option.some_bind, Option.some.injEq] at h
    subst h
    exact ⟨CDP.calculate_logic_weight_bounds hlw,
      CDP.calculate_clause_density_bounds _,
      CDP.calculate_resolution_score_bounds content (Py.splitSentences content)⟩

theorem CDP.process_content_spec {content : String} {author : Option String}
    {r : CDP.CDPResult} (h : CDP.process_content content author = some r) :
    (∀ p ∈ r.paragraphs, ∃ x pos,
        CDP.analyze_paragraph x pos (CDP.extract_paragraphs content).length = some p) ∧
    r.structural_integrity = CDP.calculate_structural_integrity r.paragraphs ∧
    r.logic_continuity = CDP.calculate_logic_continuity r.paragraphs ∧
    r.convergence_achieved = CDP.assess_convergence r.paragraphs := by
  unfold CDP.process_content at h
  simp only [Option.bind_eq_bind] at h
  cases hm : CDP.mapA
      (fun p => CDP.analyze_paragraph p.2 p.1 (CDP.extract_paragraphs content).length)
      (CDP.enumIdx (CDP.extract_paragraphs content)) with
  | none => rw [hm] at h; simp at h
  | some analyses =>
    rw [hm] at h
    simp only [Option.some_bind, Option.some.injEq] at h
    subst h
    refine ⟨?_, rfl, rfl, rfl⟩
    intro p hp
    obtain ⟨x, _, hfx⟩ := CDP.mapA_mem hm p hp
    exact ⟨x.2, x.1, hfx⟩

theorem CDP.paragraph_mem_bounds {content : String} {author : Option String}
    {r : CDP.CDPResult} (h : CDP.process_content content author = some r) :
    ∀ p ∈ r.paragraphs,
      (0 ≤ p.logic_weight ∧ p.logic_weight ≤ 1) ∧
      (0 ≤ p.clause_density ∧ p.clause_density ≤ 1) ∧
      (0 ≤ p.resolution_score ∧ p.resolution_score ≤ 1) := by
  intro p hp
  obtain ⟨x, pos, hfx⟩ := (CDP.process_content_spec h).1 p hp
  exact CDP.analyze_paragraph_bounds hfx

theorem CDP.structural_integrity_bounds (paragraphs : List CDP.ParagraphAnalysis)
    (hb : ∀ p ∈ paragraphs,
      (0 ≤ p.logic_weight ∧ p.logic_weight ≤ 1) ∧
      (0 ≤ p.clause_density ∧ p.clause_density ≤ 1) ∧
      (0 ≤ p.resolution_score ∧ p.resolution_score ≤ 1)) :
    0 ≤ CDP.calculate_structural_integrity paragraphs ∧
      CDP.calculate_structural_integrity paragraphs ≤ 1 := by
  unfold CDP.calculate_structural_integrity
  split
  · norm_num
  · have h1 := meanQ_bounds (paragraphs.map (·.logic_weight)) (by
      intro x hx
      obtain ⟨p, hp, rfl⟩ := List.mem_map.mp hx
      exact (hb p hp).1)
    have h2 := meanQ_bounds (paragraphs.map (·.clause_density)) (by
      intro x hx
      obtain ⟨p, hp, rfl⟩ := List.mem_map.mp hx
      exact (hb p hp).2.1)
    have h3 := meanQ_bounds (paragraphs.map (·.resolution_score)) (by
      intro x hx
      obtain ⟨p, hp, rfl⟩ := List.mem_map.mp hx
      exact (hb p hp).2.2)
    constructor
    · apply div_nonneg _ (by norm_num)
      linarith [h1.1, h2.1, h3.1]
    · rw [div_le_one (by norm_num : (0:ℚ) < 3)]
      linarith [h1.2, h2.2, h3.2]

theorem CDP.logic_continuity_bounds (paragraphs : List CDP.ParagraphAnalysis)
    (hb : ∀ p ∈ paragraphs,
      (0 ≤ p.logic_weight ∧ p.logic_weight ≤ 1) ∧
      (0 ≤ p.clause_density ∧ p.clause_density ≤ 1) ∧
      (0 ≤ p.resolution_score ∧ p.resolution_score ≤ 1)) :
    0 ≤ CDP.calculate_logic_continuity paragraphs ∧
      CDP.calculate_logic_continuity paragraphs ≤ 1 := by
  unfold CDP.calculate_logic_continuity
  split
  · norm_num
  · apply meanQ_bounds
    intro x hx
    obtain ⟨pair, hpair, rfl⟩ := List.mem_map.mp hx
    have hmem := List.of_mem_zip hpair
    have hcur := hb pair.1 hmem.1
    have hnext := hb pair.2 (List.mem_of_mem_tail hmem.2)
    dsimp only
    have hsc : (1:ℚ)/2 ≤ (if pair.1.slope_type = pair.2.slope_type then (1:ℚ) else 1/2) ∧
        (if pair.1.slope_type = pair.2.slope_type then (1:ℚ) else 1/2) ≤ 1 := by
      split <;> norm_num
    have habs : (0:ℚ) ≤ |pair.1.logic_weight - pair.2.logic_weight| := abs_nonneg _
    have hwc : (0:ℚ) ≤ max 0 (1 - |pair.1.logic_weight - pair.2.logic_weight|) ∧
        max 0 (1 - |pair.1.logic_weight - pair.2.logic_weight|) ≤ 1 :=
      ⟨le_max_left _ _, max_le zero_le_one (by linarith)⟩
    have hts : (0:ℚ) ≤ (pair.1.resolution_score + pair.2.logic_weight) / 2 ∧
        (pair.1.resolution_score + pair.2.logic_weight) / 2 ≤ 1 := by
      constructor
      · apply div_nonneg _ (by norm_num)
        linarith [hcur.2.2.1, hnext.1.1]
      · rw [div_le_one (by norm_num : (0:ℚ) < 2)]
        linarith [hcur.2.2.2, hnext.1.2]
    constructor
    · apply div_nonneg _ (by norm_num)
      linarith [hsc.1, hwc.1, hts.1]
    · rw [div_le_one (by norm_num : (0:ℚ) < 3)]
      linarith [hsc.2, hwc.2, hts.2]

/-! ### Claim theorems -/

/-- Claim C10: every `ParagraphAnalysis` produced by CDP has `logic_weight`,
`clause_density` and `resolution_score` in the closed interval `[0, 1]`, and
the aggregate `structural_integrity` and `logic_continuity` of every
`CDPResult` also lie in `[0, 1]`. -/
theorem claim_C10_cdp_score_invariants (content : String) (author : Option String)
    (r : CDP.CDPResult) (h : CDP.process_content content author = some r) :
    (∀ p ∈ r.paragraphs,
      (0 ≤ p.logic_weight ∧ p.logic_weight ≤ 1) ∧
      (0 ≤ p.clause_density ∧ p.clause_density ≤ 1) ∧
      (0 ≤ p.resolution_score ∧ p.resolution_score ≤ 1)) ∧
    (0 ≤ r.structural_integrity ∧ r.structural_integrity ≤ 1) ∧
    (0 ≤ r.logic_continuity ∧ r.logic_continuity ≤ 1) := by
  have hb := CDP.paragraph_mem_bounds h
  obtain ⟨_, hsi, hlc, _⟩ := CDP.process_content_spec h
  refine ⟨hb, ?_, ?_⟩
  · rw [hsi]
    exact CDP.structural_integrity_bounds r.paragraphs hb
  · rw [hlc]
    exact CDP.logic_continuity_bounds r.paragraphs hb

/-- Witness for C10: the invariants instantiated at the one-word document
`"x"` (no qualifying paragraphs, integrity 0, continuity 1). -/
theorem claim_C10_witness :
    CDP.process_content "x" none = some Scenario.shortCdp ∧
    (0 ≤ Scenario.shortCdp.structural_integrity ∧
      Scenario.shortCdp.structural_integrity ≤ 1) ∧
    (0 ≤ Scenario.shortCdp.logic_continuity ∧
      Scenario.shortCdp.logic_continuity ≤ 1) := by
  have hp : CDP.process_content "x" none = some Scenario.shortCdp :=
    (Option.some_get _).symm
  exact ⟨hp, (claim_C10_cdp_score_invariants "x" none Scenario.shortCdp hp).2⟩

/-- Claim C4: certification succeeds exactly when all four gate conditions
hold: the certification score is at least the configured threshold (0.7), CDP
convergence is achieved, FRAME boundaries are satisfied, and the STRIDE drift
severity is at most 0.7. -/
theorem claim_C4_gate_iff (cdp_result : CDP.CDPResult)
    (frame_result : FRAME.FRAMEResult) (stride_result : STRIDE.STRIDEResult) :
    CertNodeProcessor.determine_certification_success cdp_result frame_result
      stride_result
      (CertNodeProcessor.calculate_certification_score cdp_result frame_result
        stride_result) = true ↔
    (CertNodeConfig.CERTIFICATION_THRESHOLD ≤
        CertNodeProcessor.calculate_certification_score cdp_result frame_result
          stride_result ∧
      cdp_result.convergence_achieved = true ∧
      frame_result.boundaries_satisfied = true ∧
      stride_result.drift_detection.drift_severity ≤ 7/10) := by
  unfold CertNodeProcessor.determine_certification_success
  split_ifs with h1 h2 h3 h4 <;> simp_all

/-- Claim C9: for every `ICSSignature` value (as the dataclass is defined,
with no `author_signature` attribute), `store_certification` returns `False`
and leaves the vault unchanged: building the `VaultEntry` reads
`signature.author_signature`, raising `AttributeError` inside the catch-all
handler. -/
theorem claim_C9_store_always_false (signature : ICS.ICSSignature)
    (db : Vault.VaultDB) :
    Vault.store_certification signature db = (false, db) := rfl

/-- Counterexample to claim C5 as stated: the single-paragraph document
`Scenario.samplePara` yields exactly one analyzed paragraph (fewer than 2)
yet achieves `convergence_achieved = true`, because a lone paragraph gets
`logic_continuity = 1` by default and its own scores clear the 0.6 bars. -/
theorem claim_C5_counterexample :
    (CDP.process_content Scenario.samplePara none).map
      (fun r => (r.paragraphs.length, r.convergence_achieved)) = some (1, true) := by
  set_option maxRecDepth 1000000 in decide

/-- Claim C5, amended: a document with zero qualifying paragraphs after the
50-word filter cannot achieve convergence (`_assess_convergence` returns
`False` on an empty paragraph list); with exactly one qualifying paragraph
convergence is still possible, as the counterexample shows. -/
theorem claim_C5_amended_no_paragraphs_no_convergence (content : String)
    (author : Option String) (r : CDP.CDPResult)
    (h : CDP.process_content content author = some r)
    (hempty : r.paragraphs = []) : r.convergence_achieved = false := by
  obtain ⟨_, _, _, hconv⟩ := CDP.process_content_spec h
  rw [hconv, hempty]
  rfl

/-- Witness for the amended C5 at the one-word document `"x"`, which has no
qualifying paragraphs. -/
theorem claim_C5_amended_witness :
    CDP.process_content "x" none = some Scenario.shortCdp ∧
    Scenario.shortCdp.paragraphs = [] ∧
    Scenario.shortCdp.convergence_achieved = false := by
  have hp : CDP.process_content "x" none = some Scenario.shortCdp :=
    (Option.some_get _).symm
  have hempty : Scenario.shortCdp.paragraphs = [] := by decide
  exact ⟨hp, hempty,
    claim_C5_amended_no_paragraphs_no_convergence "x" none Scenario.shortCdp hp hempty⟩

/-- Claim C8: any content string shorter than 100 characters makes the
`certify` route return the `BadRequest` validation error before the
certification pipeline runs; the result is the same for every pipeline, so
no analyzer is invoked and no certificate is produced. -/
theorem claim_C8_short_content_validation {α : Type}
    (pipeline : CertNodeProcessor.CertificationRequest → α)
    (body : API.CertifyBody) (c : String) (hc : body.content = some c)
    (hlen : c.length < 100) :
    API.certify_route pipeline (some body) =
      Except.error "Content too short (minimum 100 characters)" := by
  have hstrip : (Py.strip c).length < 100 :=
    Nat.lt_of_le_of_lt (Py.strip_length_le c) hlen
  unfold API.certify_route API.certify_validate
  dsimp only
  rw [hc]
  dsimp only
  rw [if_pos hstrip]
  rfl

/-- Witness for C8: a concrete five-character body rejected by the route,
for two distinct pipelines. -/
theorem claim_C8_witness :
    ("short".length < 100) ∧
    API.certify_route (fun _ => (0 : Nat))
        (some { content := some "short" }) =
      Except.error "Content too short (minimum 100 characters)" ∧
    API.certify_route (fun r => r.content)
        (some { content := some "short" }) =
      Except.error "Content too short (minimum 100 characters)" :=
  ⟨by decide,
   claim_C8_short_content_validation (fun _ => (0 : Nat)) _ "short" rfl (by decide),
   claim_C8_short_content_validation (fun r => r.content) _ "short" rfl (by decide)⟩


/-- Claim C1 (code bug): on the sample document the certification run
succeeds and issues a certificate, yet `verify_signature` on the unchanged
content immediately afterwards returns invalid with exactly the vault-anchor
failure: the anchor recomputation calls `get_genesis_hash()` again at a later
wall-clock instant, so it cannot reproduce the stored anchor. -/
theorem claim_C1_verify_after_certify_fails :
    Scenario.sampleRun.success = true ∧
    (Scenario.sampleRun.ics_signature.map fun s =>
        ICS.verify_signature Scenario.sampleRequest.content s
          Scenario.verifyGenesisIso Scenario.verifyNowUs) =
      some (false, [ICS.anchorMismatchMsg]) := by
  refine ⟨runSuccess, ?_⟩
  rw [runSignature]
  simp only [Option.map_some']
  rw [verifySampleRun]

/-- Claim C2 (code bug): `get_genesis_hash` is not a process-wide constant.
Two calls one microsecond apart — with every version and operator constant
unchanged — return different digests, because the hashed system state embeds
`datetime.utcnow().isoformat()`. -/
theorem claim_C2_genesis_hash_not_constant :
    CertNodeConfig.get_genesis_hash "2025-06-01T12:00:00.000400" =
      "a02c3f272397b2184c418a0b366c3ead743dbc44183408edf0ab5d5c34955995" ∧
    CertNodeConfig.get_genesis_hash "2025-06-01T12:00:00.000401" =
      "85b97680c1030a45aa65c8fabd09a97062fe311d421fed7369979cacf058bfd6" ∧
    CertNodeConfig.get_genesis_hash "2025-06-01T12:00:00.000400" ≠
      CertNodeConfig.get_genesis_hash "2025-06-01T12:00:00.000401" := by
  refine ⟨genesisHash400, genesisHash401, ?_⟩
  rw [genesisHash400, genesisHash401]
  decide

/-- Claim C6 (code bug): mutating one character of the certified sample
document (same length, hash differs) and re-verifying against the unchanged
certificate returns invalid with the content-hash mismatch — but not only
that error: the vault-anchor failure is reported as well. -/
theorem claim_C6_mutated_verify_two_errors :
    (Scenario.sampleRun.ics_signature.map fun s =>
        ICS.verify_signature Scenario.mutatedContent s
          Scenario.verifyGenesisIso Scenario.verifyNowUs) =
      some (false, [ICS.contentMismatchMsg, ICS.anchorMismatchMsg]) ∧
    Py.sha256Hex Scenario.mutatedContent ≠ Py.sha256Hex Scenario.sampleRequest.content ∧
    Scenario.mutatedContent.length = Scenario.sampleRequest.content.length := by
  refine ⟨?_, ?_, ?_⟩
  · rw [runSignature]
    simp only [Option.map_some']
    rw [verifyMutatedRun]
  · rw [contentMutatedLit, sha_mutated_hex, contentSampleLit, sha_content_hex]
    decide
  · decide

/-- Claim C7 (code bug): `store_certification` indeed never raises past its
boundary, but on a genuine `ICSSignature` — here the certificate issued by
the sample run — it returns `False` and leaves the vault unchanged even with
no uniqueness collision and no persistence error: the successful-insert path
returning `True` is unreachable because building the entry reads the missing
`author_signature` attribute. -/
theorem claim_C7_store_false_on_empty_vault :
    Vault.store_certification Scenario.sampleSig Scenario.emptyVault =
      (false, Scenario.emptyVault) := rfl
